import Mathlib

/-!
# 1Panel snapshot service: create / recover / rollback

A shallow embedding of `backend/app/service/snapshot.go`.

The service talks to the outside world (file system, `tar`, `systemctl`,
the docker daemon, the remote backup account, the record store).  Every such
call is a primitive below: it appends one `Event` to the world's trace and
takes its reply from an `Env`, an oracle that may answer differently
according to everything that happened before (the trace so far).  A theorem
quantified over `Env` therefore covers every behaviour of the host.

`SnapshotCreate` and `SnapshotRecover` start a goroutine; it is run to
completion right after the synchronous part (scheduling is not modelled).
`SnapshotRollback` runs synchronously.

The file has three parts: the embedding of the code, the predicates and
concrete hosts the statements use, and the theorems.
-/

namespace OnePanel

/-! ## Data model -/

/-- Modelled from the spec: `constant.StatusWaiting` (package `constant` is not among the sources). -/
def StatusWaiting : String := "Waiting"

/-- Modelled from the spec: `constant.StatusSuccess` (package `constant` is not among the sources). -/
def StatusSuccess : String := "Success"

/-- Modelled from the spec: `constant.StatusFailed` (package `constant` is not among the sources). -/
def StatusFailed : String := "Failed"

/-- Modelled from the spec: `model.Snapshot`, the persisted snapshot record
(package `model` is not among the sources); the fields are the ones the
service reads or updates. -/
structure Snapshot where
  ID : Nat
  Name : String
  Description : String
  From : String
  Version : String
  Status : String
  Message : String
  InterruptStep : String
  RecoverStatus : String
  RecoverMessage : String
  LastRecoveredAt : String
  RollbackStatus : String
  RollbackMessage : String
  LastRollbackedAt : String
  deriving DecidableEq

/-- The manifest `SnapshotJson` (snapshot.go 54-63). -/
structure SnapshotJson where
  OldDockerDataDir : String
  OldBackupDataDir : String
  OldPanelDataDir : String
  DockerDataDir : String
  BackupDataDir : String
  PanelDataDir : String
  LiveRestoreEnabled : Bool
  deriving DecidableEq

/-- The zero value `var snap SnapshotJson`. -/
def SnapshotJson.zero : SnapshotJson :=
  { OldDockerDataDir := "", OldBackupDataDir := "", OldPanelDataDir := "",
    DockerDataDir := "", BackupDataDir := "", PanelDataDir := "",
    LiveRestoreEnabled := false }

/-- The request `dto.SnapshotRecover` (fields used by the service). -/
structure SnapshotRecoverReq where
  IsNew : Bool
  ReDownload : Bool
  ID : Nat
  deriving DecidableEq

/-- The request `dto.SnapshotCreate`. -/
structure SnapshotCreateReq where
  From : String
  Description : String
  deriving DecidableEq

/-- The named steps of the recover sequence; `Step.name` is the string the
code stores in `interrupt_step`. -/
inductive Step where
  | Download | Decompress | Readjson | LoadDockerJson | UpdateLiveRestore
  | DockerDir | DaemonJson | PanelBinary | PctlBinary | PanelService
  | PanelBackups | PanelData
  deriving DecidableEq

/-- The label of a step, as written in the calls of `updateRecoverStatus`. -/
def Step.name : Step → String
  | .Download => "Download"
  | .Decompress => "Decompress"
  | .Readjson => "Readjson"
  | .LoadDockerJson => "LoadDockerJson"
  | .UpdateLiveRestore => "UpdateLiveRestore"
  | .DockerDir => "DockerDir"
  | .DaemonJson => "DaemonJson"
  | .PanelBinary => "1PanelBinary"
  | .PctlBinary => "1PctlBinary"
  | .PanelService => "1PanelService"
  | .PanelBackups => "1PanelBackups"
  | .PanelData => "1PanelData"

/-- Position of a step in the forward recover sequence. -/
def Step.idx : Step → Nat
  | .Download => 0
  | .Decompress => 1
  | .Readjson => 2
  | .LoadDockerJson => 3
  | .UpdateLiveRestore => 4
  | .DockerDir => 5
  | .DaemonJson => 6
  | .PanelBinary => 7
  | .PctlBinary => 8
  | .PanelService => 9
  | .PanelBackups => 10
  | .PanelData => 11

/-- The forward sequence of `SnapshotRecover`, in program order. -/
def forwardSteps : List Step :=
  [.Download, .Decompress, .Readjson, .LoadDockerJson, .UpdateLiveRestore,
   .DockerDir, .DaemonJson, .PanelBinary, .PctlBinary, .PanelService,
   .PanelBackups, .PanelData]

/-- The seven resource mutators, in the order of the recover sequence. -/
def mutatorSteps : List Step :=
  [.DockerDir, .DaemonJson, .PanelBinary, .PctlBinary, .PanelService,
   .PanelBackups, .PanelData]

/-! ## Events, oracle and world -/

/-- One call into the outside world. -/
inductive Event where
  /-- Call `os.Stat(path)`. -/
  | stat (path : String)
  /-- Call `os.MkdirAll(path, os.ModePerm)`. -/
  | mkdirAll (path : String)
  /-- Call `os.Remove(path)`. -/
  | remove (path : String)
  /-- Call `os.RemoveAll(path)`. -/
  | removeAll (path : String)
  /-- Call `os.ReadFile(path)` or `ioutil.ReadFile(path)`. -/
  | readFile (path : String)
  /-- Call `ioutil.WriteFile(path, content, 0640)`. -/
  | writeFile (path content : String)
  /-- Call `cmd.Exec(command)`, the `systemctl` lines. -/
  | exec (command : String)
  /-- Call `cmd.Exec` on the line `\cp -f src dst`, issued by `cpBinary`. -/
  | cp (src dst : String)
  /-- Run the command `tar args...` (`exec.Command` and `CombinedOutput`). -/
  | tar (args : List String)
  /-- Call `fileOp.CopyFile(src, dst)`. -/
  | copyFile (src dst : String)
  /-- Call `fileOp.Compress(srcs, dstDir, name, files.TarGz)`. -/
  | compress (srcs : List String) (dstDir name : String)
  /-- Call `fileOp.Decompress(src, dst, files.TarGz)`. -/
  | decompress (src dst : String)
  /-- Call `client.Download(src, dst)`. -/
  | download (src dst : String)
  /-- Call `backupAccont.Upload(src, dst)`. -/
  | upload (src dst : String)
  /-- Call `docker.NewDockerClient()` followed by `client.Info(ctx)`. -/
  | dockerInfo
  /-- Call `time.Sleep(10 * time.Second)`. -/
  | sleep
  /-- Call `snapshotRepo.Create(&snap)`. -/
  | dbCreate (name : String)
  /-- Call `snapshotRepo.Update(id, fields)`. -/
  | dbUpdate (id : Nat) (fields : List (String × String))
  deriving DecidableEq

abbrev History := List Event

/-- Reply of `os.Stat`: nil error, an error for which `os.IsNotExist` holds,
or any other error. -/
inductive StatResult where
  | ok
  | notExist (msg : String)
  | otherErr (msg : String)
  deriving DecidableEq

/-- The Go value `err` of a stat, `none` for nil. -/
def StatResult.err : StatResult → Option String
  | .ok => none
  | .notExist m => some m
  | .otherErr m => some m

/-- Reply of `loadDockerDataDir`'s two docker calls. -/
inductive DockerReply where
  | clientErr (msg : String)
  | infoErr (msg : String)
  | info (dockerRootDir : String) (liveRestoreEnabled : Bool)
  deriving DecidableEq

/-- The host, as an oracle.  Every reply may depend on the history of calls.
An `Option String` reply is a Go `error` (`none` is nil). -/
structure Env where
  /-- Value of `global.CONF.BaseDir`. -/
  BaseDir : String
  /-- Value of `constant.DaemonJsonPath`. -/
  DaemonJsonPath : String
  /-- Result of `time.Now().Format(layout)`. -/
  now : History → String → String
  /-- Error of `snapshotRepo.Get(commonRepo.WithByID(id))` -/
  snapshotGet : History → Nat → Option String
  /-- Result of `backupRepo.Get(commonRepo.WithByType(from))`: the backup's `Type`, or an error -/
  backupGet : History → String → Except String String
  /-- Error of `NewIBackupService().NewClient(&backup)` -/
  newClient : History → Option String
  /-- Result of `settingRepo.Get(settingRepo.WithByKey(key))`, its `Value`. -/
  settingGet : History → String → String
  /-- Result of `loadLocalDir()`. -/
  loadLocalDir : History → Except String String
  stat : History → String → StatResult
  mkdirAll : History → String → Option String
  readFile : History → String → Except String String
  writeFile : History → String → String → Option String
  /-- Result of `cmd.Exec`: the returned output and error. -/
  exec : History → String → String × Option String
  /-- Result of running `tar`: `some out` when the command failed with output `out` -/
  tar : History → List String → Option String
  copyFile : History → String → String → Option String
  compress : History → List String → String → String → Option String
  decompress : History → String → String → Option String
  /-- Result of `client.Download`: the pair `(ok, err)`. -/
  download : History → String → String → Bool × Option String
  /-- Result of `backupAccont.Upload`: the pair `(ok, err)`. -/
  upload : History → String → String → Bool × Option String
  dockerInfo : History → DockerReply
  /-- Result of `json.Unmarshal(bytes, &snap)` on a manifest. -/
  unmarshalSnapshotJson : String → Except String SnapshotJson
  /-- Result of `json.MarshalIndent(snapJson, "", "\t")`. -/
  marshalSnapshotJson : SnapshotJson → String
  /-- Result of `json.Unmarshal(file, &deamonMap)`: the keys and values of the map it
  leaves, `none` when it leaves the map nil, as it does on the JSON text `null`
  (the error is dropped by the code) -/
  unmarshalMap : String → Option (List (String × String))
  /-- The ID the store gives the record of `snapshotRepo.Create`. -/
  newID : History → Nat
  /-- Result of `json.MarshalIndent(deamonMap, "", "\t")`; `none` is the nil map. -/
  marshalMap : Option (List (String × String)) → Except String String

/-- The world an orchestrator works on: the trace of outside calls (oldest
first) and the persisted record the request is about. -/
structure World where
  trace : History
  snap : Snapshot
  deriving DecidableEq

/-- The outcome of one run of an orchestrator.  `log` and `finalized` are
ghost outputs, never read by the code: `log` lists, in program order, every
step the run invoked, under the label the code gives it, with `none` when
the step succeeded and `some e` when it failed (`e` renders its error as
`%v` does); `finalized` tells that the run went through its closing block
(remove the extracted directory, reload, restart the panel service, final
status update). -/
structure Run where
  world : World
  log : List (String × Option String)
  finalized : Bool
  /-- Set when the Go code panics: it dereferences a nil `error` or assigns to
  an entry of a nil map. -/
  crashed : Bool
  deriving DecidableEq

/-- A run that stops here, having invoked no further step. -/
def Run.stop (w : World) : Run :=
  { world := w, log := [], finalized := false, crashed := false }

/-- A run that ends here in a panic: the step under way does not return, so
it has no entry in `log`, and a synchronous caller gets no return value (the
error paired with such a run is `none`). -/
def Run.panic (w : World) : Run :=
  { world := w, log := [], finalized := false, crashed := true }

/-- Ghost: the step `s` returned `err` before the rest of the run `r`. -/
def Run.after (s : String) (err : Option String) (r : Run) : Run :=
  { r with log := (s, err) :: r.log }

/-- Every step the run invoked returned nil. -/
def Run.ok (r : Run) : Prop := ∀ p ∈ r.log, p.2 = none

instance (r : Run) : Decidable r.ok := by
  unfold Run.ok; infer_instance

/-- The labels of the steps the run invoked, in order. -/
def Run.names (r : Run) : List String := r.log.map Prod.fst

/-- Rendering of a Go error by `fmt.Sprintf("%v", err)`. -/
def fmtErr : Option String → String
  | none => "<nil>"
  | some m => m

/-! ## The record store -/

/-- One column assignment of `snapshotRepo.Update`. -/
def setColumn (s : Snapshot) (kv : String × String) : Snapshot :=
  if kv.1 = "status" then { s with Status := kv.2 }
  else if kv.1 = "message" then { s with Message := kv.2 }
  else if kv.1 = "interrupt_step" then { s with InterruptStep := kv.2 }
  else if kv.1 = "recover_status" then { s with RecoverStatus := kv.2 }
  else if kv.1 = "recover_message" then { s with RecoverMessage := kv.2 }
  else if kv.1 = "last_recovered_at" then { s with LastRecoveredAt := kv.2 }
  else if kv.1 = "rollback_status" then { s with RollbackStatus := kv.2 }
  else if kv.1 = "rollback_message" then { s with RollbackMessage := kv.2 }
  else if kv.1 = "last_rollbacked_at" then { s with LastRollbackedAt := kv.2 }
  else s

/-- Model of `snapshotRepo.Update(id, fields)`.  The world holds the one
record the request loaded, and `id` is always that record's ID; the store is
taken to be reliable (the code drops or only logs its error). -/
def repoUpdate (id : Nat) (fields : List (String × String)) (w : World) : World :=
  { trace := w.trace ++ [.dbUpdate id fields], snap := fields.foldl setColumn w.snap }

/-- Run an outside call on the world's trace. -/
def World.call {α : Type} (w : World) (f : History → α × History) : α × World :=
  ((f w.trace).1, { w with trace := (f w.trace).2 })

/-- Run an outside call on the world's trace and drop its result, as in
`_, _ = cmd.Exec(...)` or `_ = os.RemoveAll(...)`. -/
def World.exec {α : Type} (w : World) (f : History → α × History) : World :=
  { w with trace := (f w.trace).2 }

/-! ## Go library functions on strings and paths -/

/-- The pieces of `s` between occurrences of `sep`, as `strings.Split` with a
one-character separator returns them. -/
def splitChars (sep : Char) : List Char → List (List Char)
  | [] => [[]]
  | c :: cs =>
    if c = sep then [] :: splitChars sep cs
    else
      match splitChars sep cs with
      | [] => [[c]]
      | p :: ps => (c :: p) :: ps

/-- Go `strings.Split(s, sep)` for a one-character separator. -/
def stringsSplit (s : String) (sep : Char) : List String :=
  (splitChars sep s.data).map String.mk

/-- Go `strings.Contains` on character lists. -/
def containsChars (s sub : List Char) : Bool :=
  match s with
  | [] => sub.isEmpty
  | c :: cs => sub.isPrefixOf (c :: cs) || containsChars cs sub

/-- Go `strings.Contains(s, substr)`. -/
def stringsContains (s substr : String) : Bool :=
  containsChars s.data substr.data

/-- Replace every non-overlapping occurrence of a non-empty `old`, left to
right; `fuel` bounds the number of characters still to scan. -/
def replaceChars (old new : List Char) : Nat → List Char → List Char
  | 0, s => s
  | _ + 1, [] => []
  | n + 1, c :: cs =>
    if old.isPrefixOf (c :: cs) then new ++ replaceChars old new n ((c :: cs).drop old.length)
    else c :: replaceChars old new n cs

/-- Go `strings.ReplaceAll(s, old, new)`; an empty `old` matches before every
character and at the end. -/
def stringsReplaceAll (s old new : String) : String :=
  if old.data = [] then
    String.mk (new.data ++ (s.data.map (fun c => c :: new.data)).flatten)
  else
    String.mk (replaceChars old.data new.data s.data.length s.data)

/-- One component of `filepath.Clean`, on a stack of kept components (last
kept first). -/
def cleanStep (rooted : Bool) (stack : List (List Char)) (comp : List Char) : List (List Char) :=
  if comp = [] ∨ comp = ['.'] then stack
  else if comp = ['.', '.'] then
    match stack with
    | [] => if rooted then [] else [comp]
    | top :: rest => if top = ['.', '.'] then comp :: stack else rest
  else comp :: stack

/-- Go `filepath.Clean` (Unix). -/
def filepathClean (path : String) : String :=
  let cs := path.data
  let rooted : Bool := cs.head? = some '/'
  let comps := ((splitChars '/' cs).foldl (cleanStep rooted) []).reverse
  let body := String.mk (List.intercalate ['/'] comps)
  if rooted then "/" ++ body
  else if comps = [] then "."
  else body

/-- Go `filepath.Join(a, b)`: empty elements are dropped, the rest joined by
a slash and cleaned. -/
def filepathJoin (a b : String) : String :=
  if a = "" ∧ b = "" then ""
  else if a = "" then filepathClean b
  else if b = "" then filepathClean a
  else filepathClean (a ++ "/" ++ b)

/-! ## Primitives -/

/-- Call `os.Stat(path)`. -/
def osStat (env : Env) (path : String) (h : History) : StatResult × History :=
  (env.stat h path, h ++ [.stat path])

/-- Call `os.MkdirAll(path, os.ModePerm)`. -/
def osMkdirAll (env : Env) (path : String) (h : History) : Option String × History :=
  (env.mkdirAll h path, h ++ [.mkdirAll path])

/-- Call `os.Remove(path)`; every caller drops the error. -/
def osRemove (path : String) (h : History) : Unit × History :=
  ((), h ++ [.remove path])

/-- Call `os.RemoveAll(path)`; every caller drops the error. -/
def osRemoveAll (path : String) (h : History) : Unit × History :=
  ((), h ++ [.removeAll path])

/-- Call `os.ReadFile(path)`. -/
def osReadFile (env : Env) (path : String) (h : History) : Except String String × History :=
  (env.readFile h path, h ++ [.readFile path])

/-- Call `ioutil.WriteFile(path, content, 0640)`. -/
def ioWriteFile (env : Env) (path content : String) (h : History) : Option String × History :=
  (env.writeFile h path content, h ++ [.writeFile path content])

/-- Call `cmd.Exec(command)`: output and error. -/
def cmdExec (env : Env) (command : String) (h : History) : (String × Option String) × History :=
  (env.exec h command, h ++ [.exec command])

/-- Run `exec.Command("tar", args...)` and take `CombinedOutput`; on failure
the caller returns `errors.New(string(stdout))`. -/
def runTar (env : Env) (args : List String) (h : History) : Option String × History :=
  (env.tar h args, h ++ [.tar args])

/-- Call `fileOp.CopyFile(src, dst)`. -/
def copyFile (env : Env) (src dst : String) (h : History) : Option String × History :=
  (env.copyFile h src dst, h ++ [.copyFile src dst])

/-- Call `fileOp.Compress(srcs, dstDir, name, files.TarGz)`. -/
def fileCompress (env : Env) (srcs : List String) (dstDir name : String) (h : History) :
    Option String × History :=
  (env.compress h srcs dstDir name, h ++ [.compress srcs dstDir name])

/-- Call `fileOp.Decompress(src, dst, files.TarGz)`. -/
def fileDecompress (env : Env) (src dst : String) (h : History) : Option String × History :=
  (env.decompress h src dst, h ++ [.decompress src dst])

/-- Call `client.Download(src, dst)`. -/
def clientDownload (env : Env) (src dst : String) (h : History) :
    (Bool × Option String) × History :=
  (env.download h src dst, h ++ [.download src dst])

/-- Call `backupAccont.Upload(src, dst)`. -/
def clientUpload (env : Env) (src dst : String) (h : History) :
    (Bool × Option String) × History :=
  (env.upload h src dst, h ++ [.upload src dst])

/-- The function `cpBinary` (snapshot.go 746-752): run `\cp -f src dst`; on
failure the error text is the command's output. -/
def cpBinary (env : Env) (src dst : String) (h : History) : Option String × History :=
  match env.exec h ("\\cp -f " ++ src ++ " " ++ dst) with
  | (out, some _) => (some out, h ++ [.cp src dst])
  | (_, none) => (none, h ++ [.cp src dst])

/-! ## Archive helpers -/

/-- The `--exclude` arguments built by the loop of `handleTar` (795-802). -/
def excludeArgs (exclusionRules : String) : List String :=
  ((stringsSplit exclusionRules ';').filter (fun e => e.length ≠ 0)).flatMap
    (fun e => ["--exclude", e])

/-- The method `handleTar` (786-812). -/
def handleTar (env : Env) (sourceDir targetDir name exclusionRules : String) (h : History) :
    Option String × History :=
  let made : Option String × History :=
    match osStat env targetDir h with
    | (.notExist _, h1) => osMkdirAll env targetDir h1
    | (_, h1) => (none, h1)
  match made with
  | (some err, h2) => (some err, h2)
  | (none, h2) =>
    runTar env
      (["--warning=no-file-changed", "-zcf", targetDir ++ "/" ++ name]
        ++ excludeArgs exclusionRules ++ ["-C", sourceDir, "."]) h2

/-- The method `handleUnTar` (814-832). -/
def handleUnTar (env : Env) (sourceDir targetDir : String) (h : History) : Option String × History :=
  let made : Option String × History :=
    match osStat env targetDir h with
    | (.notExist _, h1) => osMkdirAll env targetDir h1
    | (_, h1) => (none, h1)
  match made with
  | (some err, h2) => (some err, h2)
  | (none, h2) => runTar env ["zxf", sourceDir, "-C", targetDir, "."] h2

/-- Wrap an error as `fmt.Errorf(msg + "%v", err)` does. -/
def wrapErr (msg : String) (r : Option String × History) : Option String × History :=
  match r with
  | (some err, h) => (some (msg ++ err), h)
  | (none, h) => (none, h)

/-! ## The resource mutators -/

/-- The method `handleDockerDatas` (475-499). -/
def handleDockerDatas (env : Env) (operation source target : String) (h : History) :
    Option String × History :=
  if operation = "snapshot" then
    wrapErr "backup docker data failed, err: "
      (handleTar env source target "docker_data.tar.gz" "" h)
  else if operation = "recover" then
    match handleTar env target (filepathJoin source "../" ++ "/original") "docker_data.tar.gz" "" h with
    | (some err, h1) => (some ("backup docker data failed, err: " ++ err), h1)
    | (none, h1) =>
      wrapErr "recover docker data failed, err: "
        (handleUnTar env (source ++ "/docker/docker_data.tar.gz") target h1)
  else if operation = "re-recover" then
    wrapErr "re-recover docker data failed, err: "
      (handleUnTar env (source ++ "/docker/docker_data.tar.gz") target h)
  else if operation = "rollback" then
    wrapErr "rollback docker data failed, err: "
      (handleUnTar env (source ++ "/docker_data.tar.gz") target h)
  else (none, h)

/-- The method `handleDaemonJson` (501-527). -/
def handleDaemonJson (env : Env) (operation source target : String) (h : History) :
    Option String × History :=
  let daemonJsonPath := "/etc/docker/daemon.json"
  let saved : Option String × History :=
    if operation = "snapshot" ∨ operation = "recover" then
      match osStat env daemonJsonPath h with
      | (.ok, h1) =>
        wrapErr "backup docker daemon.json failed, err: " (copyFile env daemonJsonPath target h1)
      | (_, h1) => (none, h1)
    else (none, h)
  match saved with
  | (some err, h2) => (some err, h2)
  | (none, h2) =>
    if operation = "recover" ∨ operation = "rollback" ∨ operation = "re-recover" then
      match osStat env source h2 with
      | (.notExist _, h3) => (none, (osRemove daemonJsonPath h3).2)
      | (.ok, h3) =>
        wrapErr "recover docker daemon.json failed, err: " (copyFile env source "/etc/docker" h3)
      | (.otherErr _, h3) => (none, h3)
    else (none, h2)

/-- The shape shared by `handlePanelBinary`, `handlePanelctlBinary` and
`handlePanelService`: the three bodies differ only in the live path and in
the texts of their errors. -/
def handleLiveFile (env : Env) (livePath notFoundLive backupFailed notFoundSnap recoverFailed : String)
    (operation source target : String) (h : History) : Option String × History :=
  let saved : Option String × History :=
    if operation = "snapshot" ∨ operation = "recover" then
      match osStat env livePath h with
      | (.ok, h1) => wrapErr backupFailed (cpBinary env livePath target h1)
      | (r, h1) => (some (notFoundLive ++ fmtErr r.err), h1)
    else (none, h)
  match saved with
  | (some err, h2) => (some err, h2)
  | (none, h2) =>
    if operation = "recover" ∨ operation = "rollback" ∨ operation = "re-recover" then
      match osStat env source h2 with
      | (.ok, h3) => wrapErr recoverFailed (cpBinary env source livePath h3)
      | (r, h3) => (some (notFoundSnap ++ fmtErr r.err), h3)
    else (none, h2)

/-- The method `handlePanelBinary` (529-551). -/
def handlePanelBinary (env : Env) (operation source target : String) (h : History) :
    Option String × History :=
  handleLiveFile env "/usr/local/bin/1panel"
    "1panel binary is not found in /usr/local/bin/1panel, err: "
    "backup 1panel binary failed, err: "
    "1panel binary is not found in snapshot, err: "
    "recover 1panel binary failed, err: " operation source target h

/-- The method `handlePanelctlBinary` (552-574). -/
def handlePanelctlBinary (env : Env) (operation source target : String) (h : History) :
    Option String × History :=
  handleLiveFile env "/usr/local/bin/1pctl"
    "1pctl binary is not found in /usr/local/bin/1pctl, err: "
    "backup 1pctl binary failed, err: "
    "1pctl binary is not found in snapshot, err: "
    "recover 1pctl binary failed, err: " operation source target h

/-- The method `handlePanelService` (576-598). -/
def handlePanelService (env : Env) (operation source target : String) (h : History) :
    Option String × History :=
  handleLiveFile env "/etc/systemd/system/1panel.service"
    "1panel service is not found in /etc/systemd/system/1panel.service, err: "
    "backup 1panel service failed, err: "
    "1panel service is not found in snapshot, err: "
    "recover 1panel service failed, err: " operation source target h

/-- The method `handleBackupDatas` (600-624). -/
def handleBackupDatas (env : Env) (operation source target : String) (h : History) :
    Option String × History :=
  if operation = "snapshot" then
    wrapErr "backup panel local backup dir data failed, err: "
      (handleTar env source target "1panel_backup.tar.gz" "./system" h)
  else if operation = "recover" then
    match handleTar env target (filepathJoin source "../" ++ "/original")
        "1panel_backup.tar.gz" "./system" h with
    | (some err, h1) => (some ("restore original local backup dir data failed, err: " ++ err), h1)
    | (none, h1) =>
      wrapErr "recover local backup dir data failed, err: "
        (handleUnTar env (source ++ "/1panel/1panel_backup.tar.gz") target h1)
  else if operation = "re-recover" then
    wrapErr "retry recover  local backup dir data failed, err: "
      (handleUnTar env (source ++ "/1panel/1panel_backup.tar.gz") target h)
  else if operation = "rollback" then
    wrapErr "rollback local backup dir data failed, err: "
      (handleUnTar env (source ++ "/1panel_backup.tar.gz") target h)
  else (none, h)

/-- The exclusion rules of `handlePanelDatas`: one rule `lead ++ rest ++ ";"`
for each of `backupDir`, `dockerDir` that contains `dir` (629-635, 640-646). -/
def panelExclusionRules (lead dir backupDir dockerDir : String) : String :=
  let r1 :=
    if stringsContains backupDir dir then lead ++ stringsReplaceAll backupDir dir "" ++ ";"
    else ""
  let r2 :=
    if stringsContains dockerDir dir then lead ++ stringsReplaceAll dockerDir dir "" ++ ";"
    else ""
  r1 ++ r2

/-- The method `handlePanelDatas` (626-666). -/
def handlePanelDatas (env : Env) (operation source target backupDir dockerDir : String)
    (h : History) : Option String × History :=
  if operation = "snapshot" then
    wrapErr "backup panel data failed, err: "
      (handleTar env source target "1panel_data.tar.gz"
        (panelExclusionRules "." source backupDir dockerDir) h)
  else if operation = "recover" then
    match handleTar env target (filepathJoin source "../" ++ "/original") "1panel_data.tar.gz"
        (panelExclusionRules "1Panel" target backupDir dockerDir) h with
    | (some err, h1) => (some ("restore original panel data failed, err: " ++ err), h1)
    | (none, h1) =>
      wrapErr "recover panel data failed, err: "
        (handleUnTar env (source ++ "/1panel/1panel_data.tar.gz") target h1)
  else if operation = "re-recover" then
    wrapErr "retry recover panel data failed, err: "
      (handleUnTar env (source ++ "/1panel/1panel_data.tar.gz") target h)
  else if operation = "rollback" then
    wrapErr "rollback panel data failed, err: "
      (handleUnTar env (source ++ "/1panel_data.tar.gz") target h)
  else (none, h)

/-! ## Manifest, docker probe, live-restore, status updates -/

/-- The method `saveJson` (452-458). -/
def saveJson (env : Env) (snapJson : SnapshotJson) (path : String) (h : History) :
    Option String × History :=
  ioWriteFile env (path ++ "/snapshot.json") (env.marshalSnapshotJson snapJson) h

/-- The method `readFromJson` (460-473). -/
def readFromJson (env : Env) (path : String) (h : History) : Except String SnapshotJson × History :=
  match osStat env path h with
  | (.ok, h1) =>
    match osReadFile env path h1 with
    | (.error err, h2) =>
      (.error ("read file from path " ++ path ++ " failed, err: " ++ err), h2)
    | (.ok fileByte, h2) =>
      match env.unmarshalSnapshotJson fileByte with
      | .error err => (.error ("unmarshal snapjson failed, err: " ++ err), h2)
      | .ok snap => (.ok snap, h2)
  | (r, h1) =>
    (.error ("find snapshot json file in recover package failed, err: " ++ fmtErr r.err), h1)

/-- The method `loadDockerDataDir` (668-678). -/
def loadDockerDataDir (env : Env) (h : History) : Except String (String × Bool) × History :=
  match env.dockerInfo h with
  | .clientErr err => (.error ("new docker client failed, err: " ++ err), h ++ [.dockerInfo])
  | .infoErr err => (.error ("load docker info failed, err: " ++ err), h ++ [.dockerInfo])
  | .info dir live => (.ok (dir, live), h ++ [.dockerInfo])

/-- How a call ends: it returns its `error` (`none` is nil), or it panics. -/
inductive Ending where
  | returned (err : Option String)
  | panicked
  deriving DecidableEq

/-- The map update of `updateLiveRestore` (765-769): delete the key, or set
it to `true`.  On a nil map (`none`) the `delete` does nothing and the
assignment panics: the result is then `none`. -/
def setLiveRestore (deamonMap : Option (List (String × String))) (enabled : Bool) :
    Option (Option (List (String × String))) :=
  match deamonMap with
  | none => if enabled then none else some none
  | some m =>
    if !enabled then some (some (m.filter (fun kv => kv.1 ≠ "live-restore")))
    else some (some (m.filter (fun kv => kv.1 ≠ "live-restore") ++ [("live-restore", "true")]))

/-- The method `updateLiveRestore` (754-784). -/
def updateLiveRestore (env : Env) (enabled : Bool) (h : History) : Ending × History :=
  match osStat env env.DaemonJsonPath h with
  | (.ok, h1) =>
    match osReadFile env env.DaemonJsonPath h1 with
    | (.error err, h2) => (.returned (some err), h2)
    | (.ok file, h2) =>
      match setLiveRestore (env.unmarshalMap file) enabled with
      | none => (.panicked, h2)
      | some deamonMap =>
        match env.marshalMap deamonMap with
        | .error err => (.returned (some err), h2)
        | .ok newJson =>
          match ioWriteFile env env.DaemonJsonPath newJson h2 with
          | (some err, h3) => (.returned (some err), h3)
          | (none, h3) =>
            match cmdExec env "systemctl restart docker" h3 with
            | ((stdout, some _), h4) => (.returned (some stdout), h4)
            | ((_, none), h4) => (.returned none, h4 ++ [.sleep])
  | (r, h1) =>
    (.returned (some ("load docker daemon.json conf failed, err: " ++ fmtErr r.err)), h1)

/-- The function `updateSnapshotStatus` (698-708). -/
def updateSnapshotStatus (id : Nat) (status message : String) (w : World) : World :=
  repoUpdate id [("status", status), ("message", message)] w

/-- The function `updateRecoverStatus` (709-721). -/
def updateRecoverStatus (env : Env) (id : Nat) (interruptStep status message : String)
    (w : World) : World :=
  repoUpdate id
    [("interrupt_step", interruptStep), ("recover_status", status),
     ("recover_message", message),
     ("last_recovered_at", env.now w.trace "2006-01-02 15:04:05")] w

/-- The function `updateRollbackStatus` (722-744). -/
def updateRollbackStatus (env : Env) (id : Nat) (status message : String) (w : World) : World :=
  if status = StatusSuccess then
    repoUpdate id
      [("recover_status", ""), ("recover_message", ""), ("interrupt_step", ""),
       ("rollback_status", ""), ("rollback_message", ""),
       ("last_rollbacked_at", env.now w.trace "2006-01-02 15:04:05")] w
  else
    repoUpdate id
      [("rollback_status", status), ("rollback_message", message),
       ("last_rollbacked_at", env.now w.trace "2006-01-02 15:04:05")] w

/-! ## SnapshotRecover -/

/-- What the goroutine of `SnapshotRecover` captures from the synchronous
part: the record as loaded (never re-read), the request, the backup's type,
the local directory, and `operation` (201-204). -/
structure RecoverCtx where
  snap : Snapshot
  req : SnapshotRecoverReq
  backupType : String
  localDir : String
  operation : String

/-- The local `baseDir` (194). -/
def RecoverCtx.baseDir (c : RecoverCtx) : String :=
  c.localDir ++ "/system/" ++ c.snap.Name

/-- The local `rootDir` (229). -/
def RecoverCtx.rootDir (c : RecoverCtx) : String :=
  c.baseDir ++ "/" ++ c.snap.Name

/-- The local `originalDir` (230). -/
def RecoverCtx.originalDir (c : RecoverCtx) : String :=
  c.baseDir ++ "/original/"

/-- The local `recoverPanelDir` (243). -/
def RecoverCtx.recoverPanelDir (c : RecoverCtx) : String :=
  c.baseDir ++ "/" ++ c.snap.Name ++ "/1panel"

/-- The closing block of the recover goroutine (316-326). -/
def recoverFinish (env : Env) (c : RecoverCtx) (w : World) : Run :=
  let w1 := w.exec (osRemoveAll c.rootDir)
  let w2 := w1.exec (cmdExec env "systemctl daemon-reload")
  let w3 := w2.exec (cmdExec env "systemctl restart 1panel.service")
  { world := updateRecoverStatus env c.snap.ID "" StatusSuccess "" w3,
    log := [], finalized := true, crashed := false }

/-- The block every mutator step of the recover goroutine is written as
(263-269, 270-276, 279-285, 286-292, 293-299, 301-307, 309-315):
`if !isReTry || snap.InterruptStep == label { if err := body; err != nil {
updateRecoverStatus(snap.ID, label, Failed, err.Error()); return };
isReTry = false }`, followed by the rest of the goroutine `next`. -/
def guardedStep (env : Env) (c : RecoverCtx) (isReTry : Bool) (label : String)
    (body : History → Option String × History) (next : Bool → World → Run) (w : World) : Run :=
  if isReTry = false ∨ c.snap.InterruptStep = label then
    match w.call body with
    | (some err, w1) =>
      (Run.stop (updateRecoverStatus env c.snap.ID label StatusFailed err w1)).after label (some err)
    | (none, w1) => (next false w1).after label none
  else next isReTry w

/-- Lines 262-326 of the recover goroutine: stop docker, the seven mutators,
the closing block. -/
def recoverMutators (env : Env) (c : RecoverCtx) (snapJson : SnapshotJson) (isReTry : Bool)
    (w : World) : Run :=
  guardedStep env c isReTry "DockerDir"
    (handleDockerDatas env c.operation c.rootDir snapJson.DockerDataDir) (fun r1 w1 =>
  guardedStep env c r1 "DaemonJson"
    (handleDaemonJson env c.operation (c.rootDir ++ "/docker/daemon.json") c.originalDir)
    (fun r2 w2 =>
  guardedStep env c r2 "1PanelBinary"
    (handlePanelBinary env c.operation (c.recoverPanelDir ++ "/1panel") (c.originalDir ++ "/1panel"))
    (fun r3 w3 =>
  guardedStep env c r3 "1PctlBinary"
    (handlePanelctlBinary env c.operation (c.recoverPanelDir ++ "/1pctl") (c.originalDir ++ "/1pctl"))
    (fun r4 w4 =>
  guardedStep env c r4 "1PanelService"
    (handlePanelService env c.operation (c.recoverPanelDir ++ "/1panel.service")
      (c.originalDir ++ "/1panel.service"))
    (fun r5 w5 =>
  guardedStep env c r5 "1PanelBackups"
    (handleBackupDatas env c.operation c.rootDir snapJson.BackupDataDir) (fun r6 w6 =>
  guardedStep env c r6 "1PanelData"
    (handlePanelDatas env c.operation c.rootDir snapJson.PanelDataDir "" "") (fun _ w7 =>
  recoverFinish env c w7) w6) w5) w4) w3)
    (w2.exec (cmdExec env "systemctl restart docker"))) w1)
    (w.exec (cmdExec env "systemctl stop docker"))

/-- Lines 253-260: the live-restore toggle and `saveJson`, then the rest. -/
def recoverLiveRestore (env : Env) (c : RecoverCtx) (snapJson : SnapshotJson)
    (liveRestore isReTry : Bool) (w : World) : Run :=
  if liveRestore then
    match w.call (updateLiveRestore env false) with
    | (.returned (some err), w1) =>
      (Run.stop (updateRecoverStatus env c.snap.ID "UpdateLiveRestore" StatusFailed
        ("update docker daemon.json live-restore conf failed, err: " ++ err) w1)).after
        "UpdateLiveRestore" (some err)
    | (.returned none, w1) =>
      (recoverMutators env c snapJson false (w1.exec (saveJson env snapJson c.rootDir))).after
        "UpdateLiveRestore" none
    | (.panicked, w1) => Run.panic w1
  else recoverMutators env c snapJson isReTry (w.exec (saveJson env snapJson c.rootDir))

/-- Lines 241-252: fill the old directories, probe docker, then the rest. -/
def recoverLoadDocker (env : Env) (c : RecoverCtx) (snapJson : SnapshotJson) (isReTry : Bool)
    (w : World) : Run :=
  let snapJson1 : SnapshotJson :=
    { snapJson with OldPanelDataDir := env.BaseDir ++ "/1Panel", OldBackupDataDir := c.localDir }
  if isReTry = false ∨ c.snap.InterruptStep = "LoadDockerJson" then
    match w.call (loadDockerDataDir env) with
    | (.error err, w1) =>
      (Run.stop (updateRecoverStatus env c.snap.ID "LoadDockerJson" StatusFailed
        ("load docker data dir failed, err: " ++ err) w1)).after "LoadDockerJson" (some err)
    | (.ok (dir, live), w1) =>
      (recoverLiveRestore env c { snapJson1 with OldDockerDataDir := dir } live false w1).after
        "LoadDockerJson" none
  else recoverLiveRestore env c snapJson1 false isReTry w

/-- Lines 229-239: read the manifest (unconditionally), then the rest. -/
def recoverReadJson (env : Env) (c : RecoverCtx) (isReTry : Bool) (w : World) : Run :=
  match w.call (readFromJson env (c.rootDir ++ "/snapshot.json")) with
  | (.error err, w1) =>
    (Run.stop (updateRecoverStatus env c.snap.ID "Readjson" StatusFailed
      ("decompress file failed, err: " ++ err) w1)).after "Readjson" (some err)
  | (.ok snapJson, w1) =>
    (recoverLoadDocker env c snapJson
      (if c.snap.InterruptStep = "Readjson" then false else isReTry) w1).after "Readjson" none

/-- Lines 217-228: decompress, then the rest. -/
def recoverDecompress (env : Env) (c : RecoverCtx) (isReTry : Bool) (w : World) : Run :=
  if isReTry = false ∨ c.snap.InterruptStep = "Decompress"
      ∨ (isReTry = true ∧ c.req.ReDownload = true) then
    match w.call (fileDecompress env (c.baseDir ++ "/" ++ c.snap.Name ++ ".tar.gz") c.baseDir) with
    | (some err, w1) =>
      (Run.stop (updateRecoverStatus env c.snap.ID
        (if c.req.ReDownload then c.snap.InterruptStep else "Decompress") StatusFailed
        ("decompress file failed, err: " ++ err) w1)).after "Decompress" (some err)
    | (none, w1) => (recoverReadJson env c false w1).after "Decompress" none
  else recoverReadJson env c isReTry w

/-- Lines 205-216: download, then the rest.  The step fails when
`err != nil || !ok`. -/
def recoverDownload (env : Env) (c : RecoverCtx) (isReTry : Bool) (w : World) : Run :=
  if isReTry = false ∨ c.snap.InterruptStep = "Download"
      ∨ (isReTry = true ∧ c.req.ReDownload = true) then
    match w.call (clientDownload env ("system_snapshot/" ++ c.snap.Name ++ ".tar.gz")
        (c.baseDir ++ "/" ++ c.snap.Name ++ ".tar.gz")) with
    | ((true, none), w1) => (recoverDecompress env c false w1).after "Download" none
    | ((_, err), w1) =>
      (Run.stop (updateRecoverStatus env c.snap.ID
        (if c.req.ReDownload then c.snap.InterruptStep else "Download") StatusFailed
        ("download file " ++ c.snap.Name ++ " from " ++ c.backupType ++ " failed, err: "
          ++ fmtErr err) w1)).after "Download" (some (fmtErr err))
  else recoverDecompress env c isReTry w

/-- The method `SnapshotRecover` (169-329): the synchronous part returns the
error; the goroutine, when launched, is run to its end. -/
def SnapshotRecover (env : Env) (req : SnapshotRecoverReq) (w : World) : Option String × Run :=
  match env.snapshotGet w.trace req.ID with
  | some err => (some err, Run.stop w)
  | none =>
    let snap := w.snap
    if req.IsNew = false ∧ snap.InterruptStep ≠ "" ∧ snap.RollbackStatus ≠ "" then
      (some "the snapshot has been rolled back and cannot be restored again", Run.stop w)
    else
      let isReTry : Bool := snap.InterruptStep ≠ "" ∧ req.IsNew = false
      match env.backupGet w.trace snap.From with
      | .error err => (some err, Run.stop w)
      | .ok backupType =>
        match env.newClient w.trace with
        | some err => (some err, Run.stop w)
        | none =>
          match env.loadLocalDir w.trace with
          | .error err => (some err, Run.stop w)
          | .ok localDir =>
            let c : RecoverCtx :=
              { snap := snap, req := req, backupType := backupType, localDir := localDir,
                operation := if isReTry then "re-recover" else "recover" }
            let w1 : World :=
              match w.call (osStat env c.baseDir) with
              | (.notExist _, w0) => w0.exec (osMkdirAll env c.baseDir)
              | (_, w0) => w0
            let w2 := repoUpdate snap.ID [("recover_status", StatusWaiting)] w1
            (none, recoverDownload env c isReTry w2)

/-! ## SnapshotRollback -/

/-- Ghost: prepend a log entry to the run of a call that returns an error. -/
def afterCall (label : String) (err : Option String) (r : Option String × Run) :
    Option String × Run :=
  (r.1, r.2.after label err)

/-- Lines 364, 373: `cmd.Exec("systemctl restart docker")`. -/
def restartDocker (env : Env) (w : World) : World :=
  w.exec (cmdExec env "systemctl restart docker")

/-- Lines 383-384 (and 393-394, ..., 433-434): reload systemd and restart
the panel service. -/
def restartPanel (env : Env) (w : World) : World :=
  (w.exec (cmdExec env "systemctl daemon-reload")).exec
    (cmdExec env "systemctl restart 1panel.service")

/-- The block every mutator of `SnapshotRollback` is written as: `if err :=
body; err != nil { updateRollbackStatus(snap.ID, Failed, err.Error());
return err }; if snap.InterruptStep == label { atBoundary; return nil }`,
followed by the rest of the method `next`. -/
def rollbackStep (env : Env) (snap : Snapshot) (label : String)
    (body : History → Option String × History) (atBoundary : World → World)
    (next : World → Option String × Run) (w : World) : Option String × Run :=
  match w.call body with
  | (some err, w1) =>
    (some err,
      (Run.stop (updateRollbackStatus env snap.ID StatusFailed err w1)).after label (some err))
  | (none, w1) =>
    if snap.InterruptStep = label then (none, (Run.stop (atBoundary w1)).after label none)
    else afterCall label none (next w1)

/-- Lines 376-386: re-enable live-restore when the manifest asks for it, then
the boundary test on "UpdateLiveRestore". -/
def rollbackLiveRestore (env : Env) (snap : Snapshot) (snapJson : SnapshotJson)
    (next : World → Option String × Run) (w : World) : Option String × Run :=
  let boundary : World → Option String × Run := fun w1 =>
    if snap.InterruptStep = "UpdateLiveRestore" then (none, Run.stop (restartPanel env w1))
    else next w1
  if snapJson.LiveRestoreEnabled then
    match w.call (updateLiveRestore env true) with
    | (.returned (some err), w1) =>
      (some err, (Run.stop (updateRollbackStatus env snap.ID StatusFailed err w1)).after
        "UpdateLiveRestore" (some err))
    | (.returned none, w1) => afterCall "UpdateLiveRestore" none (boundary w1)
    | (.panicked, w1) => (none, Run.panic w1)
  else boundary w

/-- The closing block of `SnapshotRollback` (438-449). -/
def rollbackFinish (env : Env) (snap : Snapshot) (rootDir : String) (w : World) :
    Option String × Run :=
  let w1 := w.exec (osRemoveAll rootDir)
  let w2 := restartPanel env w1
  (none, { world := updateRollbackStatus env snap.ID StatusSuccess "" w2,
           log := [], finalized := true, crashed := false })

/-- Lines 358-449 of `SnapshotRollback`: stop docker, the mutators in
"rollback" mode with their boundary tests, the closing block. -/
def rollbackMutators (env : Env) (snap : Snapshot) (snapJson : SnapshotJson)
    (rootDir originalDir : String) (w : World) : Option String × Run :=
  rollbackStep env snap "DockerDir"
    (handleDockerDatas env "rollback" originalDir snapJson.OldDockerDataDir)
    (restartDocker env) (fun w1 =>
  rollbackStep env snap "DaemonJson"
    (handleDaemonJson env "rollback" (originalDir ++ "/daemon.json") "")
    (restartDocker env) (fun w2 =>
  rollbackLiveRestore env snap snapJson (fun w3 =>
  rollbackStep env snap "1PanelBinary"
    (handlePanelBinary env "rollback" (originalDir ++ "/1panel") "")
    (restartPanel env) (fun w4 =>
  rollbackStep env snap "1PctlBinary"
    (handlePanelctlBinary env "rollback" (originalDir ++ "/1pctl") "")
    (restartPanel env) (fun w5 =>
  rollbackStep env snap "1PanelService"
    (handlePanelService env "rollback" (originalDir ++ "/1panel.service") "")
    (restartPanel env) (fun w6 =>
  rollbackStep env snap "1PanelBackups"
    (handleBackupDatas env "rollback" originalDir snapJson.OldBackupDataDir)
    (restartPanel env) (fun w7 =>
  rollbackStep env snap "1PanelData"
    (handlePanelDatas env "rollback" originalDir snapJson.OldPanelDataDir "" "")
    (restartPanel env) (fun w8 =>
  rollbackFinish env snap rootDir w8) w7) w6) w5) w4) w3) w2) w1)
    (w.exec (cmdExec env "systemctl stop docker"))

/-- The method `SnapshotRollback` (331-450); it runs synchronously. -/
def SnapshotRollback (env : Env) (req : SnapshotRecoverReq) (w : World) : Option String × Run :=
  match env.snapshotGet w.trace req.ID with
  | some err => (some err, Run.stop w)
  | none =>
    let snap := w.snap
    if snap.InterruptStep = "Download" ∨ snap.InterruptStep = "Decompress"
        ∨ snap.InterruptStep = "Readjson" then
      (none, Run.stop w)
    else
      match env.loadLocalDir w.trace with
      | .error err => (some err, Run.stop w)
      | .ok localDir =>
        let rootDir := localDir ++ "/system/" ++ snap.Name ++ "/" ++ snap.Name
        let originalDir := localDir ++ "/system/" ++ snap.Name ++ "/original"
        match w.call (osStat env originalDir) with
        | (.notExist msg, w1) => (some ("load original dir failed, err: " ++ msg), Run.stop w1)
        | (_, w1) =>
          let w2 := repoUpdate snap.ID [("rollback_status", StatusWaiting)] w1
          match w2.call (readFromJson env (rootDir ++ "/snapshot.json")) with
          | (.error err, w3) =>
            (some err,
              (Run.stop (updateRollbackStatus env snap.ID StatusFailed
                ("decompress file failed, err: " ++ err) w3)).after "Readjson" (some err))
          | (.ok snapJson, w3) =>
            afterCall "Readjson" none (rollbackMutators env snap snapJson rootDir originalDir w3)

/-! ## SnapshotCreate -/

/-- The block every mutator of the create goroutine is written as: `if err :=
body; err != nil { updateSnapshotStatus(snap.ID, Failed, err.Error());
return }`, followed by the rest of the goroutine `next`. -/
def createStep (id : Nat) (label : String) (body : History → Option String × History)
    (next : World → Run) (w : World) : Run :=
  match w.call body with
  | (some err, w1) => (Run.stop (updateSnapshotStatus id StatusFailed err w1)).after label (some err)
  | (none, w1) => (next w1).after label none

/-- Lines 152-164 of the create goroutine: upload and the closing block.
With `ok = false` and a nil `err`, `err.Error()` dereferences nil before the
update is issued. -/
def createUpload (env : Env) (id : Nat) (localDir rootDir timeNow : String) (w : World) : Run :=
  let localPath := localDir ++ "/system/1panel_snapshot_" ++ timeNow ++ ".tar.gz"
  match w.call (clientUpload env localPath
      ("system_snapshot/1panel_snapshot_" ++ timeNow ++ ".tar.gz")) with
  | ((true, none), w1) =>
    let w2 := repoUpdate id [("status", StatusSuccess)] w1
    let w3 := w2.exec (osRemoveAll rootDir)
    let w4 := w3.exec (osRemoveAll localPath)
    { world := updateSnapshotStatus id StatusSuccess "" w4,
      log := [("Upload", none)], finalized := true, crashed := false }
  | ((_, some err), w1) =>
    (Run.stop (repoUpdate id [("status", StatusFailed), ("message", err)] w1)).after
      "Upload" (some err)
  | ((false, none), w1) =>
    { world := w1, log := [("Upload", some "<nil>")], finalized := false, crashed := true }

/-- The goroutine of `SnapshotCreate` (101-164), without its deferred call. -/
def createSteps (env : Env) (id : Nat) (localDir rootDir timeNow : String) (w : World) : Run :=
  let backupPanelDir := rootDir ++ "/1panel"
  let backupDockerDir := rootDir ++ "/docker"
  match w.call (loadDockerDataDir env) with
  | (.error err, w1) =>
    (Run.stop (updateSnapshotStatus id StatusFailed err w1)).after "LoadDockerJson" (some err)
  | (.ok (dockerDataDir, liveRestoreStatus), w1) =>
    Run.after "LoadDockerJson" none <|
    createStep id "DockerDir"
      (handleDockerDatas env "snapshot" dockerDataDir backupDockerDir) (fun w2 =>
    createStep id "DaemonJson" (handleDaemonJson env "snapshot" "" backupDockerDir) (fun w3 =>
    createStep id "1PanelBinary"
      (handlePanelBinary env "snapshot" "" (backupPanelDir ++ "/1panel")) (fun w4 =>
    createStep id "1PctlBinary"
      (handlePanelctlBinary env "snapshot" "" (backupPanelDir ++ "/1pctl")) (fun w5 =>
    createStep id "1PanelService"
      (handlePanelService env "snapshot" "" (backupPanelDir ++ "/1panel.service")) (fun w6 =>
    createStep id "1PanelBackups"
      (handleBackupDatas env "snapshot" localDir backupPanelDir) (fun w7 =>
    createStep id "1PanelData"
      (handlePanelDatas env "snapshot" (env.BaseDir ++ "/1Panel") backupPanelDir localDir
        dockerDataDir) (fun w8 =>
    match w8.call (saveJson env
        { SnapshotJson.zero with
          DockerDataDir := dockerDataDir, BackupDataDir := localDir,
          PanelDataDir := env.BaseDir ++ "/1Panel", LiveRestoreEnabled := liveRestoreStatus }
        rootDir) with
    | (some err, w9) =>
      (Run.stop (updateSnapshotStatus id StatusFailed
        ("save snapshot json failed, err: " ++ err) w9)).after "SaveJson" (some err)
    | (none, w9) =>
      Run.after "SaveJson" none <|
      createStep id "Compress"
        (fileCompress env [rootDir] (localDir ++ "/system")
          ("1panel_snapshot_" ++ timeNow ++ ".tar.gz"))
        (createUpload env id localDir rootDir timeNow) w9) w7) w6) w5) w4)
      (w3.exec (cmdExec env "systemctl restart docker"))) w2)
      (w1.exec (cmdExec env "systemctl stop docker"))

/-- The method `SnapshotCreate` (65-167): the synchronous part returns the
error; the goroutine is run to its end, its deferred `os.RemoveAll(rootDir)`
last. -/
def SnapshotCreate (env : Env) (req : SnapshotCreateReq) (w : World) : Option String × Run :=
  match env.loadLocalDir w.trace with
  | .error err => (some err, Run.stop w)
  | .ok localDir =>
    match env.backupGet w.trace req.From with
    | .error err => (some err, Run.stop w)
    | .ok _ =>
      match env.newClient w.trace with
      | some err => (some err, Run.stop w)
      | none =>
        let timeNow := env.now w.trace "20060102150405"
        let rootDir := localDir ++ "/system/1panel_snapshot_" ++ timeNow
        let w1 := w.exec (osMkdirAll env (rootDir ++ "/1panel"))
        let w2 := w1.exec (osMkdirAll env (rootDir ++ "/docker"))
        let snap : Snapshot :=
          { ID := env.newID w2.trace, Name := "1panel_snapshot_" ++ timeNow,
            Description := req.Description, From := req.From,
            Version := env.settingGet w2.trace "SystemVersion", Status := StatusWaiting,
            Message := "", InterruptStep := "", RecoverStatus := "", RecoverMessage := "",
            LastRecoveredAt := "", RollbackStatus := "", RollbackMessage := "",
            LastRollbackedAt := "" }
        let w3 : World := { trace := w2.trace ++ [.dbCreate snap.Name], snap := snap }
        let r := createSteps env snap.ID localDir rootDir timeNow w3
        (none, { r with world := r.world.exec (osRemoveAll rootDir) })

/-! ## Reading the trace -/

/-- Where an event writes: the path it creates, replaces or removes. -/
def Event.writes : Event → Option String
  | .mkdirAll p => some p
  | .remove p => some p
  | .removeAll p => some p
  | .writeFile p _ => some p
  | .cp _ dst => some dst
  | .copyFile _ dst => some dst
  | .tar ["zxf", _, "-C", dst, "."] => some dst
  | .tar (_ :: "-zcf" :: archive :: _) => some archive
  | .decompress _ dst => some dst
  | .download _ dst => some dst
  | .compress _ dstDir _ => some dstDir
  | _ => none

/-- Where a copying event takes its data from: the copied file, the
extracted archive, or the directory packed by `tar -zcf ... -C dir .`. -/
def Event.reads : Event → Option String
  | .cp src _ => some src
  | .copyFile src _ => some src
  | .tar ["zxf", archive, "-C", _, "."] => some archive
  | .tar (_ :: "-zcf" :: _ :: rest) => (rest.dropWhile (fun a => a ≠ "-C")).tail.head?
  | _ => none

/-! ## A concrete host and concrete records -/

/-- The manifest of the snapshot `snap_T1`, as a recover leaves it on disk. -/
def manifestT1 : SnapshotJson :=
  { OldDockerDataDir := "/var/lib/docker", OldBackupDataDir := "/opt/1Panel/backup",
    OldPanelDataDir := "/opt/1Panel", DockerDataDir := "/var/lib/docker",
    BackupDataDir := "/opt/1Panel/backup", PanelDataDir := "/opt/1Panel",
    LiveRestoreEnabled := false }

/-- A host on which every outside call succeeds and every file asked for
exists; docker reports live-restore disabled. -/
def hostOk : Env :=
  { BaseDir := "/opt", DaemonJsonPath := "/etc/docker/daemon.json",
    now := fun _ layout =>
      if layout = "20060102150405" then "20230301100000" else "2023-03-01 10:00:00",
    snapshotGet := fun _ _ => none,
    backupGet := fun _ _ => .ok "OSS", newClient := fun _ => none,
    settingGet := fun _ _ => "v1.0.0", loadLocalDir := fun _ => .ok "/opt/1Panel/backup",
    stat := fun _ _ => .ok, mkdirAll := fun _ _ => none,
    readFile := fun _ _ => .ok "{}", writeFile := fun _ _ _ => none,
    exec := fun _ _ => ("", none), tar := fun _ _ => none, copyFile := fun _ _ _ => none,
    compress := fun _ _ _ _ => none, decompress := fun _ _ _ => none,
    download := fun _ _ _ => (true, none), upload := fun _ _ _ => (true, none),
    dockerInfo := fun _ => .info "/var/lib/docker" false,
    unmarshalSnapshotJson := fun _ => .ok manifestT1,
    marshalSnapshotJson := fun _ => "{}", newID := fun _ => 1,
    unmarshalMap := fun _ => some [], marshalMap := fun _ => .ok "{}" }

/-- The host `hostOk`, except that extracting an archive (`tar zxf`) fails. -/
def hostUntarFails : Env :=
  { hostOk with
    tar := fun _ args => if args.head? = some "zxf" then some "tar: Unexpected EOF in archive" else none }

/-- The host `hostOk`, except that the first extraction of the docker data
archive of `snap_T1` fails; a second try of the same command succeeds. -/
def hostUntarFailsOnce : Env :=
  { hostOk with
    tar := fun h args =>
      if args = ["zxf", "/opt/1Panel/backup/system/snap_T1/snap_T1/docker/docker_data.tar.gz",
            "-C", "/var/lib/docker", "."] ∧ Event.tar args ∉ h then
        some "tar: Unexpected EOF in archive"
      else none }

/-- The host `hostOk`, except that creating an archive (`tar -zcf`) fails. -/
def hostTarFails : Env :=
  { hostOk with
    tar := fun _ args => if args.head? = some "zxf" then none else some "tar: No space left on device" }

/-- The host `hostOk`, except that the download from the backup account fails. -/
def hostDownloadFails : Env :=
  { hostOk with download := fun _ _ _ => (false, some "connection reset") }

/-- The host `hostOk`, except that the manifest is gone once the extracted
directory has been removed. -/
def hostManifestRemoved : Env :=
  { hostOk with
    stat := fun h p =>
      if p = "/opt/1Panel/backup/system/snap_T1/snap_T1/snapshot.json"
          ∧ Event.removeAll "/opt/1Panel/backup/system/snap_T1/snap_T1" ∈ h then
        .notExist "stat /opt/1Panel/backup/system/snap_T1/snap_T1/snapshot.json: no such file or directory"
      else .ok }

/-- The record of the snapshot `snap_T1`, never recovered. -/
def recordFresh : Snapshot :=
  { ID := 1, Name := "snap_T1", Description := "", From := "OSS", Version := "v1.0.0",
    Status := "Success", Message := "", InterruptStep := "", RecoverStatus := "",
    RecoverMessage := "", LastRecoveredAt := "", RollbackStatus := "", RollbackMessage := "",
    LastRollbackedAt := "" }

/-- The record of `snap_T1` after a recover that failed at `step`. -/
def recordFailedAt (step : String) : Snapshot :=
  { recordFresh with
    InterruptStep := step, RecoverStatus := "Failed", RecoverMessage := "exit status 2",
    LastRecoveredAt := "2023-03-01 09:00:00" }

/-- A request on record 1 that neither starts afresh nor downloads again. -/
def reqResume : SnapshotRecoverReq := { IsNew := false, ReDownload := false, ID := 1 }

/-- The record of `snap_T1` after a recover that succeeded. -/
def recordRecovered : Snapshot :=
  { recordFresh with RecoverStatus := "Success", LastRecoveredAt := "2023-03-01 09:00:00" }

/-- The record of `snap_T1` after a recover that succeeded and a rollback
that then failed. -/
def recordRollbackFailed : Snapshot :=
  { recordRecovered with
    RollbackStatus := "Failed", RollbackMessage := "exit status 2",
    LastRollbackedAt := "2023-03-01 09:30:00" }

/-- The record of `snap_T1` after a recover that failed at DaemonJson and a
rollback that then failed. -/
def recordRolledBack : Snapshot :=
  { recordFailedAt "DaemonJson" with
    RollbackStatus := "Failed", RollbackMessage := "exit status 2",
    LastRollbackedAt := "2023-03-01 09:30:00" }

/-- A request on record 1 that resumes but downloads the archive again. -/
def reqReDownload : SnapshotRecoverReq := { IsNew := false, ReDownload := true, ID := 1 }

/-- A recover of `snap_T1` on `env`, resumed from a failure at `step`. -/
def resumeAt (env : Env) (step : String) : Option String × Run :=
  SnapshotRecover env reqResume { trace := [], snap := recordFailedAt step }

/-- A rollback of `snap_T1` on `env` after a recover that failed at `step`. -/
def rollbackAt (env : Env) (step : String) : Option String × Run :=
  SnapshotRollback env reqResume { trace := [], snap := recordFailedAt step }

/-- A first recover of `snap_T1` on `hostUntarFailsOnce`: it fails at DockerDir. -/
def firstAttempt : Option String × Run :=
  SnapshotRecover hostUntarFailsOnce reqResume { trace := [], snap := recordFresh }

/-- The recover called again on the world `firstAttempt` left. -/
def secondAttempt : Option String × Run :=
  SnapshotRecover hostUntarFailsOnce reqResume firstAttempt.2.world

/-- A rollback of the recovered `snap_T1` on `hostManifestRemoved`. -/
def firstRollback : Option String × Run :=
  SnapshotRollback hostManifestRemoved reqResume { trace := [], snap := recordRecovered }

/-- The rollback called again on the world `firstRollback` left. -/
def secondRollback : Option String × Run :=
  SnapshotRollback hostManifestRemoved reqResume firstRollback.2.world

/-! ## The path of a recover run -/

/-- The labels of the seven mutator steps, in program order. -/
def mutatorLabels : List String :=
  ["DockerDir", "DaemonJson", "1PanelBinary", "1PctlBinary", "1PanelService", "1PanelBackups",
   "1PanelData"]

/-- The mutator steps a recover run goes through when none fails: a step is
run when `isReTry` is off or its label is the interrupt step, and running a
step turns `isReTry` off (the guard of lines 263-315). -/
def planMutators (interrupt : String) : Bool → List String → List String
  | _, [] => []
  | isReTry, label :: rest =>
    if isReTry = false ∨ interrupt = label then label :: planMutators interrupt false rest
    else planMutators interrupt isReTry rest

/-- The path from line 253 on; `live` is the flag the docker probe gave. -/
def planLiveRestore (interrupt : String) (live isReTry : Bool) : List String :=
  if live then "UpdateLiveRestore" :: planMutators interrupt false mutatorLabels
  else planMutators interrupt isReTry mutatorLabels

/-- The path from line 241 on. -/
def planLoadDocker (interrupt : String) (live isReTry : Bool) : List String :=
  if isReTry = false ∨ interrupt = "LoadDockerJson" then
    "LoadDockerJson" :: planLiveRestore interrupt live false
  else planLiveRestore interrupt false isReTry

/-- The path from line 229 on. -/
def planReadJson (interrupt : String) (live isReTry : Bool) : List String :=
  "Readjson" :: planLoadDocker interrupt live (if interrupt = "Readjson" then false else isReTry)

/-- The path from line 217 on. -/
def planDecompress (interrupt : String) (reDownload live isReTry : Bool) : List String :=
  if isReTry = false ∨ interrupt = "Decompress" ∨ (isReTry = true ∧ reDownload = true) then
    "Decompress" :: planReadJson interrupt live false
  else planReadJson interrupt live isReTry

/-- The path of the whole goroutine: the labels of the steps a recover run
goes through, in order, when no step fails. -/
def planDownload (interrupt : String) (reDownload live isReTry : Bool) : List String :=
  if isReTry = false ∨ interrupt = "Download" ∨ (isReTry = true ∧ reDownload = true) then
    "Download" :: planDecompress interrupt reDownload live false
  else planDecompress interrupt reDownload live isReTry

/-- The run went along `plan`: the steps it invoked are the first steps of
`plan`, and all of `plan` when none of them failed. -/
def Follows (plan : List String) (r : Run) : Prop :=
  ∃ rest, plan = r.names ++ rest ∧ (r.ok → rest = [])

/-! ## How a recover run ends -/

/-- The run stopped at a step that failed. -/
def FailedRun (c : RecoverCtx) (r : Run) : Prop :=
  ∃ pre S e, r.log = pre ++ [(Step.name S, some e)] ∧ (∀ p ∈ pre, p.2 = none)
    ∧ r.world.snap.InterruptStep
        = (if c.req.ReDownload = true ∧ (S = .Download ∨ S = .Decompress)
            then c.snap.InterruptStep else S.name)
    ∧ r.world.snap.RecoverStatus = StatusFailed
    ∧ (∃ pfx, r.world.snap.RecoverMessage = pfx ++ e)
    ∧ r.finalized = false

/-- The run went through every step it invoked and its closing block. -/
def SucceededRun (r : Run) : Prop :=
  r.ok ∧ r.world.snap.InterruptStep = "" ∧ r.world.snap.RecoverStatus = StatusSuccess
    ∧ r.finalized = true

/-! ## What a mutator call touches -/

/-- The call took the history `h` to `h1` by appending events, each of which
writes nowhere but to one of `dests` and copies from nowhere but one of
`srcs`. -/
def OnlyRestores (dests srcs : List String) (h h1 : History) : Prop :=
  ∃ l, h1 = h ++ l
    ∧ ∀ e ∈ l, (∀ d, e.writes = some d → d ∈ dests) ∧ (∀ s, e.reads = some s → s ∈ srcs)

/-! ## What a call appends to the trace -/

/-- The call took the history `h` to `h1` by appending events that all
satisfy `P`. -/
def Appends (P : Event → Prop) (h h1 : History) : Prop :=
  ∃ l, h1 = h ++ l ∧ ∀ e ∈ l, P e

/-- The events the mutators and their archive helpers issue: file system
calls, `tar`, and copies. -/
def Event.isFileOp : Event → Bool
  | .stat _ => true
  | .mkdirAll _ => true
  | .remove _ => true
  | .tar _ => true
  | .cp _ _ => true
  | .copyFile _ _ => true
  | _ => false

/-- The events of the closing block of the recover goroutine (317-323):
removing a directory tree, reloading systemd, restarting the panel service. -/
def Event.isClosing : Event → Bool
  | .removeAll _ => true
  | .exec command =>
    command = "systemctl daemon-reload" ∨ command = "systemctl restart 1panel.service"
  | _ => false

/-- Unless the run went through its closing block, it appended no event of
the closing block to the trace of `w`. -/
def Unfinished (w : World) (r : Run) : Prop :=
  r.finalized = false → Appends (fun e => e.isClosing = false) w.trace r.world.trace


/-! ## More hosts -/

/-- The host `hostOk`, except that the "original" directory of `snap_T1` does
not exist. -/
def hostNoOriginal : Env :=
  { hostOk with
    stat := fun _ p =>
      if p = "/opt/1Panel/backup/system/snap_T1/original" then
        .notExist "stat /opt/1Panel/backup/system/snap_T1/original: no such file or directory"
      else .ok }

/-! ## How a rollback ends -/

/-- The world still carries the interrupt step and the recoverStatus of the
record `snap0`. -/
def SameCheckpoint (snap0 : Snapshot) (w : World) : Prop :=
  w.snap.InterruptStep = snap0.InterruptStep ∧ w.snap.RecoverStatus = snap0.RecoverStatus

/-- The rollback stopped at a step that failed: that step is the last of the
log, its error is the one returned, and the record, which started as
`snap0`, has rollbackStatus Failed with the error in its message and the
interrupt step and recoverStatus of `snap0`. -/
def RollbackFailed (snap0 : Snapshot) (res : Option String × Run) : Prop :=
  ∃ pre label e, res.2.log = pre ++ [(label, some e)] ∧ (∀ p ∈ pre, p.2 = none)
    ∧ res.1 = some e
    ∧ res.2.world.snap.RollbackStatus = StatusFailed
    ∧ (∃ pfx, res.2.world.snap.RollbackMessage = pfx ++ e)
    ∧ SameCheckpoint snap0 res.2.world
    ∧ res.2.finalized = false

/-! ## Hosts on which files are missing -/

/-- The host `hostOk`, except that `/etc/docker/daemon.json` does not exist. -/
def hostNoDaemonJson : Env :=
  { hostOk with
    stat := fun _ p =>
      if p = "/etc/docker/daemon.json" then
        .notExist "stat /etc/docker/daemon.json: no such file or directory"
      else .ok }

/-- The four live system files of the file mutators. -/
def liveFiles : List String :=
  ["/etc/docker/daemon.json", "/usr/local/bin/1panel", "/usr/local/bin/1pctl",
   "/etc/systemd/system/1panel.service"]

/-- The host `hostOk`, except that none of the four live system files exists:
`os.Stat` of such a path answers with the text of a `*fs.PathError`. -/
def hostNoLiveFiles : Env :=
  { hostOk with
    stat := fun _ p =>
      if p ∈ liveFiles then .notExist ("stat " ++ p ++ ": no such file or directory") else .ok }

/-- The host `hostOk`, except that the manifest of the snapshot records
live-restore as enabled. -/
def hostLiveRestore : Env :=
  { hostOk with
    unmarshalSnapshotJson := fun _ => .ok { manifestT1 with LiveRestoreEnabled := true } }

/-- The host `hostOk`, except that the upload to the backup account is refused
without an error: the client returns `(false, nil)`. -/
def hostUploadRefused : Env :=
  { hostOk with upload := fun _ _ _ => (false, none) }

/-- The host `hostOk`, except that the upload to the backup account fails with
an error. -/
def hostUploadFails : Env :=
  { hostOk with upload := fun _ _ _ => (false, some "connection reset") }

/-- The host `hostOk`, except that the download from the backup account is
refused without an error: the client returns `(false, nil)`. -/
def hostDownloadRefused : Env :=
  { hostOk with download := fun _ _ _ => (false, none) }

/-- A create request on the backup account `OSS`. -/
def reqCreate : SnapshotCreateReq := { From := "OSS", Description := "" }

/-! ## The local MySQL client (`local.go`) -/

/-- Go `strings.HasPrefix(s, pre)`. -/
def stringsHasPrefix (s pre : String) : Bool :=
  pre.data.isPrefixOf s.data

/-- The fields of `CreateInfo` that `local.go` reads. -/
structure CreateInfo where
  Name : String
  Version : String
  Username : String
  Password : String
  Permission : String
  Timeout : Nat

/-- The fields of `DeleteInfo` that `local.go` reads. -/
structure DeleteInfo where
  Name : String
  Version : String
  Username : String
  Permission : String
  ForceDelete : Bool
  Timeout : Nat

/-- The fields of `AccessChangeInfo` that `local.go` reads. -/
structure AccessChangeInfo where
  Name : String
  Version : String
  Username : String
  Password : String
  OldPermission : String
  Permission : String
  Timeout : Nat

/-- The struct `Local` (19-23). -/
structure Local where
  PrefixCommand : List String
  Password : String
  ContainerName : String

/-- One run of `docker` by `ExecSQL`: its arguments and its timeout in seconds. -/
structure DockerCall where
  args : List String
  timeout : Nat
deriving DecidableEq

/-- What a run of `docker` gave: the combined output, whether
`CombinedOutput` returned an error, and whether the deadline passed. -/
structure CmdOutput where
  stdout : String
  failed : Bool
  deadlineExceeded : Bool

/-- The calls issued so far by the MySQL client, oldest first. -/
abbrev SqlHistory := List DockerCall

/-- The host of the MySQL client: the reply of `docker` to a call given the
calls made before it, and the texts of the two errors `local.go` takes from
the package `constant`. -/
structure SqlHost where
  docker : SqlHistory → DockerCall → CmdOutput
  ErrExecTimeOut : String
  ErrUserIsExist : String

/-- The method `Local.ExecSQL` (257-272); an error is modelled by its text.
With `timeout = 0` the context is expired when it is made: `CombinedOutput`
starts no process and the deadline error is returned. -/
def Local.ExecSQL (r : Local) (env : SqlHost) (command : String) (timeout : Nat)
    (h : SqlHistory) : Option String × SqlHistory :=
  let call : DockerCall := { args := r.PrefixCommand ++ [command], timeout := timeout }
  let out := env.docker h call
  let h1 := h ++ [call]
  if timeout = 0 then (some env.ErrExecTimeOut, h)
  else if out.deadlineExceeded then (some env.ErrExecTimeOut, h1)
  else
    let stdStr := stringsReplaceAll out.stdout
      "mysql: [Warning] Using a password on the command line interface can be insecure.\n" ""
    if out.failed ∨ stringsHasPrefix stdStr "ERROR " then (some stdStr, h1) else (none, h1)

/-- The user list built at the head of `CreateUser` and of `Delete` (46-56,
94-104). -/
def userList (username permission : String) : List String :=
  if stringsContains permission "," then
    ((stringsSplit permission ',').filter (fun ip => ip.length ≠ 0)).map
      (fun ip => "'" ++ username ++ "'@'" ++ ip ++ "'")
  else ["'" ++ username ++ "'@'" ++ permission ++ "'"]

/-- The loop of `Delete` over the user list (106-116). -/
def Local.dropUsers (r : Local) (env : SqlHost) (info : DeleteInfo) :
    List String → SqlHistory → Option String × SqlHistory
  | [], h => (none, h)
  | user :: rest, h =>
    let sql :=
      if stringsHasPrefix info.Version "5.6" then "drop user " ++ user
      else "drop user if exists " ++ user
    match r.ExecSQL env sql info.Timeout h with
    | (some err, h1) =>
      if info.ForceDelete = false then (some err, h1) else Local.dropUsers r env info rest h1
    | (none, h1) => Local.dropUsers r env info rest h1

/-- The method `Local.Delete` (93-127). -/
def Local.Delete (r : Local) (env : SqlHost) (info : DeleteInfo) (h : SqlHistory) :
    Option String × SqlHistory :=
  match r.dropUsers env info (userList info.Username info.Permission) h with
  | (some err, h1) => (some err, h1)
  | (none, h1) =>
    if info.Name.length ≠ 0 then
      match r.ExecSQL env ("drop database if exists `" ++ info.Name ++ "`") info.Timeout h1 with
      | (some err, h2) => if info.ForceDelete = false then (some err, h2) else (none, h2)
      | (none, h2) => (none, h2)
    else (none, h1)

/-- The `DeleteInfo` that `CreateUser` passes to `Delete` when a statement
fails (60-66, 79-85). -/
def CreateInfo.undo (info : CreateInfo) : DeleteInfo :=
  { Name := info.Name, Version := info.Version, Username := info.Username,
    Permission := info.Permission, ForceDelete := true, Timeout := 300 }

/-- The loop of `CreateUser` over the user list (58-89). -/
def Local.createUsers (r : Local) (env : SqlHost) (info : CreateInfo) :
    List String → SqlHistory → Option String × SqlHistory
  | [], h => (none, h)
  | user :: rest, h =>
    match r.ExecSQL env ("create user " ++ user ++ " identified by '" ++ info.Password ++ "';")
        info.Timeout h with
    | (some err, h1) =>
      let h2 := (r.Delete env info.undo h1).2
      if stringsContains err "ERROR 1396" then (some env.ErrUserIsExist, h2) else (some err, h2)
    | (none, h1) =>
      let grantOn :=
        if info.Name = "*" then "grant all privileges on *.* to " ++ user
        else "grant all privileges on `" ++ info.Name ++ "`.* to " ++ user
      let grantStr :=
        if stringsHasPrefix info.Version "5.7" ∨ stringsHasPrefix info.Version "5.6" then
          grantOn ++ " identified by '" ++ info.Password ++ "' with grant option;"
        else grantOn
      match r.ExecSQL env grantStr info.Timeout h1 with
      | (some err, h2) => (some err, (r.Delete env info.undo h2).2)
      | (none, h2) => Local.createUsers r env info rest h2

/-- The method `Local.CreateUser` (45-91). -/
def Local.CreateUser (r : Local) (env : SqlHost) (info : CreateInfo) (h : SqlHistory) :
    Option String × SqlHistory :=
  r.createUsers env info (userList info.Username info.Permission) h

/-- Lines 193-205 of `ChangeAccess`: create the user, then flush. -/
def Local.grantAccess (r : Local) (env : SqlHost) (info : AccessChangeInfo) (h : SqlHistory) :
    Option String × SqlHistory :=
  match r.CreateUser env
      { Name := info.Name, Version := info.Version, Username := info.Username,
        Password := info.Password, Permission := info.Permission, Timeout := info.Timeout } h with
  | (some err, h1) => (some err, h1)
  | (none, h1) => r.ExecSQL env "flush privileges" 300 h1

/-- The method `Local.ChangeAccess` (174-206). -/
def Local.ChangeAccess (r : Local) (env : SqlHost) (req : AccessChangeInfo) (h : SqlHistory) :
    Option String × SqlHistory :=
  let info : AccessChangeInfo :=
    if req.Username = "root" then { req with OldPermission := "%", Name := "*" } else req
  if info.Permission ≠ info.OldPermission then
    match r.Delete env
        { Name := "", Version := info.Version, Username := info.Username,
          Permission := info.OldPermission, ForceDelete := true, Timeout := 300 } h with
    | (some err, h1) => (some err, h1)
    | (none, h1) => if info.Username = "root" then (none, h1) else r.grantAccess env info h1
  else r.grantAccess env info h

/-- The statement of a call: the last argument given to `docker`. -/
def DockerCall.statement (c : DockerCall) : String :=
  c.args.getLastD ""

/-- A local client of the container `mysql`. -/
def localMysql : Local :=
  { PrefixCommand := ["exec", "mysql", "mysql", "-uroot", "-ppw", "-e"], Password := "pw",
    ContainerName := "mysql" }

/-- A host on which every `create user` statement fails with MySQL error 1396
and every other statement succeeds. -/
def sqlHostUserExists : SqlHost :=
  { docker := fun _ c =>
      if stringsHasPrefix c.statement "create user " then
        { stdout := "ERROR 1396 (HY000) at line 1: Operation CREATE USER failed\n",
          failed := true, deadlineExceeded := false }
      else { stdout := "", failed := false, deadlineExceeded := false },
    ErrExecTimeOut := "ErrExecTimeOut", ErrUserIsExist := "ErrUserIsExist" }

/-- A host on which every `grant` statement runs out of time and every other
statement succeeds. -/
def sqlHostGrantTimesOut : SqlHost :=
  { docker := fun _ c =>
      if stringsHasPrefix c.statement "grant " then
        { stdout := "", failed := true, deadlineExceeded := true }
      else { stdout := "", failed := false, deadlineExceeded := false },
    ErrExecTimeOut := "ErrExecTimeOut", ErrUserIsExist := "ErrUserIsExist" }

/-- A request to change the access of user `shop` on database `shop` from any
host to one address. -/
def accessShop : AccessChangeInfo :=
  { Name := "shop", Version := "8.0.30", Username := "shop", Password := "s3cret",
    OldPermission := "%", Permission := "192.168.1.5", Timeout := 300 }

/-! ## The calls a run stands for

The definitions of this section do not embed code.  They spell out what the
claims mean by "step S is executed": the function of that step is called, on
the trace the earlier calls left, with the arguments of the source.  A
sequence of such calls is chained below without any bookkeeping of its own,
to be compared with what `SnapshotRecover` and `SnapshotRollback` do. -/

/-- What one step hands to the next: the trace so far, the manifest as read
and filled in by the steps before, and the live-restore flag the docker probe
of this run gave (false as long as no probe was made). -/
structure StepState where
  trace : History
  snapJson : SnapshotJson
  liveRestore : Bool
  deriving DecidableEq

/-- The outcome of a chain of calls: what each call returned, in the order of
the calls (`none` for nil), the state after the last call, and whether the
last call panicked instead of returning. -/
structure Calls where
  log : List (String × Option String)
  state : StepState
  panicked : Bool
  deriving DecidableEq

/-- The chain `k`, after a call labelled `label` that returned nil. -/
def Calls.after (label : String) (k : Calls) : Calls :=
  { k with log := (label, none) :: k.log }

/-- A mutator called on the trace of `st`. -/
def StepState.mutate (st : StepState) (f : History → Option String × History) :
    Ending × StepState :=
  (.returned (f st.trace).1, { st with trace := (f st.trace).2 })

/-- The call a recover makes for step `s` (205-315): the function called and
its arguments.  Download fails when `err != nil || !ok`; Readjson keeps the
manifest read and fills in its two old directories (232-242); LoadDockerJson
keeps the docker directory and the live-restore flag of the probe. -/
def recoverStepCall (env : Env) (c : RecoverCtx) : Step → StepState → Ending × StepState
  | .Download, st =>
    match clientDownload env ("system_snapshot/" ++ c.snap.Name ++ ".tar.gz")
        (c.baseDir ++ "/" ++ c.snap.Name ++ ".tar.gz") st.trace with
    | ((true, none), h1) => (.returned none, { st with trace := h1 })
    | ((_, err), h1) => (.returned (some (fmtErr err)), { st with trace := h1 })
  | .Decompress, st =>
    st.mutate (fileDecompress env (c.baseDir ++ "/" ++ c.snap.Name ++ ".tar.gz") c.baseDir)
  | .Readjson, st =>
    match readFromJson env (c.rootDir ++ "/snapshot.json") st.trace with
    | (.error err, h1) => (.returned (some err), { st with trace := h1 })
    | (.ok snapJson, h1) =>
      (.returned none,
        { st with
          trace := h1,
          snapJson :=
            { snapJson with
              OldPanelDataDir := env.BaseDir ++ "/1Panel", OldBackupDataDir := c.localDir } })
  | .LoadDockerJson, st =>
    match loadDockerDataDir env st.trace with
    | (.error err, h1) => (.returned (some err), { st with trace := h1 })
    | (.ok (dir, live), h1) =>
      (.returned none,
        { trace := h1, snapJson := { st.snapJson with OldDockerDataDir := dir },
          liveRestore := live })
  | .UpdateLiveRestore, st =>
    ((updateLiveRestore env false st.trace).1,
      { st with trace := (updateLiveRestore env false st.trace).2 })
  | .DockerDir, st =>
    st.mutate (handleDockerDatas env c.operation c.rootDir st.snapJson.DockerDataDir)
  | .DaemonJson, st =>
    st.mutate (handleDaemonJson env c.operation (c.rootDir ++ "/docker/daemon.json") c.originalDir)
  | .PanelBinary, st =>
    st.mutate (handlePanelBinary env c.operation (c.recoverPanelDir ++ "/1panel")
      (c.originalDir ++ "/1panel"))
  | .PctlBinary, st =>
    st.mutate (handlePanelctlBinary env c.operation (c.recoverPanelDir ++ "/1pctl")
      (c.originalDir ++ "/1pctl"))
  | .PanelService, st =>
    st.mutate (handlePanelService env c.operation (c.recoverPanelDir ++ "/1panel.service")
      (c.originalDir ++ "/1panel.service"))
  | .PanelBackups, st =>
    st.mutate (handleBackupDatas env c.operation c.rootDir st.snapJson.BackupDataDir)
  | .PanelData, st =>
    st.mutate (handlePanelDatas env c.operation c.rootDir st.snapJson.PanelDataDir "" "")

/-- The calls a recover makes on its way to step `s` whether or not the step
itself is due: `saveJson` and `systemctl stop docker` before DockerDir (260,
262), `systemctl restart docker` before 1PanelBinary (277). -/
def recoverBetween (env : Env) (c : RecoverCtx) : Step → StepState → StepState
  | .DockerDir, st =>
    { st with
      trace := (cmdExec env "systemctl stop docker"
        (saveJson env st.snapJson c.rootDir st.trace).2).2 }
  | .PanelBinary, st => { st with trace := (cmdExec env "systemctl restart docker" st.trace).2 }
  | _, st => st

/-- Go through the sequence `steps` from the state `st`.  A step is called
when its label is in `plan` (UpdateLiveRestore: and the probe of this run
reported live-restore enabled) and is passed over otherwise; the chain stops
at the first call that returns an error or panics. -/
def recoverCalls (env : Env) (c : RecoverCtx) (plan : List String) :
    List Step → StepState → Calls
  | [], st => { log := [], state := st, panicked := false }
  | s :: rest, st =>
    if s.name ∈ plan ∧ (s = .UpdateLiveRestore → (recoverBetween env c s st).liveRestore = true) then
      match recoverStepCall env c s (recoverBetween env c s st) with
      | (.returned none, st1) => (recoverCalls env c plan rest st1).after s.name
      | (.returned (some e), st1) => { log := [(s.name, some e)], state := st1, panicked := false }
      | (.panicked, st1) => { log := [], state := st1, panicked := true }
    else recoverCalls env c plan rest (recoverBetween env c s st)

/-- The trace on which the goroutine of a recover starts: the synchronous
part has checked `baseDir`, created it when missing, and set recoverStatus to
Waiting (194-198). -/
def recoverLaunch (env : Env) (baseDir : String) (id : Nat) (h : History) : History :=
  (match env.stat h baseDir with
    | .notExist _ => h ++ [.stat baseDir, .mkdirAll baseDir]
    | _ => h ++ [.stat baseDir])
  ++ [.dbUpdate id [("recover_status", StatusWaiting)]]

/-- The four events of the closing block of a recover (317-324), the last
one stamped `t`. -/
def recoverClosing (c : RecoverCtx) (t : String) : List Event :=
  [.removeAll c.rootDir, .exec "systemctl daemon-reload",
   .exec "systemctl restart 1panel.service",
   .dbUpdate c.snap.ID
     [("interrupt_step", ""), ("recover_status", StatusSuccess), ("recover_message", ""),
      ("last_recovered_at", t)]]

/-- The chain `k` is what the run `r` did: same returns in the same order,
same panic, and the trace of the run is the trace of the chain followed by
nothing after a panic, by the one update that records the failure after an
error, and by the closing block otherwise. -/
def Realises (c : RecoverCtx) (r : Run) (k : Calls) : Prop :=
  r.log = k.log ∧ r.crashed = k.panicked
  ∧ ∃ tail, r.world.trace = k.state.trace ++ tail
    ∧ (k.panicked = true → tail = [] ∧ r.finalized = false)
    ∧ (∀ label e, (label, some e) ∈ k.log →
        ∃ t, tail = [.dbUpdate c.snap.ID
          [("interrupt_step", r.world.snap.InterruptStep), ("recover_status", StatusFailed),
           ("recover_message", r.world.snap.RecoverMessage), ("last_recovered_at", t)]])
    ∧ (k.panicked = false → (∀ p ∈ k.log, p.2 = none) → ∃ t, tail = recoverClosing c t)

/-- The lists `P` and `Q` hold the same labels among those of `L`. -/
def AgreeOn (L P Q : List String) : Prop :=
  ∀ x ∈ L, (x ∈ P ↔ x ∈ Q)

/-- The steps of a rollback, in program order (352-436). -/
def rollbackSteps : List Step :=
  [.Readjson, .DockerDir, .DaemonJson, .UpdateLiveRestore, .PanelBinary, .PctlBinary,
   .PanelService, .PanelBackups, .PanelData]

/-- The steps of `steps` up to and including the one labelled `interrupt`,
and all of them when none is: where a rollback of a record interrupted at
`interrupt` stops. -/
def stepsThrough (interrupt : String) : List Step → List Step
  | [] => []
  | s :: rest => if interrupt = s.name then [s] else s :: stepsThrough interrupt rest

/-- The call a rollback makes for step `s` (352-431): the function called and
its arguments.  Download, Decompress and LoadDockerJson are no steps of a
rollback. -/
def rollbackStepCall (env : Env) (rootDir originalDir : String) :
    Step → StepState → Ending × StepState
  | .Readjson, st =>
    match readFromJson env (rootDir ++ "/snapshot.json") st.trace with
    | (.error err, h1) => (.returned (some err), { st with trace := h1 })
    | (.ok snapJson, h1) => (.returned none, { st with trace := h1, snapJson := snapJson })
  | .DockerDir, st =>
    st.mutate (handleDockerDatas env "rollback" originalDir st.snapJson.OldDockerDataDir)
  | .DaemonJson, st =>
    st.mutate (handleDaemonJson env "rollback" (originalDir ++ "/daemon.json") "")
  | .UpdateLiveRestore, st =>
    ((updateLiveRestore env true st.trace).1,
      { st with trace := (updateLiveRestore env true st.trace).2 })
  | .PanelBinary, st => st.mutate (handlePanelBinary env "rollback" (originalDir ++ "/1panel") "")
  | .PctlBinary, st => st.mutate (handlePanelctlBinary env "rollback" (originalDir ++ "/1pctl") "")
  | .PanelService, st =>
    st.mutate (handlePanelService env "rollback" (originalDir ++ "/1panel.service") "")
  | .PanelBackups, st =>
    st.mutate (handleBackupDatas env "rollback" originalDir st.snapJson.OldBackupDataDir)
  | .PanelData, st =>
    st.mutate (handlePanelDatas env "rollback" originalDir st.snapJson.OldPanelDataDir "" "")
  | _, st => (.returned none, st)

/-- The call a rollback makes on its way to step `s`: `systemctl stop docker`
before DockerDir (358). -/
def rollbackBetween (env : Env) : Step → StepState → StepState
  | .DockerDir, st => { st with trace := (cmdExec env "systemctl stop docker" st.trace).2 }
  | _, st => st

/-- Call the steps of `steps` in order from the state `st`, UpdateLiveRestore
only when the manifest read by this chain records live-restore enabled; the
chain stops at the first call that returns an error or panics. -/
def rollbackCalls (env : Env) (rootDir originalDir : String) : List Step → StepState → Calls
  | [], st => { log := [], state := st, panicked := false }
  | s :: rest, st =>
    if s = .UpdateLiveRestore ∧ (rollbackBetween env s st).snapJson.LiveRestoreEnabled = false then
      rollbackCalls env rootDir originalDir rest (rollbackBetween env s st)
    else
      match rollbackStepCall env rootDir originalDir s (rollbackBetween env s st) with
      | (.returned none, st1) => (rollbackCalls env rootDir originalDir rest st1).after s.name
      | (.returned (some e), st1) => { log := [(s.name, some e)], state := st1, panicked := false }
      | (.panicked, st1) => { log := [], state := st1, panicked := true }

/-- The chain `k` is what the rollback `r` did: same returns in the same
order, same panic, the trace of the rollback is the trace of the chain
followed by nothing after a panic and by the one update that records the
failure after an error, and the rollback returns the error of the chain. -/
def RealisesRollback (snap : Snapshot) (r : Option String × Run) (k : Calls) : Prop :=
  r.2.log = k.log ∧ r.2.crashed = k.panicked
  ∧ ∃ tail, r.2.world.trace = k.state.trace ++ tail
    ∧ (k.panicked = true → tail = [] ∧ r.2.finalized = false)
    ∧ (∀ label e, (label, some e) ∈ k.log →
        r.1 = some e ∧ r.2.finalized = false
        ∧ ∃ t, tail = [.dbUpdate snap.ID
          [("rollback_status", StatusFailed),
           ("rollback_message", r.2.world.snap.RollbackMessage), ("last_rollbacked_at", t)]])
    ∧ (k.panicked = false → (∀ p ∈ k.log, p.2 = none) → r.1 = none)

/-- The events that fetch or unpack the snapshot archive: `client.Download`
and `fileOp.Decompress`. -/
def Event.isTransfer : Event → Bool
  | .download _ _ => true
  | .decompress _ _ => true
  | _ => false
/-! ## Evaluations on the concrete host -/

/-- C2 (evaluation at the failing input).  A first recover fails at DockerDir
(the extraction fails after the docker data was captured); the recover is
called again and every step succeeds.  The second run overwrites
`/usr/local/bin/1panel` from the archive, and in the whole trace of both runs
nothing ever read `/usr/local/bin/1panel`: no safety copy of it was made. -/
theorem resumed_recover_overwrites_uncaptured_binary :
    firstAttempt.2.world.snap.InterruptStep = "DockerDir"
    ∧ secondAttempt.1 = none ∧ secondAttempt.2.ok
    ∧ Event.cp "/opt/1Panel/backup/system/snap_T1/snap_T1/1panel/1panel" "/usr/local/bin/1panel"
        ∈ secondAttempt.2.world.trace
    ∧ ∀ e ∈ secondAttempt.2.world.trace, e.reads ≠ some "/usr/local/bin/1panel" := by
  decide

/-- C3 (evaluation at the failing input).  After a recover that failed at
UpdateLiveRestore, a step that comes before every mutator, the rollback runs
the DockerDir and DaemonJson mutators; after one that failed at
LoadDockerJson it runs all seven. -/
theorem rollback_depth_exceeds_interrupt_step :
    ((rollbackAt hostOk "UpdateLiveRestore").1 = none
      ∧ (rollbackAt hostOk "UpdateLiveRestore").2.ok
      ∧ (rollbackAt hostOk "UpdateLiveRestore").2.names = ["Readjson", "DockerDir", "DaemonJson"]
      ∧ Step.UpdateLiveRestore.idx < Step.DockerDir.idx)
    ∧ ((rollbackAt hostOk "LoadDockerJson").1 = none
      ∧ (rollbackAt hostOk "LoadDockerJson").2.ok
      ∧ (rollbackAt hostOk "LoadDockerJson").2.names
          = "Readjson" :: mutatorSteps.map Step.name
      ∧ Step.LoadDockerJson.idx < Step.DockerDir.idx) := by
  decide

/-- C5 (evaluation at the failing input).  After a recover that failed at
DockerDir, a rollback in which every step succeeds returns nil and leaves
the record with its interrupt step, recoverStatus Failed and rollbackStatus
Waiting. -/
theorem boundary_rollback_leaves_record_waiting :
    (rollbackAt hostOk "DockerDir").1 = none ∧ (rollbackAt hostOk "DockerDir").2.ok
    ∧ (rollbackAt hostOk "DockerDir").2.world.snap.InterruptStep = "DockerDir"
    ∧ (rollbackAt hostOk "DockerDir").2.world.snap.RecoverStatus = StatusFailed
    ∧ (rollbackAt hostOk "DockerDir").2.world.snap.RollbackStatus = StatusWaiting := by
  decide

/-- C8 (evaluation at the failing inputs).  A recover whose docker data
extraction fails, a create whose docker data archive fails, and a rollback up
to 1PanelBinary in which everything succeeds: each issues
`systemctl stop docker` and never `systemctl restart docker`. -/
theorem docker_left_stopped :
    (Event.exec "systemctl stop docker"
        ∈ (SnapshotRecover hostUntarFails reqResume ⟨[], recordFresh⟩).2.world.trace
      ∧ Event.exec "systemctl restart docker"
        ∉ (SnapshotRecover hostUntarFails reqResume ⟨[], recordFresh⟩).2.world.trace)
    ∧ (Event.exec "systemctl stop docker"
        ∈ (SnapshotCreate hostTarFails ⟨"OSS", "nightly"⟩ ⟨[], recordFresh⟩).2.world.trace
      ∧ Event.exec "systemctl restart docker"
        ∉ (SnapshotCreate hostTarFails ⟨"OSS", "nightly"⟩ ⟨[], recordFresh⟩).2.world.trace)
    ∧ ((rollbackAt hostOk "1PanelBinary").1 = none ∧ (rollbackAt hostOk "1PanelBinary").2.ok
      ∧ Event.exec "systemctl stop docker" ∈ (rollbackAt hostOk "1PanelBinary").2.world.trace
      ∧ Event.exec "systemctl restart docker"
        ∉ (rollbackAt hostOk "1PanelBinary").2.world.trace) := by
  decide

/-- C4 (counterexample).  A resumed recover that asks to download again, on a
record interrupted at DockerDir: the download fails, it is the only step run,
and the persisted interrupt step is still "DockerDir", not "Download". -/
theorem failure_policy_counterexample :
    (SnapshotRecover hostDownloadFails reqReDownload ⟨[], recordFailedAt "DockerDir"⟩).2.log
      = [("Download", some "connection reset")]
    ∧ (SnapshotRecover hostDownloadFails reqReDownload
        ⟨[], recordFailedAt "DockerDir"⟩).2.world.snap.InterruptStep = "DockerDir"
    ∧ (SnapshotRecover hostDownloadFails reqReDownload
        ⟨[], recordFailedAt "DockerDir"⟩).2.world.snap.RecoverStatus = StatusFailed := by
  decide

/-- C7 (counterexample).  A rollback of the recovered snapshot runs its whole
sequence and clears the record; called again, it returns an error and leaves
rollbackStatus Failed. -/
theorem second_rollback_counterexample :
    (firstRollback.1 = none ∧ firstRollback.2.ok ∧ firstRollback.2.finalized = true
      ∧ firstRollback.2.world.snap.InterruptStep = ""
      ∧ firstRollback.2.world.snap.RecoverStatus = ""
      ∧ firstRollback.2.world.snap.RollbackStatus = ""
      ∧ Event.removeAll "/opt/1Panel/backup/system/snap_T1/snap_T1" ∈ firstRollback.2.world.trace)
    ∧ secondRollback.1 ≠ none
    ∧ secondRollback.2.world.snap ≠ firstRollback.2.world.snap
    ∧ secondRollback.2.world.snap.RollbackStatus = StatusFailed := by
  decide

/-- C9 (counterexample).  A record whose rollbackStatus is Failed and whose
interrupt step is empty: a recover with IsNew = false is accepted, sets
recoverStatus to Waiting and runs its sequence. -/
theorem rolled_back_record_counterexample :
    recordRollbackFailed.RollbackStatus ≠ "" ∧ reqResume.IsNew = false
    ∧ (SnapshotRecover hostOk reqResume ⟨[], recordRollbackFailed⟩).1 = none
    ∧ Event.dbUpdate 1 [("recover_status", StatusWaiting)]
        ∈ (SnapshotRecover hostOk reqResume ⟨[], recordRollbackFailed⟩).2.world.trace
    ∧ (SnapshotRecover hostOk reqResume ⟨[], recordRollbackFailed⟩).2.names
        = ["Download", "Decompress", "Readjson", "LoadDockerJson", "DockerDir", "DaemonJson",
           "1PanelBinary", "1PctlBinary", "1PanelService", "1PanelBackups", "1PanelData"] := by
  decide

/-- C10 (counterexample).  A recover that asks to download again, on a record
never recovered: the download fails, and the run ends with recoverStatus
Failed and an empty interrupt step. -/
theorem interrupt_step_counterexample :
    (SnapshotRecover hostDownloadFails reqReDownload ⟨[], recordFresh⟩).1 = none
    ∧ (SnapshotRecover hostDownloadFails reqReDownload ⟨[], recordFresh⟩).2.world.snap.RecoverStatus
        = StatusFailed
    ∧ (SnapshotRecover hostDownloadFails reqReDownload ⟨[], recordFresh⟩).2.world.snap.InterruptStep
        = "" := by
  decide

/-! ## Every recover run ends in one of two ways -/

/-- Deleting the key never panics: `updateLiveRestore(false)` returns. -/
theorem updateLiveRestore_false (env : Env) (h : History) :
    (updateLiveRestore env false h).1 ≠ .panicked := by
  unfold updateLiveRestore osStat osReadFile ioWriteFile cmdExec
  cases env.stat h env.DaemonJsonPath with
  | ok =>
    simp only []
    cases env.readFile (h ++ [.stat env.DaemonJsonPath]) env.DaemonJsonPath with
    | error err => simp
    | ok file =>
      simp only []
      have hset : ∀ m, setLiveRestore m false ≠ none := by
        intro m; cases m <;> simp [setLiveRestore]
      cases hm : setLiveRestore (env.unmarshalMap file) false with
      | none => exact absurd hm (hset _)
      | some deamonMap =>
        simp only []
        cases env.marshalMap deamonMap with
        | error err => simp
        | ok newJson =>
          simp only []
          split
          · simp
          · split <;> simp
  | notExist msg => simp
  | otherErr msg => simp

@[simp] theorem updateRecoverStatus_snap (env : Env) (id : Nat) (step status msg : String) (w : World) :
    (updateRecoverStatus env id step status msg w).snap.InterruptStep = step
    ∧ (updateRecoverStatus env id step status msg w).snap.RecoverStatus = status
    ∧ (updateRecoverStatus env id step status msg w).snap.RecoverMessage = msg := by
  simp [updateRecoverStatus, repoUpdate, setColumn]

theorem failedRun_stop (env : Env) (c : RecoverCtx) (S : Step) (pfx e : String) (w : World) :
    FailedRun c ((Run.stop (updateRecoverStatus env c.snap.ID
      (if c.req.ReDownload = true ∧ (S = .Download ∨ S = .Decompress) then c.snap.InterruptStep
        else S.name) StatusFailed (pfx ++ e) w)).after S.name (some e)) := by
  refine ⟨[], S, e, ?_, ?_, ?_, ?_, ⟨pfx, ?_⟩, ?_⟩ <;> simp [Run.after, Run.stop]

theorem terminal_after (c : RecoverCtx) (r : Run) (label : String)
    (h : FailedRun c r ∨ SucceededRun r) :
    FailedRun c (r.after label none) ∨ SucceededRun (r.after label none) := by
  rcases h with ⟨pre, S, e, h1, h2, h3, h4, h5, h6⟩ | ⟨h1, h2, h3, h4⟩
  · left
    refine ⟨(label, none) :: pre, S, e, ?_, ?_, h3, h4, h5, h6⟩
    · simp [Run.after, h1]
    · intro p hp
      rcases List.mem_cons.1 hp with rfl | hp
      · rfl
      · exact h2 p hp
  · right
    refine ⟨?_, h2, h3, h4⟩
    intro p hp
    rcases List.mem_cons.1 hp with rfl | hp
    · rfl
    · exact h1 p hp

theorem recoverFinish_succeeded (env : Env) (c : RecoverCtx) (w : World) :
    SucceededRun (recoverFinish env c w) := by
  refine ⟨?_, ?_, ?_, ?_⟩ <;> simp [recoverFinish, Run.ok]

theorem guardedStep_terminal (env : Env) (c : RecoverCtx) (isReTry : Bool) (S : Step)
    (hS : S ≠ .Download ∧ S ≠ .Decompress)
    (body : History → Option String × History) (next : Bool → World → Run) (w : World)
    (hnext : ∀ b w1, FailedRun c (next b w1) ∨ SucceededRun (next b w1)) :
    FailedRun c (guardedStep env c isReTry S.name body next w)
      ∨ SucceededRun (guardedStep env c isReTry S.name body next w) := by
  unfold guardedStep
  split
  · split
    · rename_i err w1 _
      left
      have := failedRun_stop env c S "" err w1
      simpa [hS.1, hS.2] using this
    · exact terminal_after c _ _ (hnext _ _)
  · exact hnext _ _

theorem recoverMutators_terminal (env : Env) (c : RecoverCtx) (snapJson : SnapshotJson)
    (isReTry : Bool) (w : World) :
    FailedRun c (recoverMutators env c snapJson isReTry w)
      ∨ SucceededRun (recoverMutators env c snapJson isReTry w) := by
  unfold recoverMutators
  refine guardedStep_terminal env c _ .DockerDir (by decide) _ _ _ (fun _ _ => ?_)
  refine guardedStep_terminal env c _ .DaemonJson (by decide) _ _ _ (fun _ _ => ?_)
  refine guardedStep_terminal env c _ .PanelBinary (by decide) _ _ _ (fun _ _ => ?_)
  refine guardedStep_terminal env c _ .PctlBinary (by decide) _ _ _ (fun _ _ => ?_)
  refine guardedStep_terminal env c _ .PanelService (by decide) _ _ _ (fun _ _ => ?_)
  refine guardedStep_terminal env c _ .PanelBackups (by decide) _ _ _ (fun _ _ => ?_)
  refine guardedStep_terminal env c _ .PanelData (by decide) _ _ _ (fun _ _ => ?_)
  exact Or.inr (recoverFinish_succeeded env c _)

theorem recoverLiveRestore_terminal (env : Env) (c : RecoverCtx) (snapJson : SnapshotJson)
    (liveRestore isReTry : Bool) (w : World) :
    FailedRun c (recoverLiveRestore env c snapJson liveRestore isReTry w)
      ∨ SucceededRun (recoverLiveRestore env c snapJson liveRestore isReTry w) := by
  unfold recoverLiveRestore
  split
  · split
    · rename_i err w1 _
      left
      have := failedRun_stop env c .UpdateLiveRestore
        "update docker daemon.json live-restore conf failed, err: " err w1
      simpa [Step.name] using this
    · exact terminal_after c _ _ (recoverMutators_terminal env c _ _ _)
    · rename_i w1 hq
      exact absurd (congrArg Prod.fst hq) (updateLiveRestore_false env w.trace)
  · exact recoverMutators_terminal env c _ _ _

theorem recoverLoadDocker_terminal (env : Env) (c : RecoverCtx) (snapJson : SnapshotJson)
    (isReTry : Bool) (w : World) :
    FailedRun c (recoverLoadDocker env c snapJson isReTry w)
      ∨ SucceededRun (recoverLoadDocker env c snapJson isReTry w) := by
  unfold recoverLoadDocker
  split
  · split
    · rename_i err w1 _
      left
      have := failedRun_stop env c .LoadDockerJson "load docker data dir failed, err: " err w1
      simpa [Step.name] using this
    · exact terminal_after c _ _ (recoverLiveRestore_terminal env c _ _ _ _)
  · exact recoverLiveRestore_terminal env c _ _ _ _

theorem recoverReadJson_terminal (env : Env) (c : RecoverCtx) (isReTry : Bool) (w : World) :
    FailedRun c (recoverReadJson env c isReTry w)
      ∨ SucceededRun (recoverReadJson env c isReTry w) := by
  unfold recoverReadJson
  split
  · rename_i err w1 _
    left
    have := failedRun_stop env c .Readjson "decompress file failed, err: " err w1
    simpa [Step.name] using this
  · exact terminal_after c _ _ (recoverLoadDocker_terminal env c _ _ _)

theorem recoverDecompress_terminal (env : Env) (c : RecoverCtx) (isReTry : Bool) (w : World) :
    FailedRun c (recoverDecompress env c isReTry w)
      ∨ SucceededRun (recoverDecompress env c isReTry w) := by
  unfold recoverDecompress
  split
  · split
    · rename_i err w1 _
      left
      have := failedRun_stop env c .Decompress "decompress file failed, err: " err w1
      simpa [Step.name] using this
    · exact terminal_after c _ _ (recoverReadJson_terminal env c _ _)
  · exact recoverReadJson_terminal env c _ _

theorem recoverDownload_terminal (env : Env) (c : RecoverCtx) (isReTry : Bool) (w : World) :
    FailedRun c (recoverDownload env c isReTry w)
      ∨ SucceededRun (recoverDownload env c isReTry w) := by
  unfold recoverDownload
  split
  · split
    · exact terminal_after c _ _ (recoverDecompress_terminal env c _ _)
    · rename_i ok err w1 _ _
      left
      have := failedRun_stop env c .Download
        ("download file " ++ c.snap.Name ++ " from " ++ c.backupType ++ " failed, err: ")
        (fmtErr err) w1
      simpa [Step.name] using this
  · exact recoverDecompress_terminal env c _ _

/-! ## The events of each call -/

theorem wrapErr_snd (msg : String) (r : Option String × History) : (wrapErr msg r).2 = r.2 := by
  unfold wrapErr; split <;> rfl

theorem cpBinary_snd (env : Env) (src dst : String) (h : History) :
    (cpBinary env src dst h).2 = h ++ [.cp src dst] := by
  unfold cpBinary; split <;> rfl

theorem appends_append (P : Event → Prop) (h : History) (l : List Event) (hl : ∀ e ∈ l, P e) :
    Appends P h (h ++ l) :=
  ⟨l, rfl, hl⟩

theorem appends_refl (P : Event → Prop) (h : History) : Appends P h h :=
  ⟨[], by simp, by simp⟩

theorem appends_trans (P : Event → Prop) (h h1 h2 : History) (h01 : Appends P h h1)
    (h12 : Appends P h1 h2) : Appends P h h2 := by
  obtain ⟨l1, rfl, hl1⟩ := h01
  obtain ⟨l2, rfl, hl2⟩ := h12
  refine ⟨l1 ++ l2, by simp, ?_⟩
  intro e he
  rcases List.mem_append.1 he with he | he
  · exact hl1 e he
  · exact hl2 e he

theorem appends_mono (P Q : Event → Prop) (h h1 : History) (hPQ : ∀ e, P e → Q e)
    (hP : Appends P h h1) : Appends Q h h1 := by
  obtain ⟨l, rfl, hl⟩ := hP
  exact ⟨l, rfl, fun e he => hPQ e (hl e he)⟩

theorem fileOp_not_closing (e : Event) (he : e.isFileOp = true) : e.isClosing = false := by
  cases e <;> simp_all [Event.isFileOp, Event.isClosing]

theorem handleTar_fileOps (env : Env) (s t n x : String) (h : History) :
    Appends (fun e => e.isFileOp = true) h (handleTar env s t n x h).2 := by
  unfold handleTar osStat osMkdirAll runTar
  cases env.stat h t with
  | notExist msg =>
    cases h2 : env.mkdirAll (h ++ [.stat t]) t <;>
      simp only [h2, List.append_assoc, List.singleton_append] <;>
      exact appends_append _ _ _ (by simp [Event.isFileOp])
  | ok =>
    simp only [List.append_assoc, List.singleton_append]
    exact appends_append _ _ _ (by simp [Event.isFileOp])
  | otherErr msg =>
    simp only [List.append_assoc, List.singleton_append]
    exact appends_append _ _ _ (by simp [Event.isFileOp])

theorem handleUnTar_fileOps (env : Env) (s t : String) (h : History) :
    Appends (fun e => e.isFileOp = true) h (handleUnTar env s t h).2 := by
  unfold handleUnTar osStat osMkdirAll runTar
  cases env.stat h t with
  | notExist msg =>
    cases h2 : env.mkdirAll (h ++ [.stat t]) t <;>
      simp only [h2, List.append_assoc, List.singleton_append] <;>
      exact appends_append _ _ _ (by simp [Event.isFileOp])
  | ok =>
    simp only [List.append_assoc, List.singleton_append]
    exact appends_append _ _ _ (by simp [Event.isFileOp])
  | otherErr msg =>
    simp only [List.append_assoc, List.singleton_append]
    exact appends_append _ _ _ (by simp [Event.isFileOp])

/-- The shape shared by the "recover" branch of the three directory
mutators: archive the live directory, then extract the incoming archive. -/
theorem tar_then_untar_fileOps (env : Env) (s1 t1 n x s2 t2 m1 m2 : String) (h : History) :
    Appends (fun e => e.isFileOp = true) h
      (match handleTar env s1 t1 n x h with
        | (some err, h1) => (some (m1 ++ err), h1)
        | (none, h1) => wrapErr m2 (handleUnTar env s2 t2 h1)).2 := by
  have h1 := handleTar_fileOps env s1 t1 n x h
  split
  · rename_i hq; rw [hq] at h1; exact h1
  · rename_i hq; rw [hq] at h1
    rw [wrapErr_snd]
    exact appends_trans _ _ _ _ h1 (handleUnTar_fileOps ..)

theorem handleDockerDatas_fileOps (env : Env) (op s t : String) (h : History) :
    Appends (fun e => e.isFileOp = true) h (handleDockerDatas env op s t h).2 := by
  unfold handleDockerDatas
  split
  · rw [wrapErr_snd]; exact handleTar_fileOps ..
  · split
    · exact tar_then_untar_fileOps ..
    · split
      · rw [wrapErr_snd]; exact handleUnTar_fileOps ..
      · split
        · rw [wrapErr_snd]; exact handleUnTar_fileOps ..
        · exact appends_refl _ _

theorem handleBackupDatas_fileOps (env : Env) (op s t : String) (h : History) :
    Appends (fun e => e.isFileOp = true) h (handleBackupDatas env op s t h).2 := by
  unfold handleBackupDatas
  split
  · rw [wrapErr_snd]; exact handleTar_fileOps ..
  · split
    · exact tar_then_untar_fileOps ..
    · split
      · rw [wrapErr_snd]; exact handleUnTar_fileOps ..
      · split
        · rw [wrapErr_snd]; exact handleUnTar_fileOps ..
        · exact appends_refl _ _

theorem handlePanelDatas_fileOps (env : Env) (op s t b d : String) (h : History) :
    Appends (fun e => e.isFileOp = true) h (handlePanelDatas env op s t b d h).2 := by
  unfold handlePanelDatas
  split
  · rw [wrapErr_snd]; exact handleTar_fileOps ..
  · split
    · exact tar_then_untar_fileOps ..
    · split
      · rw [wrapErr_snd]; exact handleUnTar_fileOps ..
      · split
        · rw [wrapErr_snd]; exact handleUnTar_fileOps ..
        · exact appends_refl _ _

theorem handleDaemonJson_fileOps (env : Env) (op s t : String) (h : History) :
    Appends (fun e => e.isFileOp = true) h (handleDaemonJson env op s t h).2 := by
  have hsave : ∀ h0, Appends (fun e => e.isFileOp = true) h0
      (match osStat env "/etc/docker/daemon.json" h0 with
        | (.ok, h1) =>
          wrapErr "backup docker daemon.json failed, err: "
            (copyFile env "/etc/docker/daemon.json" t h1)
        | (_, h1) => (none, h1)).2 := by
    intro h0
    unfold osStat copyFile
    cases env.stat h0 "/etc/docker/daemon.json" <;>
      simp only [wrapErr_snd, List.append_assoc, List.singleton_append] <;>
      exact appends_append _ _ _ (by simp [Event.isFileOp])
  have hrest : ∀ h0, Appends (fun e => e.isFileOp = true) h0
      (match osStat env s h0 with
        | (.notExist _, h3) => (none, (osRemove "/etc/docker/daemon.json" h3).2)
        | (.ok, h3) =>
          wrapErr "recover docker daemon.json failed, err: " (copyFile env s "/etc/docker" h3)
        | (.otherErr _, h3) => (none, h3)).2 := by
    intro h0
    unfold osStat copyFile osRemove
    cases env.stat h0 s <;>
      simp only [wrapErr_snd, List.append_assoc, List.singleton_append] <;>
      exact appends_append _ _ _ (by simp [Event.isFileOp])
  unfold handleDaemonJson
  simp only []
  split
  · rename_i err h2 hq
    split at hq
    · have := hsave h; rw [hq] at this; exact this
    · simp at hq
  · rename_i h2 hq
    have h02 : Appends (fun e => e.isFileOp = true) h h2 := by
      split at hq
      · have := hsave h; rw [hq] at this; exact this
      · simp at hq; rw [← hq]; exact appends_refl _ _
    split
    · exact appends_trans _ _ _ _ h02 (hrest h2)
    · exact h02

theorem handleLiveFile_fileOps (env : Env) (livePath m1 m2 m3 m4 op s t : String) (h : History) :
    Appends (fun e => e.isFileOp = true) h (handleLiveFile env livePath m1 m2 m3 m4 op s t h).2 := by
  have hsave : ∀ h0, Appends (fun e => e.isFileOp = true) h0
      (match osStat env livePath h0 with
        | (.ok, h1) => wrapErr m2 (cpBinary env livePath t h1)
        | (r, h1) => (some (m1 ++ fmtErr r.err), h1)).2 := by
    intro h0
    unfold osStat
    cases env.stat h0 livePath <;>
      simp only [wrapErr_snd, cpBinary_snd, List.append_assoc, List.singleton_append] <;>
      exact appends_append _ _ _ (by simp [Event.isFileOp])
  have hrest : ∀ h0, Appends (fun e => e.isFileOp = true) h0
      (match osStat env s h0 with
        | (.ok, h3) => wrapErr m4 (cpBinary env s livePath h3)
        | (r, h3) => (some (m3 ++ fmtErr r.err), h3)).2 := by
    intro h0
    unfold osStat
    cases env.stat h0 s <;>
      simp only [wrapErr_snd, cpBinary_snd, List.append_assoc, List.singleton_append] <;>
      exact appends_append _ _ _ (by simp [Event.isFileOp])
  unfold handleLiveFile
  simp only []
  split
  · rename_i err h2 hq
    split at hq
    · have := hsave h; rw [hq] at this; exact this
    · simp at hq
  · rename_i h2 hq
    have h02 : Appends (fun e => e.isFileOp = true) h h2 := by
      split at hq
      · have := hsave h; rw [hq] at this; exact this
      · simp at hq; rw [← hq]; exact appends_refl _ _
    split
    · exact appends_trans _ _ _ _ h02 (hrest h2)
    · exact h02

theorem readFromJson_quiet (env : Env) (path : String) (h : History) :
    Appends (fun e => e.isClosing = false) h (readFromJson env path h).2 := by
  unfold readFromJson osStat osReadFile
  cases env.stat h path with
  | ok =>
    simp only []
    cases env.readFile (h ++ [.stat path]) path with
    | error err =>
      simp only [List.append_assoc, List.singleton_append]
      exact appends_append _ _ _ (by simp [Event.isClosing])
    | ok fileByte =>
      simp only []
      cases env.unmarshalSnapshotJson fileByte <;>
        simp only [List.append_assoc, List.singleton_append] <;>
        exact appends_append _ _ _ (by simp [Event.isClosing])
  | notExist msg => exact appends_append _ _ _ (by simp [Event.isClosing])
  | otherErr msg => exact appends_append _ _ _ (by simp [Event.isClosing])

theorem loadDockerDataDir_quiet (env : Env) (h : History) :
    Appends (fun e => e.isClosing = false) h (loadDockerDataDir env h).2 := by
  unfold loadDockerDataDir
  cases env.dockerInfo h <;> exact appends_append _ _ _ (by simp [Event.isClosing])

theorem updateLiveRestore_quiet (env : Env) (enabled : Bool) (h : History) :
    Appends (fun e => e.isClosing = false) h (updateLiveRestore env enabled h).2 := by
  unfold updateLiveRestore osStat osReadFile ioWriteFile cmdExec
  cases env.stat h env.DaemonJsonPath with
  | ok =>
    simp only []
    cases env.readFile (h ++ [.stat env.DaemonJsonPath]) env.DaemonJsonPath with
    | error err =>
      simp only [List.append_assoc, List.singleton_append]
      exact appends_append _ _ _ (by simp [Event.isClosing])
    | ok file =>
      simp only []
      cases setLiveRestore (env.unmarshalMap file) enabled with
      | none =>
        simp only [List.append_assoc, List.singleton_append]
        exact appends_append _ _ _ (by simp [Event.isClosing])
      | some deamonMap =>
        simp only []
        cases env.marshalMap deamonMap with
        | error err =>
          simp only [List.append_assoc, List.singleton_append]
          exact appends_append _ _ _ (by simp [Event.isClosing])
        | ok newJson =>
          simp only []
          split
          · rename_i hq; simp only [Prod.mk.injEq] at hq; rw [← hq.2]
            simp only [List.append_assoc, List.singleton_append]
            exact appends_append _ _ _ (by simp [Event.isClosing])
          · rename_i hq; simp only [Prod.mk.injEq] at hq; rw [← hq.2]
            split <;> rename_i hx <;> simp only [Prod.mk.injEq] at hx <;> rw [← hx.2] <;>
              simp only [List.append_assoc, List.singleton_append] <;>
              exact appends_append _ _ _ (by simp [Event.isClosing])
  | notExist msg => exact appends_append _ _ _ (by simp [Event.isClosing])
  | otherErr msg => exact appends_append _ _ _ (by simp [Event.isClosing])

/-! ## A failed recover never reaches the closing block -/

theorem unfinished_after (w : World) (r : Run) (label : String) (err : Option String)
    (h : Unfinished w r) : Unfinished w (r.after label err) := h

theorem unfinished_step (w w1 : World) (r : Run)
    (h01 : Appends (fun e => e.isClosing = false) w.trace w1.trace) (h : Unfinished w1 r) :
    Unfinished w r :=
  fun hf => appends_trans _ _ _ _ h01 (h hf)

theorem unfinished_fail (env : Env) (w w1 : World) (id : Nat) (step status msg : String)
    (h01 : Appends (fun e => e.isClosing = false) w.trace w1.trace) :
    Unfinished w (Run.stop (updateRecoverStatus env id step status msg w1)) := by
  intro _
  refine appends_trans _ _ _ _ h01 ?_
  exact appends_append _ _ _ (by simp [Event.isClosing])

theorem exec_docker_quiet (env : Env) (w : World) (command : String)
    (hc : command = "systemctl stop docker" ∨ command = "systemctl restart docker") :
    Appends (fun e => e.isClosing = false) w.trace (w.exec (cmdExec env command)).trace := by
  refine appends_append _ _ _ ?_
  rcases hc with rfl | rfl <;> simp [Event.isClosing]

theorem guardedStep_unfinished (env : Env) (c : RecoverCtx) (isReTry : Bool) (label : String)
    (body : History → Option String × History) (next : Bool → World → Run) (w : World)
    (hbody : ∀ h, Appends (fun e => e.isFileOp = true) h (body h).2)
    (hnext : ∀ b w1, Unfinished w1 (next b w1)) :
    Unfinished w (guardedStep env c isReTry label body next w) := by
  have hb : Appends (fun e => e.isClosing = false) w.trace (body w.trace).2 :=
    appends_mono _ _ _ _ fileOp_not_closing (hbody w.trace)
  unfold guardedStep
  split
  · split
    · rename_i err w1 hq
      simp only [World.call, Prod.mk.injEq] at hq
      refine unfinished_after _ _ _ _ (unfinished_fail env w w1 _ _ _ _ ?_)
      rw [← hq.2]; exact hb
    · rename_i w1 hq
      simp only [World.call, Prod.mk.injEq] at hq
      refine unfinished_after _ _ _ _ (unfinished_step w w1 _ ?_ (hnext _ _))
      rw [← hq.2]; exact hb
  · exact hnext _ _

theorem recoverMutators_unfinished (env : Env) (c : RecoverCtx) (snapJson : SnapshotJson)
    (isReTry : Bool) (w : World) :
    Unfinished w (recoverMutators env c snapJson isReTry w) := by
  unfold recoverMutators
  refine unfinished_step _ _ _ (exec_docker_quiet env w _ (Or.inl rfl)) ?_
  refine guardedStep_unfinished env c _ _ _ _ _ (handleDockerDatas_fileOps env _ _ _)
    (fun _ _ => ?_)
  refine guardedStep_unfinished env c _ _ _ _ _ (handleDaemonJson_fileOps env _ _ _)
    (fun _ w2 => ?_)
  refine unfinished_step _ _ _ (exec_docker_quiet env w2 _ (Or.inr rfl)) ?_
  refine guardedStep_unfinished env c _ _ _ _ _ (handleLiveFile_fileOps env _ _ _ _ _ _ _ _)
    (fun _ _ => ?_)
  refine guardedStep_unfinished env c _ _ _ _ _ (handleLiveFile_fileOps env _ _ _ _ _ _ _ _)
    (fun _ _ => ?_)
  refine guardedStep_unfinished env c _ _ _ _ _ (handleLiveFile_fileOps env _ _ _ _ _ _ _ _)
    (fun _ _ => ?_)
  refine guardedStep_unfinished env c _ _ _ _ _ (handleBackupDatas_fileOps env _ _ _)
    (fun _ _ => ?_)
  refine guardedStep_unfinished env c _ _ _ _ _ (handlePanelDatas_fileOps env _ _ _ _ _)
    (fun _ _ => ?_)
  intro hf
  simp [recoverFinish] at hf

theorem saveJson_quiet (env : Env) (snapJson : SnapshotJson) (path : String) (w : World) :
    Appends (fun e => e.isClosing = false) w.trace (w.exec (saveJson env snapJson path)).trace :=
  appends_append _ _ _ (by simp [Event.isClosing])

theorem recoverLiveRestore_unfinished (env : Env) (c : RecoverCtx) (snapJson : SnapshotJson)
    (liveRestore isReTry : Bool) (w : World) :
    Unfinished w (recoverLiveRestore env c snapJson liveRestore isReTry w) := by
  unfold recoverLiveRestore
  split
  · have hb := updateLiveRestore_quiet env false w.trace
    split
    · rename_i err w1 hq
      simp only [World.call, Prod.mk.injEq] at hq
      refine unfinished_after _ _ _ _ (unfinished_fail env w w1 _ _ _ _ ?_)
      rw [← hq.2]; exact hb
    · rename_i w1 hq
      simp only [World.call, Prod.mk.injEq] at hq
      refine unfinished_after _ _ _ _ (unfinished_step w w1 _ ?_ ?_)
      · rw [← hq.2]; exact hb
      · exact unfinished_step _ _ _ (saveJson_quiet env _ _ w1)
          (recoverMutators_unfinished env c _ _ _)
    · rename_i w1 hq
      exact absurd (congrArg Prod.fst hq) (updateLiveRestore_false env w.trace)
  · exact unfinished_step _ _ _ (saveJson_quiet env _ _ w) (recoverMutators_unfinished env c _ _ _)

theorem recoverLoadDocker_unfinished (env : Env) (c : RecoverCtx) (snapJson : SnapshotJson)
    (isReTry : Bool) (w : World) :
    Unfinished w (recoverLoadDocker env c snapJson isReTry w) := by
  unfold recoverLoadDocker
  simp only []
  split
  · have hb := loadDockerDataDir_quiet env w.trace
    split
    · rename_i err w1 hq
      simp only [World.call, Prod.mk.injEq] at hq
      refine unfinished_after _ _ _ _ (unfinished_fail env w w1 _ _ _ _ ?_)
      rw [← hq.2]; exact hb
    · rename_i dir live w1 hq
      simp only [World.call, Prod.mk.injEq] at hq
      refine unfinished_after _ _ _ _ (unfinished_step w w1 _ ?_
        (recoverLiveRestore_unfinished env c _ _ _ _))
      rw [← hq.2]; exact hb
  · exact recoverLiveRestore_unfinished env c _ _ _ _

theorem recoverReadJson_unfinished (env : Env) (c : RecoverCtx) (isReTry : Bool) (w : World) :
    Unfinished w (recoverReadJson env c isReTry w) := by
  unfold recoverReadJson
  have hb := readFromJson_quiet env (c.rootDir ++ "/snapshot.json") w.trace
  split
  · rename_i err w1 hq
    simp only [World.call, Prod.mk.injEq] at hq
    refine unfinished_after _ _ _ _ (unfinished_fail env w w1 _ _ _ _ ?_)
    rw [← hq.2]; exact hb
  · rename_i snapJson w1 hq
    simp only [World.call, Prod.mk.injEq] at hq
    refine unfinished_after _ _ _ _ (unfinished_step w w1 _ ?_
      (recoverLoadDocker_unfinished env c _ _ _))
    rw [← hq.2]; exact hb

theorem recoverDecompress_unfinished (env : Env) (c : RecoverCtx) (isReTry : Bool) (w : World) :
    Unfinished w (recoverDecompress env c isReTry w) := by
  unfold recoverDecompress
  split
  · have hb : Appends (fun e => e.isClosing = false) w.trace
        (fileDecompress env (c.baseDir ++ "/" ++ c.snap.Name ++ ".tar.gz") c.baseDir w.trace).2 :=
      appends_append _ _ _ (by simp [Event.isClosing])
    split
    · rename_i err w1 hq
      simp only [World.call, Prod.mk.injEq] at hq
      refine unfinished_after _ _ _ _ (unfinished_fail env w w1 _ _ _ _ ?_)
      rw [← hq.2]; exact hb
    · rename_i w1 hq
      simp only [World.call, Prod.mk.injEq] at hq
      refine unfinished_after _ _ _ _ (unfinished_step w w1 _ ?_
        (recoverReadJson_unfinished env c _ _))
      rw [← hq.2]; exact hb
  · exact recoverReadJson_unfinished env c _ _

theorem recoverDownload_unfinished (env : Env) (c : RecoverCtx) (isReTry : Bool) (w : World) :
    Unfinished w (recoverDownload env c isReTry w) := by
  unfold recoverDownload
  split
  · have hb : Appends (fun e => e.isClosing = false) w.trace
        (clientDownload env ("system_snapshot/" ++ c.snap.Name ++ ".tar.gz")
          (c.baseDir ++ "/" ++ c.snap.Name ++ ".tar.gz") w.trace).2 :=
      appends_append _ _ _ (by simp [Event.isClosing])
    split
    · rename_i w1 hq
      simp only [World.call, Prod.mk.injEq] at hq
      refine unfinished_after _ _ _ _ (unfinished_step w w1 _ ?_
        (recoverDecompress_unfinished env c _ _))
      rw [← hq.2]; exact hb
    · rename_i ok err w1 _ hq
      simp only [World.call, Prod.mk.injEq] at hq
      refine unfinished_after _ _ _ _ (unfinished_fail env w w1 _ _ _ _ ?_)
      rw [← hq.2]; exact hb
  · exact recoverDecompress_unfinished env c _ _

/-! ## The claims on the recover sequence -/

theorem Step.name_injective (S T : Step) (h : S.name = T.name) : S = T := by
  cases S <;> cases T <;> first | rfl | (exact absurd h (by decide))

theorem Step.name_ne_empty (S : Step) : S.name ≠ "" := by
  cases S <;> decide

/-- Either the synchronous part of `SnapshotRecover` returned an error and
nothing happened, or the goroutine ran on the record as loaded. -/
theorem SnapshotRecover_cases (env : Env) (req : SnapshotRecoverReq) (w : World) :
    ((SnapshotRecover env req w).1 ≠ none ∧ (SnapshotRecover env req w).2 = Run.stop w)
    ∨ ((SnapshotRecover env req w).1 = none
      ∧ ∃ c b w2, c.snap = w.snap ∧ c.req = req
        ∧ b = decide (w.snap.InterruptStep ≠ "" ∧ req.IsNew = false)
        ∧ c.operation = (if b = true then "re-recover" else "recover")
        ∧ w2.snap.RecoverStatus = StatusWaiting
        ∧ Appends (fun e => e.isClosing = false) w.trace w2.trace
        ∧ (SnapshotRecover env req w).2 = recoverDownload env c b w2) := by
  cases h1 : env.snapshotGet w.trace req.ID with
  | some err => left; simp [SnapshotRecover, h1]
  | none =>
    by_cases h2 : req.IsNew = false ∧ w.snap.InterruptStep ≠ "" ∧ w.snap.RollbackStatus ≠ ""
    · left; simp [SnapshotRecover, h1, h2]
    · cases h3 : env.backupGet w.trace w.snap.From with
      | error err => left; simp [SnapshotRecover, h1, h2, h3]
      | ok backupType =>
        cases h4 : env.newClient w.trace with
        | some err => left; simp [SnapshotRecover, h1, h2, h3, h4]
        | none =>
          cases h5 : env.loadLocalDir w.trace with
          | error err => left; simp [SnapshotRecover, h1, h2, h3, h4, h5]
          | ok localDir =>
            right
            simp only [SnapshotRecover, h1, h2, h3, h4, h5, if_false]
            refine ⟨trivial, _, _, _, rfl, rfl, rfl, rfl, ?_, ?_, rfl⟩
            · simp [repoUpdate, setColumn]
            · simp only [repoUpdate, World.call, World.exec, osStat, osMkdirAll,
                RecoverCtx.baseDir]
              cases env.stat w.trace (localDir ++ "/system/" ++ w.snap.Name) <;>
                simp only [List.append_assoc, List.singleton_append] <;>
                exact appends_append _ _ _ (by simp [Event.isClosing])

/-- How a recover ends once a failed step is logged. -/
theorem failure_policy_log (env : Env) (req : SnapshotRecoverReq) (w : World) (S : Step)
    (e : String) (hfail : (S.name, some e) ∈ (SnapshotRecover env req w).2.log) :
    (∃ pre, (SnapshotRecover env req w).2.log = pre ++ [(S.name, some e)] ∧ ∀ p ∈ pre, p.2 = none)
    ∧ (SnapshotRecover env req w).2.world.snap.InterruptStep
        = (if req.ReDownload = true ∧ (S = .Download ∨ S = .Decompress)
            then w.snap.InterruptStep else S.name)
    ∧ (SnapshotRecover env req w).2.world.snap.RecoverStatus = StatusFailed
    ∧ (∃ pfx, (SnapshotRecover env req w).2.world.snap.RecoverMessage = pfx ++ e)
    ∧ (SnapshotRecover env req w).2.finalized = false
    ∧ Appends (fun ev => ev.isClosing = false) w.trace (SnapshotRecover env req w).2.world.trace := by
  rcases SnapshotRecover_cases env req w with ⟨_, h⟩ | ⟨_, c, b, w2, hc, hr, _, _, _, hw, h⟩
  · rw [h] at hfail; simp [Run.stop] at hfail
  · rw [h] at hfail ⊢
    rcases recoverDownload_terminal env c b w2 with
      ⟨pre, T, e', h1, h2, h3, h4, h5, h6⟩ | ⟨h1, _⟩
    · rw [h1] at hfail
      rcases List.mem_append.1 hfail with hp | hp
      · have := h2 _ hp; simp at this
      · simp at hp
        obtain ⟨hn, rfl⟩ := hp
        have hST := Step.name_injective S T hn
        subst hST
        refine ⟨⟨pre, h1, h2⟩, ?_, h4, h5, h6,
          appends_trans _ _ _ _ hw (recoverDownload_unfinished env c b w2 h6)⟩
        rw [h3, hc, hr]
    · have := h1 _ hfail; simp at this

/-- C10 (amended).  After every run of the recover sequence whose request has
ReDownload = false, or whose record had a non-empty interrupt step before
the call: the persisted interrupt step is non-empty exactly when
recoverStatus is Failed, and empty exactly when the run went through its
closing block and set recoverStatus to Success. -/
theorem interrupt_step_invariant (env : Env) (req : SnapshotRecoverReq) (w : World)
    (hrun : (SnapshotRecover env req w).1 = none)
    (h : req.ReDownload = false ∨ w.snap.InterruptStep ≠ "") :
    ((SnapshotRecover env req w).2.world.snap.InterruptStep ≠ ""
        ↔ (SnapshotRecover env req w).2.world.snap.RecoverStatus = StatusFailed)
    ∧ ((SnapshotRecover env req w).2.world.snap.InterruptStep = ""
        ↔ (SnapshotRecover env req w).2.world.snap.RecoverStatus = StatusSuccess
          ∧ (SnapshotRecover env req w).2.finalized = true) := by
  rcases SnapshotRecover_cases env req w with ⟨hne, _⟩ | ⟨_, c, b, w2, hc, hr, _, _, _, _, hrw⟩
  · exact absurd hrun hne
  · rw [hrw]
    rcases recoverDownload_terminal env c b w2 with
      ⟨pre, T, e', h1, h2, h3, h4, h5, h6⟩ | ⟨h1, h2, h3, h4⟩
    · have hne : (recoverDownload env c b w2).world.snap.InterruptStep ≠ "" := by
        rw [h3, hc, hr]
        split
        · rename_i hcond
          rcases h with h | h
          · rw [h] at hcond; simp at hcond
          · exact h
        · exact Step.name_ne_empty T
      rw [h4, h6]
      simp [hne, StatusFailed, StatusSuccess]
    · rw [h2, h3, h4]
      simp [StatusFailed, StatusSuccess]

theorem follows_after (plan : List String) (r : Run) (label : String) (h : Follows plan r) :
    Follows (label :: plan) (r.after label none) := by
  obtain ⟨rest, h1, h2⟩ := h
  refine ⟨rest, by simp [Run.after, Run.names, h1], fun hok => h2 ?_⟩
  intro p hp
  exact hok p (List.mem_cons_of_mem _ hp)

theorem follows_fail (plan : List String) (w : World) (label e : String) :
    Follows (label :: plan) ((Run.stop w).after label (some e)) := by
  refine ⟨plan, by simp [Run.after, Run.names, Run.stop], fun hok => ?_⟩
  have := hok (label, some e) (by simp [Run.after])
  simp at this

theorem guardedStep_follows (env : Env) (c : RecoverCtx) (isReTry : Bool) (label : String)
    (labels : List String)
    (body : History → Option String × History) (next : Bool → World → Run) (w : World)
    (hnext : ∀ b w1, Follows (planMutators c.snap.InterruptStep b labels) (next b w1)) :
    Follows (planMutators c.snap.InterruptStep isReTry (label :: labels))
      (guardedStep env c isReTry label body next w) := by
  unfold guardedStep planMutators
  split
  · split
    · exact follows_fail _ _ _ _
    · exact follows_after _ _ _ (hnext _ _)
  · exact hnext _ _

theorem recoverMutators_follows (env : Env) (c : RecoverCtx) (snapJson : SnapshotJson)
    (isReTry : Bool) (w : World) :
    Follows (planMutators c.snap.InterruptStep isReTry mutatorLabels)
      (recoverMutators env c snapJson isReTry w) := by
  unfold recoverMutators mutatorLabels
  refine guardedStep_follows env c _ _ _ _ _ _ (fun _ _ => ?_)
  refine guardedStep_follows env c _ _ _ _ _ _ (fun _ _ => ?_)
  refine guardedStep_follows env c _ _ _ _ _ _ (fun _ _ => ?_)
  refine guardedStep_follows env c _ _ _ _ _ _ (fun _ _ => ?_)
  refine guardedStep_follows env c _ _ _ _ _ _ (fun _ _ => ?_)
  refine guardedStep_follows env c _ _ _ _ _ _ (fun _ _ => ?_)
  refine guardedStep_follows env c _ _ _ _ _ _ (fun _ _ => ?_)
  exact ⟨[], by simp [recoverFinish, Run.names, planMutators], fun _ => rfl⟩

theorem recoverLiveRestore_follows (env : Env) (c : RecoverCtx) (snapJson : SnapshotJson)
    (liveRestore isReTry : Bool) (w : World) :
    Follows (planLiveRestore c.snap.InterruptStep liveRestore isReTry)
      (recoverLiveRestore env c snapJson liveRestore isReTry w) := by
  unfold recoverLiveRestore planLiveRestore
  split
  · split
    · exact follows_fail _ _ _ _
    · exact follows_after _ _ _ (recoverMutators_follows env c _ _ _)
    · rename_i w1 hq
      exact absurd (congrArg Prod.fst hq) (updateLiveRestore_false env w.trace)
  · exact recoverMutators_follows env c _ _ _

theorem recoverLoadDocker_follows (env : Env) (c : RecoverCtx) (snapJson : SnapshotJson)
    (isReTry : Bool) (w : World) :
    ∃ live, Follows (planLoadDocker c.snap.InterruptStep live isReTry)
      (recoverLoadDocker env c snapJson isReTry w) := by
  unfold recoverLoadDocker planLoadDocker
  split
  · split
    · exact ⟨false, follows_fail _ _ _ _⟩
    · rename_i dir live w1 _
      exact ⟨live, follows_after _ _ _ (recoverLiveRestore_follows env c _ _ _ _)⟩
  · exact ⟨false, recoverLiveRestore_follows env c _ _ _ _⟩

theorem recoverReadJson_follows (env : Env) (c : RecoverCtx) (isReTry : Bool) (w : World) :
    ∃ live, Follows (planReadJson c.snap.InterruptStep live isReTry)
      (recoverReadJson env c isReTry w) := by
  unfold recoverReadJson planReadJson
  rcases w.call (readFromJson env (c.rootDir ++ "/snapshot.json")) with ⟨res, w1⟩
  cases res with
  | error err => exact ⟨false, follows_fail _ _ _ _⟩
  | ok snapJson =>
    obtain ⟨live, h⟩ := recoverLoadDocker_follows env c snapJson
      (if c.snap.InterruptStep = "Readjson" then false else isReTry) w1
    exact ⟨live, follows_after _ _ _ h⟩

theorem recoverDecompress_follows (env : Env) (c : RecoverCtx) (isReTry : Bool) (w : World) :
    ∃ live, Follows (planDecompress c.snap.InterruptStep c.req.ReDownload live isReTry)
      (recoverDecompress env c isReTry w) := by
  unfold recoverDecompress planDecompress
  split
  · split
    · exact ⟨false, follows_fail _ _ _ _⟩
    · rename_i w1 _
      obtain ⟨live, h⟩ := recoverReadJson_follows env c false w1
      exact ⟨live, follows_after _ _ _ h⟩
  · exact recoverReadJson_follows env c _ _

theorem recoverDownload_follows (env : Env) (c : RecoverCtx) (isReTry : Bool) (w : World) :
    ∃ live, Follows (planDownload c.snap.InterruptStep c.req.ReDownload live isReTry)
      (recoverDownload env c isReTry w) := by
  unfold recoverDownload planDownload
  split
  · split
    · rename_i w1 _
      obtain ⟨live, h⟩ := recoverDecompress_follows env c false w1
      exact ⟨live, follows_after _ _ _ h⟩
    · exact ⟨false, follows_fail _ _ _ _⟩
  · exact recoverDecompress_follows env c _ _

theorem handleUnTar_onlyRestores (env : Env) (archive target : String) (h : History) :
    OnlyRestores [target] [archive] h (handleUnTar env archive target h).2 := by
  unfold handleUnTar osStat osMkdirAll runTar
  cases h1 : env.stat h target with
  | notExist msg =>
    cases h2 : env.mkdirAll (h ++ [.stat target]) target with
    | some err =>
      exact ⟨[.stat target, .mkdirAll target], by simp [h2], by simp [Event.writes, Event.reads]⟩
    | none =>
      exact ⟨[.stat target, .mkdirAll target, .tar ["zxf", archive, "-C", target, "."]],
        by simp [h2], by simp [Event.writes, Event.reads]⟩
  | ok =>
    exact ⟨[.stat target, .tar ["zxf", archive, "-C", target, "."]],
      by simp, by simp [Event.writes, Event.reads]⟩
  | otherErr msg =>
    exact ⟨[.stat target, .tar ["zxf", archive, "-C", target, "."]],
      by simp, by simp [Event.writes, Event.reads]⟩

theorem handleLiveFile_rerecover (env : Env) (livePath m1 m2 m3 m4 source target : String)
    (h : History) :
    OnlyRestores [livePath] [source] h
      (handleLiveFile env livePath m1 m2 m3 m4 "re-recover" source target h).2 := by
  have e1 : ¬ ("re-recover" = "snapshot" ∨ "re-recover" = "recover") := by decide
  have e2 : "re-recover" = "recover" ∨ "re-recover" = "rollback" ∨ "re-recover" = "re-recover" := by
    decide
  unfold handleLiveFile
  simp only [if_neg e1, if_pos e2]
  unfold osStat
  cases env.stat h source with
  | ok =>
    exact ⟨[.stat source, .cp source livePath], by simp [wrapErr_snd, cpBinary_snd],
      by simp [Event.writes, Event.reads]⟩
  | notExist msg => exact ⟨[.stat source], by simp, by simp [Event.writes, Event.reads]⟩
  | otherErr msg => exact ⟨[.stat source], by simp, by simp [Event.writes, Event.reads]⟩

theorem handleDaemonJson_rerecover (env : Env) (source target : String) (h : History) :
    OnlyRestores ["/etc/docker", "/etc/docker/daemon.json"] [source] h
      (handleDaemonJson env "re-recover" source target h).2 := by
  have e1 : ¬ ("re-recover" = "snapshot" ∨ "re-recover" = "recover") := by decide
  have e2 : "re-recover" = "recover" ∨ "re-recover" = "rollback" ∨ "re-recover" = "re-recover" := by
    decide
  unfold handleDaemonJson
  simp only [if_neg e1, if_pos e2]
  unfold osStat copyFile osRemove
  cases env.stat h source with
  | ok =>
    exact ⟨[.stat source, .copyFile source "/etc/docker"], by simp [wrapErr_snd],
      by simp [Event.writes, Event.reads]⟩
  | notExist msg =>
    exact ⟨[.stat source, .remove "/etc/docker/daemon.json"], by simp,
      by simp [Event.writes, Event.reads]⟩
  | otherErr msg => exact ⟨[.stat source], by simp, by simp [Event.writes, Event.reads]⟩

theorem handleDockerDatas_rerecover (env : Env) (source target : String) (h : History) :
    OnlyRestores [target] [source ++ "/docker/docker_data.tar.gz"] h
      (handleDockerDatas env "re-recover" source target h).2 := by
  have := handleUnTar_onlyRestores env (source ++ "/docker/docker_data.tar.gz") target h
  simpa [handleDockerDatas, wrapErr_snd] using this

theorem handleBackupDatas_rerecover (env : Env) (source target : String) (h : History) :
    OnlyRestores [target] [source ++ "/1panel/1panel_backup.tar.gz"] h
      (handleBackupDatas env "re-recover" source target h).2 := by
  have := handleUnTar_onlyRestores env (source ++ "/1panel/1panel_backup.tar.gz") target h
  simpa [handleBackupDatas, wrapErr_snd] using this

theorem handlePanelDatas_rerecover (env : Env) (source target backupDir dockerDir : String)
    (h : History) :
    OnlyRestores [target] [source ++ "/1panel/1panel_data.tar.gz"] h
      (handlePanelDatas env "re-recover" source target backupDir dockerDir h).2 := by
  have := handleUnTar_onlyRestores env (source ++ "/1panel/1panel_data.tar.gz") target h
  simpa [handlePanelDatas, wrapErr_snd] using this

/-- What the seven mutators append in "re-recover" mode, and the labels
logged by a recover resumed at DaemonJson. -/
theorem rerecover_frame (env : Env) (source target backupDir dockerDir : String)
    (h : History) (w : World) (id : Nat) (hrec : w.snap.InterruptStep = "DaemonJson") :
    OnlyRestores [target] [source ++ "/docker/docker_data.tar.gz"] h
      (handleDockerDatas env "re-recover" source target h).2
    ∧ OnlyRestores ["/etc/docker", "/etc/docker/daemon.json"] [source] h
      (handleDaemonJson env "re-recover" source target h).2
    ∧ OnlyRestores ["/usr/local/bin/1panel"] [source] h
      (handlePanelBinary env "re-recover" source target h).2
    ∧ OnlyRestores ["/usr/local/bin/1pctl"] [source] h
      (handlePanelctlBinary env "re-recover" source target h).2
    ∧ OnlyRestores ["/etc/systemd/system/1panel.service"] [source] h
      (handlePanelService env "re-recover" source target h).2
    ∧ OnlyRestores [target] [source ++ "/1panel/1panel_backup.tar.gz"] h
      (handleBackupDatas env "re-recover" source target h).2
    ∧ OnlyRestores [target] [source ++ "/1panel/1panel_data.tar.gz"] h
      (handlePanelDatas env "re-recover" source target backupDir dockerDir h).2
    ∧ "Download" ∉ (SnapshotRecover env ⟨false, false, id⟩ w).2.names
    ∧ "Decompress" ∉ (SnapshotRecover env ⟨false, false, id⟩ w).2.names
    ∧ "DockerDir" ∉ (SnapshotRecover env ⟨false, false, id⟩ w).2.names
    ∧ ((SnapshotRecover env ⟨false, false, id⟩ w).1 = none →
        (∃ c w2, c.operation = "re-recover"
          ∧ (SnapshotRecover env ⟨false, false, id⟩ w).2 = recoverDownload env c true w2)
        ∧ ((SnapshotRecover env ⟨false, false, id⟩ w).2.ok →
          (SnapshotRecover env ⟨false, false, id⟩ w).2.names
            = ["Readjson", "DaemonJson", "1PanelBinary", "1PctlBinary", "1PanelService",
               "1PanelBackups", "1PanelData"])) := by
  refine ⟨handleDockerDatas_rerecover env source target h,
    handleDaemonJson_rerecover env source target h,
    handleLiveFile_rerecover env _ _ _ _ _ source target h,
    handleLiveFile_rerecover env _ _ _ _ _ source target h,
    handleLiveFile_rerecover env _ _ _ _ _ source target h,
    handleBackupDatas_rerecover env source target h,
    handlePanelDatas_rerecover env source target backupDir dockerDir h, ?_⟩
  rcases SnapshotRecover_cases env ⟨false, false, id⟩ w with
    ⟨hne, hstop⟩ | ⟨hacc, c, b, w2, hc, hr, hb, hop, _, _, hrw⟩
  · rw [hstop]
    exact ⟨by simp [Run.stop, Run.names], by simp [Run.stop, Run.names],
      by simp [Run.stop, Run.names], fun hacc => absurd hacc hne⟩
  · have hb1 : b = true := by rw [hb]; simp [hrec]
    subst hb1
    obtain ⟨live, rest, hplan, hrest⟩ := recoverDownload_follows env c true w2
    rw [hc, hr, hrec] at hplan
    replace hplan : planDownload "DaemonJson" false live true
        = (recoverDownload env c true w2).names ++ rest := hplan
    have hplan2 : ["Readjson", "DaemonJson", "1PanelBinary", "1PctlBinary", "1PanelService",
        "1PanelBackups", "1PanelData"] = (recoverDownload env c true w2).names ++ rest := by
      rw [← hplan]; cases live <;> decide
    have hsub : ∀ x ∈ (recoverDownload env c true w2).names,
        x ∈ ["Readjson", "DaemonJson", "1PanelBinary", "1PctlBinary", "1PanelService",
          "1PanelBackups", "1PanelData"] := by
      intro x hx; rw [hplan2]; exact List.mem_append_left _ hx
    rw [hrw]
    refine ⟨fun hx => ?_, fun hx => ?_, fun hx => ?_, fun _ => ⟨⟨c, w2, ?_, rfl⟩, fun hok => ?_⟩⟩
    · exact absurd (hsub _ hx) (by decide)
    · exact absurd (hsub _ hx) (by decide)
    · exact absurd (hsub _ hx) (by decide)
    · simpa using hop
    · rw [hrest hok, List.append_nil] at hplan2
      exact hplan2.symm

/-! ## A second rollback -/

theorem updateRollbackStatus_failed (env : Env) (id : Nat) (msg : String) (w : World) :
    (updateRollbackStatus env id StatusFailed msg w).snap.RollbackStatus = StatusFailed
    ∧ (updateRollbackStatus env id StatusFailed msg w).snap.InterruptStep = w.snap.InterruptStep
    ∧ (updateRollbackStatus env id StatusFailed msg w).snap.RecoverStatus = w.snap.RecoverStatus
    ∧ (updateRollbackStatus env id StatusFailed msg w).trace
        = w.trace ++ [.dbUpdate id [("rollback_status", StatusFailed), ("rollback_message", msg),
            ("last_rollbacked_at", env.now w.trace "2006-01-02 15:04:05")]] := by
  simp [updateRollbackStatus, repoUpdate, setColumn, StatusFailed, StatusSuccess]

/-- What a rollback on a record with an empty interrupt step leaves
untouched when the manifest is gone. -/
theorem second_rollback_frame (env : Env) (req : SnapshotRecoverReq) (w : World)
    (hrec : w.snap.InterruptStep = "")
    (hgone : ∀ localDir, env.loadLocalDir w.trace = .ok localDir →
      env.stat (w.trace ++ [.stat (localDir ++ "/system/" ++ w.snap.Name ++ "/original"),
          .dbUpdate w.snap.ID [("rollback_status", StatusWaiting)]])
        (localDir ++ "/system/" ++ w.snap.Name ++ "/" ++ w.snap.Name ++ "/snapshot.json") ≠ .ok) :
    (SnapshotRollback env req w).1 ≠ none
    ∧ (∀ T ∈ mutatorSteps, T.name ∉ (SnapshotRollback env req w).2.names)
    ∧ (∀ e ∈ (SnapshotRollback env req w).2.world.trace,
        e ∈ w.trace ∨ (e.writes = none ∧ ∀ command, e ≠ .exec command))
    ∧ (SnapshotRollback env req w).2.world.snap.InterruptStep = ""
    ∧ (SnapshotRollback env req w).2.world.snap.RecoverStatus = w.snap.RecoverStatus
    ∧ ((SnapshotRollback env req w).2.world.snap = w.snap
        ∨ (SnapshotRollback env req w).2.world.snap.RollbackStatus = StatusFailed) := by
  have hguard : ¬ (w.snap.InterruptStep = "Download" ∨ w.snap.InterruptStep = "Decompress"
      ∨ w.snap.InterruptStep = "Readjson") := by rw [hrec]; decide
  have hnames : ∀ T ∈ mutatorSteps, ¬ T.name = "Readjson" := by decide
  cases h1 : env.snapshotGet w.trace req.ID with
  | some err =>
    simp only [SnapshotRollback, h1]
    exact ⟨by simp, by simp [Run.stop, Run.names], fun e he => Or.inl he, hrec, rfl, Or.inl rfl⟩
  | none =>
    cases h2 : env.loadLocalDir w.trace with
    | error err =>
      simp only [SnapshotRollback, h1, h2, if_neg hguard]
      exact ⟨by simp, by simp [Run.stop, Run.names], fun e he => Or.inl he, hrec, rfl, Or.inl rfl⟩
    | ok localDir =>
      have hstat := hgone localDir h2
      cases h3 : env.stat w.trace (localDir ++ "/system/" ++ w.snap.Name ++ "/original") with
      | notExist msg =>
        simp only [SnapshotRollback, h1, h2, if_neg hguard, World.call, osStat, h3]
        refine ⟨by simp, by simp [Run.stop, Run.names], ?_, hrec, rfl, Or.inl rfl⟩
        intro e he
        simp only [Run.stop, List.mem_append, List.mem_singleton] at he
        rcases he with he | rfl
        · exact Or.inl he
        · right; simp [Event.writes]
      | ok =>
        simp only [SnapshotRollback, h1, h2, if_neg hguard, World.call, osStat, h3, readFromJson,
          repoUpdate, List.append_assoc, List.singleton_append]
        cases h4 : env.stat (w.trace ++
            [.stat (localDir ++ "/system/" ++ w.snap.Name ++ "/original"),
              .dbUpdate w.snap.ID [("rollback_status", StatusWaiting)]])
            (localDir ++ "/system/" ++ w.snap.Name ++ "/" ++ w.snap.Name ++ "/snapshot.json") with
        | ok => exact absurd h4 hstat
        | notExist msg =>
          refine ⟨by simp, ?_, ?_, ?_, ?_, Or.inr ?_⟩
          · simpa [Run.stop, Run.names, Run.after] using hnames
          · intro e he
            simp only [Run.stop, Run.after, (updateRollbackStatus_failed _ _ _ _).2.2.2,
              List.mem_append, List.mem_singleton, List.mem_cons, List.mem_nil_iff, or_false]
              at he
            repeat' rcases he with he | he
            all_goals first | exact Or.inl (by assumption) | (right; simp [Event.writes])
          · simp [Run.stop, Run.after, (updateRollbackStatus_failed _ _ _ _).2.1, setColumn, hrec]
          · simp [Run.stop, Run.after, (updateRollbackStatus_failed _ _ _ _).2.2.1, setColumn]
          · simp [Run.stop, Run.after, (updateRollbackStatus_failed _ _ _ _).1]
        | otherErr msg =>
          refine ⟨by simp, ?_, ?_, ?_, ?_, Or.inr ?_⟩
          · simpa [Run.stop, Run.names, Run.after] using hnames
          · intro e he
            simp only [Run.stop, Run.after, (updateRollbackStatus_failed _ _ _ _).2.2.2,
              List.mem_append, List.mem_singleton, List.mem_cons, List.mem_nil_iff, or_false]
              at he
            repeat' rcases he with he | he
            all_goals first | exact Or.inl (by assumption) | (right; simp [Event.writes])
          · simp [Run.stop, Run.after, (updateRollbackStatus_failed _ _ _ _).2.1, setColumn, hrec]
          · simp [Run.stop, Run.after, (updateRollbackStatus_failed _ _ _ _).2.2.1, setColumn]
          · simp [Run.stop, Run.after, (updateRollbackStatus_failed _ _ _ _).1]
      | otherErr msg0 =>
        simp only [SnapshotRollback, h1, h2, if_neg hguard, World.call, osStat, h3, readFromJson,
          repoUpdate, List.append_assoc, List.singleton_append]
        cases h4 : env.stat (w.trace ++
            [.stat (localDir ++ "/system/" ++ w.snap.Name ++ "/original"),
              .dbUpdate w.snap.ID [("rollback_status", StatusWaiting)]])
            (localDir ++ "/system/" ++ w.snap.Name ++ "/" ++ w.snap.Name ++ "/snapshot.json") with
        | ok => exact absurd h4 hstat
        | notExist msg =>
          refine ⟨by simp, ?_, ?_, ?_, ?_, Or.inr ?_⟩
          · simpa [Run.stop, Run.names, Run.after] using hnames
          · intro e he
            simp only [Run.stop, Run.after, (updateRollbackStatus_failed _ _ _ _).2.2.2,
              List.mem_append, List.mem_singleton, List.mem_cons, List.mem_nil_iff, or_false]
              at he
            repeat' rcases he with he | he
            all_goals first | exact Or.inl (by assumption) | (right; simp [Event.writes])
          · simp [Run.stop, Run.after, (updateRollbackStatus_failed _ _ _ _).2.1, setColumn, hrec]
          · simp [Run.stop, Run.after, (updateRollbackStatus_failed _ _ _ _).2.2.1, setColumn]
          · simp [Run.stop, Run.after, (updateRollbackStatus_failed _ _ _ _).1]
        | otherErr msg =>
          refine ⟨by simp, ?_, ?_, ?_, ?_, Or.inr ?_⟩
          · simpa [Run.stop, Run.names, Run.after] using hnames
          · intro e he
            simp only [Run.stop, Run.after, (updateRollbackStatus_failed _ _ _ _).2.2.2,
              List.mem_append, List.mem_singleton, List.mem_cons, List.mem_nil_iff, or_false]
              at he
            repeat' rcases he with he | he
            all_goals first | exact Or.inl (by assumption) | (right; simp [Event.writes])
          · simp [Run.stop, Run.after, (updateRollbackStatus_failed _ _ _ _).2.1, setColumn, hrec]
          · simp [Run.stop, Run.after, (updateRollbackStatus_failed _ _ _ _).2.2.1, setColumn]
          · simp [Run.stop, Run.after, (updateRollbackStatus_failed _ _ _ _).1]

/-! ## Recover on a rolled-back record -/

/-- When the lookups of the synchronous part succeed and the rolled-back
check does not fire, `SnapshotRecover` returns nil, and its goroutine starts
from a record whose recoverStatus is Waiting. -/
theorem SnapshotRecover_accepts (env : Env) (req : SnapshotRecoverReq) (w : World)
    (hcheck : ¬ (req.IsNew = false ∧ w.snap.InterruptStep ≠ "" ∧ w.snap.RollbackStatus ≠ ""))
    (hget : env.snapshotGet w.trace req.ID = none)
    (hbackup : ∃ t, env.backupGet w.trace w.snap.From = .ok t)
    (hclient : env.newClient w.trace = none)
    (hdir : ∃ d, env.loadLocalDir w.trace = .ok d) :
    (SnapshotRecover env req w).1 = none
    ∧ ∃ c b w2, w2.snap.RecoverStatus = StatusWaiting
        ∧ (SnapshotRecover env req w).2 = recoverDownload env c b w2 := by
  rcases SnapshotRecover_cases env req w with
    ⟨hne, _⟩ | ⟨hacc, c, b, w2, _, _, _, _, hw, _, hrw⟩
  · exfalso
    obtain ⟨t, ht⟩ := hbackup
    obtain ⟨d, hd⟩ := hdir
    apply hne
    simp [SnapshotRecover, hget, ht, hclient, hd, hcheck]
  · exact ⟨hacc, c, b, w2, hw, hrw⟩

/-- C9 (amended).  For every record whose rollbackStatus and interrupt step
are both non-empty and every request with IsNew = false, `SnapshotRecover`
returns an error synchronously and leaves the world as it was: no update of
recoverStatus, no goroutine.  With IsNew = true, or on the same record with
an empty interrupt step, the check does not reject: when the lookups of the
synchronous part succeed the call returns nil and the goroutine starts from
recoverStatus Waiting. -/
theorem recover_rejects_rolled_back (env : Env) (req : SnapshotRecoverReq) (w : World)
    (hnew : req.IsNew = false) (hstep : w.snap.InterruptStep ≠ "")
    (hroll : w.snap.RollbackStatus ≠ "") :
    ((SnapshotRecover env req w).1 ≠ none ∧ (SnapshotRecover env req w).2 = Run.stop w)
    ∧ (env.snapshotGet w.trace req.ID = none → (∃ t, env.backupGet w.trace w.snap.From = .ok t) →
        env.newClient w.trace = none → (∃ d, env.loadLocalDir w.trace = .ok d) →
        ((SnapshotRecover env { req with IsNew := true } w).1 = none
          ∧ ∃ c b w2, w2.snap.RecoverStatus = StatusWaiting
            ∧ (SnapshotRecover env { req with IsNew := true } w).2 = recoverDownload env c b w2)
        ∧ ((SnapshotRecover env req
              { w with snap := { w.snap with InterruptStep := "" } }).1 = none
          ∧ ∃ c b w2, w2.snap.RecoverStatus = StatusWaiting
            ∧ (SnapshotRecover env req { w with snap := { w.snap with InterruptStep := "" } }).2
                = recoverDownload env c b w2)) := by
  refine ⟨?_, fun hget hbackup hclient hdir => ⟨?_, ?_⟩⟩
  · cases h1 : env.snapshotGet w.trace req.ID with
    | some err => simp [SnapshotRecover, h1]
    | none => simp [SnapshotRecover, h1, hnew, hstep, hroll]
  · exact SnapshotRecover_accepts env { req with IsNew := true } w (by simp) hget hbackup hclient
      hdir
  · exact SnapshotRecover_accepts env req { w with snap := { w.snap with InterruptStep := "" } }
      (by simp) hget hbackup hclient hdir

/-! ## Witnesses -/

/-- C10 (witness): a first recover whose docker data extraction fails. -/
theorem interrupt_step_invariant_witness :
    (SnapshotRecover hostUntarFails reqResume ⟨[], recordFresh⟩).1 = none
    ∧ reqResume.ReDownload = false
    ∧ ((SnapshotRecover hostUntarFails reqResume ⟨[], recordFresh⟩).2.world.snap.InterruptStep ≠ ""
        ↔ (SnapshotRecover hostUntarFails reqResume ⟨[], recordFresh⟩).2.world.snap.RecoverStatus
            = StatusFailed) :=
  ⟨by decide, rfl,
    (interrupt_step_invariant hostUntarFails reqResume ⟨[], recordFresh⟩ (by decide)
      (Or.inl rfl)).1⟩

/-- C9 (witness): a resumed recover on a record interrupted at DaemonJson
whose rollback failed. -/
theorem recover_rejects_rolled_back_witness :
    reqResume.IsNew = false ∧ recordRolledBack.InterruptStep ≠ ""
    ∧ recordRolledBack.RollbackStatus ≠ ""
    ∧ (SnapshotRecover hostOk reqResume ⟨[], recordRolledBack⟩).1 ≠ none
    ∧ (SnapshotRecover hostOk { reqResume with IsNew := true } ⟨[], recordRolledBack⟩).1 = none :=
  ⟨rfl, by decide, by decide,
    (recover_rejects_rolled_back hostOk reqResume ⟨[], recordRolledBack⟩ rfl (by decide)
      (by decide)).1.1,
    ((recover_rejects_rolled_back hostOk reqResume ⟨[], recordRolledBack⟩ rfl (by decide)
      (by decide)).2 rfl ⟨_, rfl⟩ rfl ⟨_, rfl⟩).1.1⟩

/-! ## The preconditions of a rollback -/

/-- C11.  For every record whose interrupt step is "Download", "Decompress"
or "Readjson", once the record is loaded, `SnapshotRollback` returns nil and
leaves the world as it was: no update of the record, no event appended to the
trace (so no service command and no call of the file system), and no step
invoked. -/
theorem rollback_noop_before_mutation (env : Env) (req : SnapshotRecoverReq) (w : World)
    (hget : env.snapshotGet w.trace req.ID = none)
    (hstep : w.snap.InterruptStep = "Download" ∨ w.snap.InterruptStep = "Decompress"
      ∨ w.snap.InterruptStep = "Readjson") :
    (SnapshotRollback env req w).1 = none
    ∧ (SnapshotRollback env req w).2.world.snap = w.snap
    ∧ (SnapshotRollback env req w).2.world.trace = w.trace
    ∧ (SnapshotRollback env req w).2.log = [] := by
  simp [SnapshotRollback, hget, hstep, Run.stop]

/-- C11 (witness): a rollback after a recover that failed at Download. -/
theorem rollback_noop_before_mutation_witness :
    hostOk.snapshotGet [] 1 = none ∧ (recordFailedAt "Download").InterruptStep = "Download"
    ∧ (rollbackAt hostOk "Download").1 = none
    ∧ (rollbackAt hostOk "Download").2.world.trace = [] :=
  ⟨rfl, rfl,
    (rollback_noop_before_mutation hostOk reqResume ⟨[], recordFailedAt "Download"⟩ rfl
      (Or.inl rfl)).1,
    (rollback_noop_before_mutation hostOk reqResume ⟨[], recordFailedAt "Download"⟩ rfl
      (Or.inl rfl)).2.2.1⟩

/-- C12.  For every record whose interrupt step is none of "Download",
"Decompress", "Readjson": if the "original" directory of the snapshot does
not exist, `SnapshotRollback` returns an error, the record is unchanged
(rollbackStatus is not set to Waiting), no step is invoked, and the only
events appended to the trace are calls of `os.Stat`: docker is not stopped,
nothing is written. -/
theorem rollback_requires_original (env : Env) (req : SnapshotRecoverReq) (w : World)
    (hget : env.snapshotGet w.trace req.ID = none)
    (hstep : ¬ (w.snap.InterruptStep = "Download" ∨ w.snap.InterruptStep = "Decompress"
      ∨ w.snap.InterruptStep = "Readjson"))
    (hmissing : ∀ localDir, env.loadLocalDir w.trace = .ok localDir →
      ∃ msg, env.stat w.trace (localDir ++ "/system/" ++ w.snap.Name ++ "/original")
        = .notExist msg) :
    (SnapshotRollback env req w).1 ≠ none
    ∧ (SnapshotRollback env req w).2.world.snap = w.snap
    ∧ (SnapshotRollback env req w).2.log = []
    ∧ Appends (fun e => ∃ path, e = .stat path) w.trace
        (SnapshotRollback env req w).2.world.trace := by
  cases h2 : env.loadLocalDir w.trace with
  | error err =>
    simp only [SnapshotRollback, hget, h2, if_neg hstep]
    exact ⟨by simp, rfl, rfl, appends_refl _ _⟩
  | ok localDir =>
    obtain ⟨msg, h3⟩ := hmissing localDir h2
    simp only [SnapshotRollback, hget, h2, if_neg hstep, World.call, osStat, h3]
    exact ⟨by simp, rfl, rfl, appends_append _ _ _ (by simp)⟩

/-- C12 (witness): a rollback after a recover that failed at DockerDir, on a
host without the "original" directory. -/
theorem rollback_requires_original_witness :
    (rollbackAt hostNoOriginal "DockerDir").1 ≠ none
    ∧ (rollbackAt hostNoOriginal "DockerDir").2.world.snap = recordFailedAt "DockerDir" := by
  have h := rollback_requires_original hostNoOriginal reqResume
    ⟨[], recordFailedAt "DockerDir"⟩ rfl (by decide)
    (by
      intro localDir hl
      have hd : localDir = "/opt/1Panel/backup" := by
        simp [hostNoOriginal, hostOk] at hl; exact hl.symm
      subst hd
      exact ⟨"stat /opt/1Panel/backup/system/snap_T1/original: no such file or directory",
        by decide⟩)
  exact ⟨h.1, h.2.1⟩

/-! ## Every rollback either fails at one step or runs without a failure -/

theorem updateRollbackStatus_message (env : Env) (id : Nat) (msg : String) (w : World) :
    (updateRollbackStatus env id StatusFailed msg w).snap.RollbackMessage = msg := by
  simp [updateRollbackStatus, repoUpdate, setColumn, StatusFailed, StatusSuccess]

theorem rollbackFailed_stop (env : Env) (snap0 : Snapshot) (id : Nat) (label pfx e : String)
    (w : World) (hw : SameCheckpoint snap0 w) :
    RollbackFailed snap0
      (some e, (Run.stop (updateRollbackStatus env id StatusFailed (pfx ++ e) w)).after label
        (some e)) := by
  have h := updateRollbackStatus_failed env id (pfx ++ e) w
  refine ⟨[], label, e, by simp [Run.after, Run.stop], by simp, rfl, ?_, ⟨pfx, ?_⟩, ⟨?_, ?_⟩,
    by simp [Run.after, Run.stop]⟩
  · simpa [Run.after, Run.stop] using h.1
  · simpa [Run.after, Run.stop] using updateRollbackStatus_message env id (pfx ++ e) w
  · simpa [Run.after, Run.stop] using h.2.1.trans hw.1
  · simpa [Run.after, Run.stop] using h.2.2.1.trans hw.2

theorem rollbackEnds_afterCall (snap0 : Snapshot) (label : String) (r : Option String × Run)
    (h : RollbackFailed snap0 r ∨ r.2.ok) :
    RollbackFailed snap0 (afterCall label none r) ∨ (afterCall label none r).2.ok := by
  rcases h with ⟨pre, l, e, h1, h2, h3, h4, h5, h6, h7⟩ | h
  · left
    refine ⟨(label, none) :: pre, l, e, by simp [afterCall, Run.after, h1], ?_, h3, h4, h5, h6, h7⟩
    intro p hp
    rcases List.mem_cons.1 hp with rfl | hp
    · rfl
    · exact h2 p hp
  · right
    intro p hp
    rcases List.mem_cons.1 hp with rfl | hp
    · rfl
    · exact h p hp

theorem call_sameCheckpoint {α : Type} (snap0 : Snapshot) (w w1 : World)
    (f : History → α × History) (a : α) (hw : SameCheckpoint snap0 w) (hq : w.call f = (a, w1)) :
    SameCheckpoint snap0 w1 := by
  simp only [World.call, Prod.mk.injEq] at hq
  rw [← hq.2]; exact hw

theorem rollbackStep_ends (env : Env) (snap snap0 : Snapshot) (label : String)
    (body : History → Option String × History) (atBoundary : World → World)
    (next : World → Option String × Run) (w : World) (hw : SameCheckpoint snap0 w)
    (hnext : ∀ w1, SameCheckpoint snap0 w1 → RollbackFailed snap0 (next w1) ∨ (next w1).2.ok) :
    RollbackFailed snap0 (rollbackStep env snap label body atBoundary next w)
      ∨ (rollbackStep env snap label body atBoundary next w).2.ok := by
  unfold rollbackStep
  split
  · rename_i err w1 hq
    left
    have := rollbackFailed_stop env snap0 snap.ID label "" err w1
      (call_sameCheckpoint snap0 w w1 body _ hw hq)
    simpa using this
  · rename_i w1 hq
    split
    · right; simp [Run.ok, Run.after, Run.stop]
    · exact rollbackEnds_afterCall snap0 label _
        (hnext w1 (call_sameCheckpoint snap0 w w1 body _ hw hq))

theorem rollbackLiveRestore_ends (env : Env) (snap snap0 : Snapshot) (snapJson : SnapshotJson)
    (next : World → Option String × Run) (w : World) (hw : SameCheckpoint snap0 w)
    (hnext : ∀ w1, SameCheckpoint snap0 w1 → RollbackFailed snap0 (next w1) ∨ (next w1).2.ok) :
    RollbackFailed snap0 (rollbackLiveRestore env snap snapJson next w)
      ∨ (rollbackLiveRestore env snap snapJson next w).2.ok := by
  have hb : ∀ w1, SameCheckpoint snap0 w1 →
      RollbackFailed snap0
          (if snap.InterruptStep = "UpdateLiveRestore" then (none, Run.stop (restartPanel env w1))
            else next w1)
        ∨ (if snap.InterruptStep = "UpdateLiveRestore" then
            (none, Run.stop (restartPanel env w1)) else next w1).2.ok := by
    intro w1 h1
    split
    · right; simp [Run.ok, Run.stop]
    · exact hnext w1 h1
  unfold rollbackLiveRestore
  simp only []
  split
  · split
    · rename_i err w1 hq
      left
      have := rollbackFailed_stop env snap0 snap.ID "UpdateLiveRestore" "" err w1
        (call_sameCheckpoint snap0 w w1 _ _ hw hq)
      simpa using this
    · rename_i w1 hq
      exact rollbackEnds_afterCall snap0 _ _
        (hb w1 (call_sameCheckpoint snap0 w w1 _ _ hw hq))
    · right; simp [Run.ok, Run.panic]
  · exact hb w hw

theorem rollbackMutators_ends (env : Env) (snap snap0 : Snapshot) (snapJson : SnapshotJson)
    (rootDir originalDir : String) (w : World) (hw : SameCheckpoint snap0 w) :
    RollbackFailed snap0 (rollbackMutators env snap snapJson rootDir originalDir w)
      ∨ (rollbackMutators env snap snapJson rootDir originalDir w).2.ok := by
  unfold rollbackMutators
  refine rollbackStep_ends env snap snap0 _ _ _ _ _ hw (fun _ h1 => ?_)
  refine rollbackStep_ends env snap snap0 _ _ _ _ _ h1 (fun _ h2 => ?_)
  refine rollbackLiveRestore_ends env snap snap0 _ _ _ h2 (fun _ h3 => ?_)
  refine rollbackStep_ends env snap snap0 _ _ _ _ _ h3 (fun _ h4 => ?_)
  refine rollbackStep_ends env snap snap0 _ _ _ _ _ h4 (fun _ h5 => ?_)
  refine rollbackStep_ends env snap snap0 _ _ _ _ _ h5 (fun _ h6 => ?_)
  refine rollbackStep_ends env snap snap0 _ _ _ _ _ h6 (fun _ h7 => ?_)
  refine rollbackStep_ends env snap snap0 _ _ _ _ _ h7 (fun _ _ => ?_)
  right
  simp [rollbackFinish, Run.ok]

theorem SnapshotRollback_ends (env : Env) (req : SnapshotRecoverReq) (w : World) :
    RollbackFailed w.snap (SnapshotRollback env req w) ∨ (SnapshotRollback env req w).2.ok := by
  unfold SnapshotRollback
  split
  · right; simp [Run.ok, Run.stop]
  · simp only []
    split
    · right; simp [Run.ok, Run.stop]
    · split
      · right; simp [Run.ok, Run.stop]
      · split
        · right; simp [Run.ok, Run.stop]
        · rename_i w1 _ hq1
          have h1 : SameCheckpoint w.snap w1 :=
            call_sameCheckpoint w.snap w w1 _ _ ⟨rfl, rfl⟩ hq1
          have h2 : SameCheckpoint w.snap
              (repoUpdate w.snap.ID [("rollback_status", StatusWaiting)] w1) := by
            refine ⟨?_, ?_⟩
            · simpa [repoUpdate, setColumn] using h1.1
            · simpa [repoUpdate, setColumn] using h1.2
          split
          · rename_i err w3 hq3
            left
            exact rollbackFailed_stop env w.snap w.snap.ID "Readjson"
              "decompress file failed, err: " err w3
              (call_sameCheckpoint w.snap _ w3 _ _ h2 hq3)
          · rename_i snapJson w3 hq3
            exact rollbackEnds_afterCall w.snap _ _
              (rollbackMutators_ends env w.snap w.snap snapJson _ _ w3
                (call_sameCheckpoint w.snap _ w3 _ _ h2 hq3))

/-- How a rollback ends once a failed step is logged. -/
theorem rollback_failure_log (env : Env) (req : SnapshotRecoverReq) (w : World)
    (label e : String) (hfail : (label, some e) ∈ (SnapshotRollback env req w).2.log) :
    (SnapshotRollback env req w).1 = some e
    ∧ (∃ pre, (SnapshotRollback env req w).2.log = pre ++ [(label, some e)]
        ∧ ∀ p ∈ pre, p.2 = none)
    ∧ (SnapshotRollback env req w).2.finalized = false
    ∧ (SnapshotRollback env req w).2.world.snap.RollbackStatus = StatusFailed
    ∧ (∃ pfx, (SnapshotRollback env req w).2.world.snap.RollbackMessage = pfx ++ e)
    ∧ (SnapshotRollback env req w).2.world.snap.InterruptStep = w.snap.InterruptStep
    ∧ (SnapshotRollback env req w).2.world.snap.RecoverStatus = w.snap.RecoverStatus := by
  rcases SnapshotRollback_ends env req w with ⟨pre, l, e', h1, h2, h3, h4, h5, h6, h7⟩ | hok
  · rw [h1] at hfail
    rcases List.mem_append.1 hfail with hp | hp
    · have := h2 _ hp; simp at this
    · simp at hp
      obtain ⟨rfl, rfl⟩ := hp
      exact ⟨h3, ⟨pre, h1, h2⟩, h7, h4, h5, h6.1, h6.2⟩
  · have := hok _ hfail; simp at this

/-! ## File mutators and missing files -/

/-- C16 (counterexample).  With `/etc/docker/daemon.json` missing,
`handleDaemonJson` in "snapshot" mode returns nil, and in "recover" mode it
returns nil after copying the archive's daemon.json into `/etc/docker`. -/
theorem capture_missing_live_counterexample :
    handleDaemonJson hostNoDaemonJson "snapshot" ""
        "/opt/1Panel/backup/system/1panel_snapshot_20230301100000/docker" []
      = (none, [.stat "/etc/docker/daemon.json"])
    ∧ handleDaemonJson hostNoDaemonJson "recover"
        "/opt/1Panel/backup/system/snap_T1/snap_T1/docker/daemon.json"
        "/opt/1Panel/backup/system/snap_T1/original/" []
      = (none, [.stat "/etc/docker/daemon.json",
                .stat "/opt/1Panel/backup/system/snap_T1/snap_T1/docker/daemon.json",
                .copyFile "/opt/1Panel/backup/system/snap_T1/snap_T1/docker/daemon.json"
                  "/etc/docker"]) := by
  decide

/-! ## Evaluations of the rollback boundary, the transfer result and the exclusion rules -/

/-- C13 (evaluation).  On a host whose manifest records LiveRestoreEnabled =
true, a rollback of a record interrupted at DockerDir returns nil having
invoked the mutator DockerDir, and a rollback of a record interrupted at
DaemonJson returns nil having invoked DockerDir and DaemonJson; neither run
invokes `updateLiveRestore`: no step UpdateLiveRestore is logged and
`/etc/docker/daemon.json` is neither read nor written.  A rollback of a
record interrupted at 1PanelBinary does invoke it. -/
theorem rollback_boundary_skips_live_restore :
    hostLiveRestore.unmarshalSnapshotJson "{}"
      = .ok { manifestT1 with LiveRestoreEnabled := true }
    ∧ (rollbackAt hostLiveRestore "DockerDir").1 = none
    ∧ (rollbackAt hostLiveRestore "DockerDir").2.log = [("Readjson", none), ("DockerDir", none)]
    ∧ (rollbackAt hostLiveRestore "DockerDir").2.world.trace
      = [.stat "/opt/1Panel/backup/system/snap_T1/original",
         .dbUpdate 1 [("rollback_status", "Waiting")],
         .stat "/opt/1Panel/backup/system/snap_T1/snap_T1/snapshot.json",
         .readFile "/opt/1Panel/backup/system/snap_T1/snap_T1/snapshot.json",
         .exec "systemctl stop docker",
         .stat "/var/lib/docker",
         .tar ["zxf", "/opt/1Panel/backup/system/snap_T1/original/docker_data.tar.gz", "-C",
           "/var/lib/docker", "."],
         .exec "systemctl restart docker"]
    ∧ (rollbackAt hostLiveRestore "DaemonJson").1 = none
    ∧ (rollbackAt hostLiveRestore "DaemonJson").2.log
      = [("Readjson", none), ("DockerDir", none), ("DaemonJson", none)]
    ∧ (rollbackAt hostLiveRestore "DaemonJson").2.world.trace
      = [.stat "/opt/1Panel/backup/system/snap_T1/original",
         .dbUpdate 1 [("rollback_status", "Waiting")],
         .stat "/opt/1Panel/backup/system/snap_T1/snap_T1/snapshot.json",
         .readFile "/opt/1Panel/backup/system/snap_T1/snap_T1/snapshot.json",
         .exec "systemctl stop docker",
         .stat "/var/lib/docker",
         .tar ["zxf", "/opt/1Panel/backup/system/snap_T1/original/docker_data.tar.gz", "-C",
           "/var/lib/docker", "."],
         .stat "/opt/1Panel/backup/system/snap_T1/original/daemon.json",
         .copyFile "/opt/1Panel/backup/system/snap_T1/original/daemon.json" "/etc/docker",
         .exec "systemctl restart docker"]
    ∧ (rollbackAt hostLiveRestore "1PanelBinary").2.log
      = [("Readjson", none), ("DockerDir", none), ("DaemonJson", none),
         ("UpdateLiveRestore", none), ("1PanelBinary", none)]
    ∧ Event.writeFile "/etc/docker/daemon.json" "{}"
        ∈ (rollbackAt hostLiveRestore "1PanelBinary").2.world.trace := by
  refine ⟨rfl, ?_, ?_, ?_, ?_, ?_, ?_, ?_, ?_⟩ <;> decide

/-- C14 (evaluation).  A create run in which every step succeeds and Upload
returns `(false, nil)` does not terminate normally: it crashes on
`err.Error()` with the record still Waiting, no update being issued after the
upload.  The same run with an Upload error ends normally with status Failed.
A recover whose Download returns `(false, nil)` ends with recoverStatus
Failed and no later step. -/
theorem upload_refused_crashes :
    (SnapshotCreate hostUploadRefused reqCreate { trace := [], snap := recordFresh }).2.crashed
      = true
    ∧ (SnapshotCreate hostUploadRefused reqCreate
        { trace := [], snap := recordFresh }).2.world.snap.Status = StatusWaiting
    ∧ (SnapshotCreate hostUploadRefused reqCreate { trace := [], snap := recordFresh }).2.log
      = [("LoadDockerJson", none), ("DockerDir", none), ("DaemonJson", none),
         ("1PanelBinary", none), ("1PctlBinary", none), ("1PanelService", none),
         ("1PanelBackups", none), ("1PanelData", none), ("SaveJson", none), ("Compress", none),
         ("Upload", some "<nil>")]
    ∧ ((SnapshotCreate hostUploadRefused reqCreate
        { trace := [], snap := recordFresh }).2.world.trace.reverse.take 2)
      = [.removeAll "/opt/1Panel/backup/system/1panel_snapshot_20230301100000",
         .upload "/opt/1Panel/backup/system/1panel_snapshot_20230301100000.tar.gz"
           "system_snapshot/1panel_snapshot_20230301100000.tar.gz"]
    ∧ (SnapshotCreate hostUploadFails reqCreate { trace := [], snap := recordFresh }).2.crashed
      = false
    ∧ (SnapshotCreate hostUploadFails reqCreate
        { trace := [], snap := recordFresh }).2.world.snap.Status = StatusFailed
    ∧ (SnapshotRecover hostDownloadRefused reqResume
        { trace := [], snap := recordFresh }).2.crashed = false
    ∧ (SnapshotRecover hostDownloadRefused reqResume
        { trace := [], snap := recordFresh }).2.world.snap.RecoverStatus = StatusFailed
    ∧ (SnapshotRecover hostDownloadRefused reqResume { trace := [], snap := recordFresh }).2.log
      = [("Download", some "<nil>")] := by
  refine ⟨?_, ?_, ?_, ?_, ?_, ?_, ?_, ?_, ?_⟩ <;> decide

/-- C17 (evaluation).  The rules `handlePanelDatas` passes to `handleTar` in
"snapshot" mode.  For the panel directory `/opt/panel` with backup directory
`/opt/panel/backups` and docker directory `/var/lib/docker` they are
`./backups;`.  For the panel directory `/opt/1Panel` and the docker
directory `/data/opt/1Panel/docker`, which is not inside it, the rule
`./data/docker;` is emitted; for the backup directory
`/opt/1Panel/mirror/opt/1Panel/backup`, which is inside it, the rule is
`./mirror/backup;` and not `./mirror/opt/1Panel/backup;`. -/
theorem exclusion_rules_by_substring :
    panelExclusionRules "." "/opt/panel" "/opt/panel/backups" "/var/lib/docker" = "./backups;"
    ∧ panelExclusionRules "." "/opt/1Panel" "/opt/1Panel/backup" "/data/opt/1Panel/docker"
      = "./backup;./data/docker;"
    ∧ panelExclusionRules "." "/opt/1Panel" "/opt/1Panel/mirror/opt/1Panel/backup"
        "/var/lib/docker" = "./mirror/backup;"
    ∧ handlePanelDatas hostOk "snapshot" "/opt/1Panel"
        "/opt/1Panel/backup/system/1panel_snapshot_20230301100000/1panel"
        "/opt/1Panel/backup" "/data/opt/1Panel/docker" []
      = (none,
         [.stat "/opt/1Panel/backup/system/1panel_snapshot_20230301100000/1panel",
          .tar ["--warning=no-file-changed", "-zcf",
            "/opt/1Panel/backup/system/1panel_snapshot_20230301100000/1panel/1panel_data.tar.gz",
            "--exclude", "./backup", "--exclude", "./data/docker", "-C", "/opt/1Panel", "."]])
    ∧ handlePanelDatas hostOk "snapshot" "/opt/1Panel"
        "/opt/1Panel/backup/system/1panel_snapshot_20230301100000/1panel"
        "/opt/1Panel/mirror/opt/1Panel/backup" "/var/lib/docker" []
      = (none,
         [.stat "/opt/1Panel/backup/system/1panel_snapshot_20230301100000/1panel",
          .tar ["--warning=no-file-changed", "-zcf",
            "/opt/1Panel/backup/system/1panel_snapshot_20230301100000/1panel/1panel_data.tar.gz",
            "--exclude", "./mirror/backup", "-C", "/opt/1Panel", "."]]) := by
  refine ⟨?_, ?_, ?_, ?_, ?_⟩ <;> decide

/-! ## The local MySQL client -/

/-- C20 (evaluation).  `ChangeAccess` for the user `shop` (not root) on the
database `shop` executes the statement that drops the database: when the
`create user` statement fails with error 1396, and when the `grant` statement
runs out of time, `CreateUser` calls `Delete` with the database name, and
`Delete` drops the user and then the database. -/
theorem change_access_drops_database :
    accessShop.Username ≠ "root" ∧ accessShop.Name ≠ ""
    ∧ localMysql.ChangeAccess sqlHostUserExists accessShop []
      = (some "ErrUserIsExist",
         [{ args := ["exec", "mysql", "mysql", "-uroot", "-ppw", "-e",
              "drop user if exists 'shop'@'%'"], timeout := 300 },
          { args := ["exec", "mysql", "mysql", "-uroot", "-ppw", "-e",
              "create user 'shop'@'192.168.1.5' identified by 's3cret';"], timeout := 300 },
          { args := ["exec", "mysql", "mysql", "-uroot", "-ppw", "-e",
              "drop user if exists 'shop'@'192.168.1.5'"], timeout := 300 },
          { args := ["exec", "mysql", "mysql", "-uroot", "-ppw", "-e",
              "drop database if exists `shop`"], timeout := 300 }])
    ∧ (localMysql.ChangeAccess sqlHostGrantTimesOut accessShop []).1 = some "ErrExecTimeOut"
    ∧ (localMysql.ChangeAccess sqlHostGrantTimesOut accessShop []).2.map DockerCall.statement
      = ["drop user if exists 'shop'@'%'",
         "create user 'shop'@'192.168.1.5' identified by 's3cret';",
         "grant all privileges on `shop`.* to 'shop'@'192.168.1.5'",
         "drop user if exists 'shop'@'192.168.1.5'",
         "drop database if exists `shop`"] := by
  refine ⟨?_, ?_, ?_, ?_, ?_⟩ <;> decide

/-! ## A recover run is the chain of the calls of its plan -/

theorem agreeOn_head (a : String) (L P Q : List String) (h : AgreeOn (a :: L) P (a :: Q)) :
    a ∈ P :=
  (h a (List.mem_cons_self _ _)).2 (List.mem_cons_self _ _)

theorem agreeOn_tail (a : String) (L P Q : List String) (ha : a ∉ L)
    (h : AgreeOn (a :: L) P (a :: Q)) : AgreeOn L P Q := by
  intro x hx
  have hne : x ≠ a := fun hxa => ha (hxa ▸ hx)
  have := h x (List.mem_cons_of_mem _ hx)
  simpa [hne] using this

theorem agreeOn_skip (a : String) (L P Q : List String) (ha : a ∉ L) (hQ : ∀ x ∈ Q, x ∈ L)
    (h : AgreeOn (a :: L) P Q) : a ∉ P ∧ AgreeOn L P Q :=
  ⟨fun hP => ha (hQ a ((h a (List.mem_cons_self _ _)).1 hP)),
    fun x hx => h x (List.mem_cons_of_mem _ hx)⟩

theorem planMutators_sub (S : String) (b : Bool) (l : List String) :
    ∀ x ∈ planMutators S b l, x ∈ l := by
  induction l generalizing b with
  | nil => intro x hx; simp [planMutators] at hx
  | cons a l ih =>
    intro x hx
    unfold planMutators at hx
    split at hx
    · rcases List.mem_cons.1 hx with rfl | hx
      · exact List.mem_cons_self _ _
      · exact List.mem_cons_of_mem _ (ih _ x hx)
    · exact List.mem_cons_of_mem _ (ih _ x hx)

theorem realises_after (c : RecoverCtx) (r : Run) (k : Calls) (label : String)
    (h : Realises c r k) : Realises c (r.after label none) (k.after label) := by
  obtain ⟨h1, h2, tail, h3, h4, h5, h6⟩ := h
  refine ⟨by simp [Run.after, Calls.after, h1], h2, tail, h3, h4, ?_, ?_⟩
  · intro l e he
    simp only [Calls.after, List.mem_cons, Prod.mk.injEq, reduceCtorEq, and_false, false_or]
      at he
    exact h5 l e he
  · intro hp hok
    exact h6 hp (fun p hp => hok p (List.mem_cons_of_mem _ hp))

theorem realises_fail (env : Env) (c : RecoverCtx) (label step msg e : String) (w : World)
    (st : StepState) (hst : st.trace = w.trace) :
    Realises c
      ((Run.stop (updateRecoverStatus env c.snap.ID step StatusFailed msg w)).after label (some e))
      { log := [(label, some e)], state := st, panicked := false } := by
  refine ⟨rfl, rfl,
    [.dbUpdate c.snap.ID
      [("interrupt_step", step), ("recover_status", StatusFailed), ("recover_message", msg),
       ("last_recovered_at", env.now w.trace "2006-01-02 15:04:05")]], ?_, by simp, ?_, ?_⟩
  · simp [Run.after, Run.stop, updateRecoverStatus, repoUpdate, hst]
  · intro l e' _
    exact ⟨env.now w.trace "2006-01-02 15:04:05", by
      simp [Run.after, Run.stop, updateRecoverStatus, repoUpdate, setColumn]⟩
  · intro _ hok
    have := hok (label, some e) (by simp)
    simp at this

theorem realises_panic (c : RecoverCtx) (w : World) (st : StepState) (hst : st.trace = w.trace) :
    Realises c (Run.panic w) { log := [], state := st, panicked := true } := by
  refine ⟨rfl, rfl, [], by simp [Run.panic, hst], fun _ => ⟨rfl, rfl⟩, ?_, ?_⟩
  · intro l e he; simp at he
  · intro hp; simp at hp

theorem realises_finish (env : Env) (c : RecoverCtx) (w : World) (st : StepState)
    (hst : st.trace = w.trace) :
    Realises c (recoverFinish env c w) { log := [], state := st, panicked := false } := by
  refine ⟨rfl, rfl,
    recoverClosing c (env.now (w.trace ++ [.removeAll c.rootDir, .exec "systemctl daemon-reload",
      .exec "systemctl restart 1panel.service"]) "2006-01-02 15:04:05"), ?_, by simp, ?_, ?_⟩
  · simp [recoverFinish, updateRecoverStatus, repoUpdate, World.exec, osRemoveAll, cmdExec,
      hst, recoverClosing]
  · intro l e he; simp at he
  · intro _ _
    exact ⟨_, rfl⟩

theorem guardedStep_sim (env : Env) (c : RecoverCtx) (isReTry : Bool) (s : Step)
    (rest : List Step) (labels P : List String)
    (body : History → Option String × History) (next : Bool → World → Run) (w : World)
    (st : StepState)
    (hs : s ≠ .UpdateLiveRestore) (hnew : s.name ∉ labels)
    (hcall : recoverStepCall env c s (recoverBetween env c s st)
      = (recoverBetween env c s st).mutate body)
    (hw : (recoverBetween env c s st).trace = w.trace)
    (hP : AgreeOn (s.name :: labels) P
      (planMutators c.snap.InterruptStep isReTry (s.name :: labels)))
    (hnext : ∀ b w1 st1, st1.trace = w1.trace →
      st1.snapJson = (recoverBetween env c s st).snapJson →
      AgreeOn labels P (planMutators c.snap.InterruptStep b labels) →
      Realises c (next b w1) (recoverCalls env c P rest st1)) :
    Realises c (guardedStep env c isReTry s.name body next w)
      (recoverCalls env c P (s :: rest) st) := by
  unfold guardedStep
  by_cases hg : isReTry = false ∨ c.snap.InterruptStep = s.name
  · have hplan : planMutators c.snap.InterruptStep isReTry (s.name :: labels)
        = s.name :: planMutators c.snap.InterruptStep false labels := by
      simp only [planMutators, if_pos hg]
    rw [hplan] at hP
    have hin := agreeOn_head _ _ _ _ hP
    have hrest := agreeOn_tail _ _ _ _ hnew hP
    rw [if_pos hg]
    simp only [recoverCalls]
    rw [if_pos ⟨hin, fun h => absurd h hs⟩, hcall]
    simp only [StepState.mutate, World.call, hw]
    rcases hb : body w.trace with ⟨res, h1⟩
    cases res with
    | none =>
      simp only []
      exact realises_after c _ _ _ (hnext false _ _ rfl rfl hrest)
    | some err =>
      simp only []
      exact realises_fail env c _ _ _ _ _ _ rfl
  · have hplan : planMutators c.snap.InterruptStep isReTry (s.name :: labels)
        = planMutators c.snap.InterruptStep isReTry labels := by
      simp only [planMutators, if_neg hg]
    rw [hplan] at hP
    obtain ⟨hnot, hrest⟩ := agreeOn_skip _ _ _ _ hnew (planMutators_sub _ _ _) hP
    rw [if_neg hg]
    simp only [recoverCalls]
    rw [if_neg (fun h => hnot h.1)]
    exact hnext isReTry w _ hw rfl hrest

theorem recoverBetween_snapJson (env : Env) (c : RecoverCtx) (s : Step) (st : StepState) :
    (recoverBetween env c s st).snapJson = st.snapJson := by
  cases s <;> rfl

theorem recoverMutators_sim (env : Env) (c : RecoverCtx) (snapJson : SnapshotJson)
    (isReTry : Bool) (w : World) (st : StepState) (P : List String)
    (hst : st.trace = w.trace) (hsnap : st.snapJson = snapJson)
    (hP : AgreeOn mutatorLabels P (planMutators c.snap.InterruptStep isReTry mutatorLabels)) :
    Realises c (recoverMutators env c snapJson isReTry (w.exec (saveJson env snapJson c.rootDir)))
      (recoverCalls env c P mutatorSteps st) := by
  unfold recoverMutators mutatorSteps
  refine guardedStep_sim env c _ .DockerDir _
    ["DaemonJson", "1PanelBinary", "1PctlBinary", "1PanelService", "1PanelBackups", "1PanelData"]
    P _ _ _ _ (by decide) (by decide) ?_ ?_ hP (fun b1 w1 st1 h1 hs1 hP1 => ?_)
  · simp [recoverStepCall, recoverBetween, hsnap]
  · simp [recoverBetween, World.exec, hst, hsnap]
  rw [recoverBetween_snapJson, hsnap] at hs1
  refine guardedStep_sim env c _ .DaemonJson _
    ["1PanelBinary", "1PctlBinary", "1PanelService", "1PanelBackups", "1PanelData"]
    P _ _ _ _ (by decide) (by decide) ?_ ?_ hP1 (fun b2 w2 st2 h2 hs2 hP2 => ?_)
  · simp [recoverStepCall, recoverBetween]
  · simp [recoverBetween, h1]
  rw [recoverBetween_snapJson, hs1] at hs2
  refine guardedStep_sim env c _ .PanelBinary _
    ["1PctlBinary", "1PanelService", "1PanelBackups", "1PanelData"]
    P _ _ _ _ (by decide) (by decide) ?_ ?_ hP2 (fun b3 w3 st3 h3 hs3 hP3 => ?_)
  · simp [recoverStepCall, recoverBetween]
  · simp [recoverBetween, World.exec, h2]
  rw [recoverBetween_snapJson, hs2] at hs3
  refine guardedStep_sim env c _ .PctlBinary _
    ["1PanelService", "1PanelBackups", "1PanelData"]
    P _ _ _ _ (by decide) (by decide) ?_ ?_ hP3 (fun b4 w4 st4 h4 hs4 hP4 => ?_)
  · simp [recoverStepCall, recoverBetween]
  · simp [recoverBetween, h3]
  rw [recoverBetween_snapJson, hs3] at hs4
  refine guardedStep_sim env c _ .PanelService _
    ["1PanelBackups", "1PanelData"]
    P _ _ _ _ (by decide) (by decide) ?_ ?_ hP4 (fun b5 w5 st5 h5 hs5 hP5 => ?_)
  · simp [recoverStepCall, recoverBetween]
  · simp [recoverBetween, h4]
  rw [recoverBetween_snapJson, hs4] at hs5
  refine guardedStep_sim env c _ .PanelBackups _
    ["1PanelData"]
    P _ _ _ _ (by decide) (by decide) ?_ ?_ hP5 (fun b6 w6 st6 h6 hs6 hP6 => ?_)
  · simp [recoverStepCall, recoverBetween, hs5]
  · simp [recoverBetween, h5]
  rw [recoverBetween_snapJson, hs5] at hs6
  refine guardedStep_sim env c _ .PanelData _ [] P _ _ _ _ (by decide) (by decide) ?_ ?_ hP6
    (fun b7 w7 st7 h7 hs7 hP7 => ?_)
  · simp [recoverStepCall, recoverBetween, hs6]
  · simp [recoverBetween, h6]
  exact realises_finish env c w7 st7 h7

theorem agreeOn_mono (L L1 P Q : List String) (hL : ∀ x ∈ L1, x ∈ L) (h : AgreeOn L P Q) :
    AgreeOn L1 P Q :=
  fun x hx => h x (hL x hx)

theorem planLiveRestore_sub (S : String) (live b : Bool) :
    ∀ x ∈ planLiveRestore S live b, x ∈ "UpdateLiveRestore" :: mutatorLabels := by
  intro x hx
  unfold planLiveRestore at hx
  split at hx
  · rcases List.mem_cons.1 hx with rfl | hx
    · exact List.mem_cons_self _ _
    · exact List.mem_cons_of_mem _ (planMutators_sub _ _ _ x hx)
  · exact List.mem_cons_of_mem _ (planMutators_sub _ _ _ x hx)

theorem planLoadDocker_sub (S : String) (live b : Bool) :
    ∀ x ∈ planLoadDocker S live b, x ∈ "LoadDockerJson" :: "UpdateLiveRestore" :: mutatorLabels := by
  intro x hx
  unfold planLoadDocker at hx
  split at hx
  · rcases List.mem_cons.1 hx with rfl | hx
    · exact List.mem_cons_self _ _
    · exact List.mem_cons_of_mem _ (planLiveRestore_sub _ _ _ x hx)
  · exact List.mem_cons_of_mem _ (planLiveRestore_sub _ _ _ x hx)

theorem planReadJson_sub (S : String) (live b : Bool) :
    ∀ x ∈ planReadJson S live b,
      x ∈ "Readjson" :: "LoadDockerJson" :: "UpdateLiveRestore" :: mutatorLabels := by
  intro x hx
  unfold planReadJson at hx
  rcases List.mem_cons.1 hx with rfl | hx
  · exact List.mem_cons_self _ _
  · exact List.mem_cons_of_mem _ (planLoadDocker_sub _ _ _ x hx)

theorem planDecompress_sub (S : String) (rd live b : Bool) :
    ∀ x ∈ planDecompress S rd live b,
      x ∈ "Decompress" :: "Readjson" :: "LoadDockerJson" :: "UpdateLiveRestore"
        :: mutatorLabels := by
  intro x hx
  unfold planDecompress at hx
  split at hx
  · rcases List.mem_cons.1 hx with rfl | hx
    · exact List.mem_cons_self _ _
    · exact List.mem_cons_of_mem _ (planReadJson_sub _ _ _ x hx)
  · exact List.mem_cons_of_mem _ (planReadJson_sub _ _ _ x hx)

theorem recoverCalls_cons (env : Env) (c : RecoverCtx) (plan : List String) (s : Step)
    (rest : List Step) (st : StepState) :
    recoverCalls env c plan (s :: rest) st
      = if s.name ∈ plan
            ∧ (s = .UpdateLiveRestore → (recoverBetween env c s st).liveRestore = true) then
          match recoverStepCall env c s (recoverBetween env c s st) with
          | (.returned none, st1) => (recoverCalls env c plan rest st1).after s.name
          | (.returned (some e), st1) =>
            { log := [(s.name, some e)], state := st1, panicked := false }
          | (.panicked, st1) => { log := [], state := st1, panicked := true }
        else recoverCalls env c plan rest (recoverBetween env c s st) := rfl

theorem recoverCalls_due (env : Env) (c : RecoverCtx) (plan : List String) (s : Step)
    (rest : List Step) (st : StepState) (hin : s.name ∈ plan) (hs : s ≠ .UpdateLiveRestore) :
    recoverCalls env c plan (s :: rest) st
      = match recoverStepCall env c s (recoverBetween env c s st) with
        | (.returned none, st1) => (recoverCalls env c plan rest st1).after s.name
        | (.returned (some e), st1) =>
          { log := [(s.name, some e)], state := st1, panicked := false }
        | (.panicked, st1) => { log := [], state := st1, panicked := true } := by
  rw [recoverCalls_cons, if_pos ⟨hin, fun h => absurd h hs⟩]

theorem recoverCalls_skip (env : Env) (c : RecoverCtx) (plan : List String) (s : Step)
    (rest : List Step) (st : StepState) (hnot : s.name ∉ plan) :
    recoverCalls env c plan (s :: rest) st
      = recoverCalls env c plan rest (recoverBetween env c s st) := by
  rw [recoverCalls_cons, if_neg (fun h => hnot h.1)]

theorem recoverLiveRestore_sim (env : Env) (c : RecoverCtx) (snapJson : SnapshotJson)
    (liveRestore isReTry : Bool) (w : World) (st : StepState) (P : List String)
    (hst : st.trace = w.trace) (hsnap : st.snapJson = snapJson)
    (hlive : st.liveRestore = liveRestore)
    (hULR : liveRestore = true → "UpdateLiveRestore" ∈ P)
    (hP : AgreeOn mutatorLabels P
      (planMutators c.snap.InterruptStep (if liveRestore then false else isReTry) mutatorLabels)) :
    Realises c (recoverLiveRestore env c snapJson liveRestore isReTry w)
      (recoverCalls env c P (.UpdateLiveRestore :: mutatorSteps) st) := by
  unfold recoverLiveRestore
  rw [recoverCalls_cons]
  have hbt : recoverBetween env c .UpdateLiveRestore st = st := rfl
  rw [hbt]
  cases liveRestore with
  | false =>
    have hno : ¬ (Step.UpdateLiveRestore.name ∈ P
        ∧ (Step.UpdateLiveRestore = Step.UpdateLiveRestore → st.liveRestore = true)) := by
      rintro ⟨_, h⟩
      have := h rfl
      rw [hlive] at this
      exact absurd this (by decide)
    rw [if_neg hno]
    simp only [Bool.false_eq_true, if_false]
    exact recoverMutators_sim env c snapJson isReTry w st P hst hsnap (by simpa using hP)
  | true =>
    have hyes : Step.UpdateLiveRestore.name ∈ P
        ∧ (Step.UpdateLiveRestore = Step.UpdateLiveRestore → st.liveRestore = true) :=
      ⟨hULR rfl, fun _ => hlive⟩
    rw [if_pos hyes]
    simp only [if_true, recoverStepCall, World.call, hst]
    rcases hb : updateLiveRestore env false w.trace with ⟨res, h1⟩
    cases res with
    | returned err =>
      cases err with
      | none =>
        simp only []
        exact realises_after c _ _ _
          (recoverMutators_sim env c snapJson false { w with trace := h1 } _ P rfl hsnap
            (by simpa using hP))
      | some e =>
        simp only []
        exact realises_fail env c _ _ _ _ _ _ rfl
    | panicked =>
      simp only []
      exact realises_panic c _ _ rfl

theorem recoverLoadDocker_sim (env : Env) (c : RecoverCtx) (snapJson : SnapshotJson)
    (isReTry : Bool) (w : World) (st : StepState) (P : List String)
    (hst : st.trace = w.trace)
    (hsnap : st.snapJson = { snapJson with
      OldPanelDataDir := env.BaseDir ++ "/1Panel", OldBackupDataDir := c.localDir })
    (hlive : st.liveRestore = false)
    (hP : AgreeOn ("LoadDockerJson" :: "UpdateLiveRestore" :: mutatorLabels) P
      (planLoadDocker c.snap.InterruptStep true isReTry)) :
    Realises c (recoverLoadDocker env c snapJson isReTry w)
      (recoverCalls env c P (.LoadDockerJson :: .UpdateLiveRestore :: mutatorSteps) st) := by
  unfold recoverLoadDocker
  have hbt : recoverBetween env c .LoadDockerJson st = st := rfl
  simp only []
  by_cases hg : isReTry = false ∨ c.snap.InterruptStep = "LoadDockerJson"
  · have hplan : planLoadDocker c.snap.InterruptStep true isReTry
        = "LoadDockerJson" :: "UpdateLiveRestore"
            :: planMutators c.snap.InterruptStep false mutatorLabels := by
      simp only [planLoadDocker, planLiveRestore, if_pos hg, if_true]
    rw [hplan] at hP
    have hin := agreeOn_head _ _ _ _ hP
    have hP1 := agreeOn_tail _ _ _ _ (by decide) hP
    have hin1 := agreeOn_head _ _ _ _ hP1
    have hP2 := agreeOn_tail _ _ _ _ (by decide) hP1
    rw [if_pos hg, recoverCalls_due env c P .LoadDockerJson _ st hin (by decide)]
    simp only [hbt, recoverStepCall, World.call, hst]
    rcases hb : loadDockerDataDir env w.trace with ⟨res, h1⟩
    cases res with
    | error err =>
      simp only []
      exact realises_fail env c _ _ _ _ _ _ (by rfl)
    | ok p =>
      obtain ⟨dir, live⟩ := p
      simp only []
      refine realises_after c _ _ _
        (recoverLiveRestore_sim env c _ live false { w with trace := h1 } _ P rfl ?_ rfl
          (fun _ => hin1) ?_)
      · simp [hsnap]
      · cases live <;> simpa using hP2
  · have hplan : planLoadDocker c.snap.InterruptStep true isReTry
        = planMutators c.snap.InterruptStep isReTry mutatorLabels := by
      simp only [planLoadDocker, planLiveRestore, if_neg hg, Bool.false_eq_true, if_false]
    rw [hplan] at hP
    obtain ⟨hnot, hP1⟩ := agreeOn_skip _ _ _ _ (by decide)
      (fun x hx => List.mem_cons_of_mem _ (planMutators_sub _ _ _ x hx)) hP
    rw [if_neg hg, recoverCalls_skip env c P .LoadDockerJson _ st hnot, hbt]
    refine recoverLiveRestore_sim env c _ false isReTry w st P hst hsnap hlive
      (fun h => absurd h (by decide)) ?_
    simpa using agreeOn_mono _ _ _ _ (fun x hx => List.mem_cons_of_mem _ hx) hP1

theorem recoverReadJson_sim (env : Env) (c : RecoverCtx) (isReTry : Bool) (w : World)
    (st : StepState) (P : List String) (hst : st.trace = w.trace)
    (hlive : st.liveRestore = false)
    (hP : AgreeOn ("Readjson" :: "LoadDockerJson" :: "UpdateLiveRestore" :: mutatorLabels) P
      (planReadJson c.snap.InterruptStep true isReTry)) :
    Realises c (recoverReadJson env c isReTry w)
      (recoverCalls env c P
        (.Readjson :: .LoadDockerJson :: .UpdateLiveRestore :: mutatorSteps) st) := by
  unfold recoverReadJson
  have hbt : recoverBetween env c .Readjson st = st := rfl
  unfold planReadJson at hP
  have hin := agreeOn_head _ _ _ _ hP
  have hP1 := agreeOn_tail _ _ _ _ (by decide) hP
  rw [recoverCalls_due env c P .Readjson _ st hin (by decide)]
  simp only [hbt, recoverStepCall, World.call, hst]
  rcases hb : readFromJson env (c.rootDir ++ "/snapshot.json") w.trace with ⟨res, h1⟩
  cases res with
  | error err =>
    simp only []
    exact realises_fail env c _ _ _ _ _ _ (by rfl)
  | ok snapJson =>
    simp only []
    exact realises_after c _ _ _
      (recoverLoadDocker_sim env c snapJson _ { w with trace := h1 } _ P rfl rfl hlive hP1)

theorem recoverDecompress_sim (env : Env) (c : RecoverCtx) (isReTry : Bool) (w : World)
    (st : StepState) (P : List String) (hst : st.trace = w.trace)
    (hlive : st.liveRestore = false)
    (hP : AgreeOn
      ("Decompress" :: "Readjson" :: "LoadDockerJson" :: "UpdateLiveRestore" :: mutatorLabels) P
      (planDecompress c.snap.InterruptStep c.req.ReDownload true isReTry)) :
    Realises c (recoverDecompress env c isReTry w)
      (recoverCalls env c P
        (.Decompress :: .Readjson :: .LoadDockerJson :: .UpdateLiveRestore :: mutatorSteps)
        st) := by
  unfold recoverDecompress
  have hbt : recoverBetween env c .Decompress st = st := rfl
  by_cases hg : isReTry = false ∨ c.snap.InterruptStep = "Decompress"
      ∨ (isReTry = true ∧ c.req.ReDownload = true)
  · have hplan : planDecompress c.snap.InterruptStep c.req.ReDownload true isReTry
        = "Decompress" :: planReadJson c.snap.InterruptStep true false := by
      simp only [planDecompress, if_pos hg]
    rw [hplan] at hP
    have hin := agreeOn_head _ _ _ _ hP
    have hP1 := agreeOn_tail _ _ _ _ (by decide) hP
    rw [if_pos hg, recoverCalls_due env c P .Decompress _ st hin (by decide)]
    simp only [hbt, recoverStepCall, StepState.mutate, World.call, hst]
    rcases hb : fileDecompress env (c.baseDir ++ "/" ++ c.snap.Name ++ ".tar.gz") c.baseDir
      w.trace with ⟨res, h1⟩
    cases res with
    | none =>
      simp only []
      exact realises_after c _ _ _
        (recoverReadJson_sim env c false { w with trace := h1 } _ P rfl hlive hP1)
    | some err =>
      simp only []
      exact realises_fail env c _ _ _ _ _ _ (by rfl)
  · have hplan : planDecompress c.snap.InterruptStep c.req.ReDownload true isReTry
        = planReadJson c.snap.InterruptStep true isReTry := by
      simp only [planDecompress, if_neg hg]
    rw [hplan] at hP
    obtain ⟨hnot, hP1⟩ := agreeOn_skip _ _ _ _ (by decide) (planReadJson_sub _ _ _) hP
    rw [if_neg hg, recoverCalls_skip env c P .Decompress _ st hnot, hbt]
    exact recoverReadJson_sim env c isReTry w st P hst hlive hP1

theorem recoverDownload_sim (env : Env) (c : RecoverCtx) (isReTry : Bool) (w : World)
    (st : StepState) (P : List String) (hst : st.trace = w.trace)
    (hlive : st.liveRestore = false)
    (hP : AgreeOn (forwardSteps.map Step.name) P
      (planDownload c.snap.InterruptStep c.req.ReDownload true isReTry)) :
    Realises c (recoverDownload env c isReTry w) (recoverCalls env c P forwardSteps st) := by
  unfold recoverDownload
  have hfw : forwardSteps = .Download :: .Decompress :: .Readjson :: .LoadDockerJson
      :: .UpdateLiveRestore :: mutatorSteps := rfl
  have hL : forwardSteps.map Step.name = "Download" :: "Decompress" :: "Readjson"
      :: "LoadDockerJson" :: "UpdateLiveRestore" :: mutatorLabels := rfl
  rw [hL] at hP
  rw [hfw]
  have hbt : recoverBetween env c .Download st = st := rfl
  by_cases hg : isReTry = false ∨ c.snap.InterruptStep = "Download"
      ∨ (isReTry = true ∧ c.req.ReDownload = true)
  · have hplan : planDownload c.snap.InterruptStep c.req.ReDownload true isReTry
        = "Download" :: planDecompress c.snap.InterruptStep c.req.ReDownload true false := by
      simp only [planDownload, if_pos hg]
    rw [hplan] at hP
    have hin := agreeOn_head _ _ _ _ hP
    have hP1 := agreeOn_tail _ _ _ _ (by decide) hP
    rw [if_pos hg, recoverCalls_due env c P .Download _ st hin (by decide)]
    simp only [hbt, recoverStepCall, World.call, hst]
    rcases hb : clientDownload env ("system_snapshot/" ++ c.snap.Name ++ ".tar.gz")
      (c.baseDir ++ "/" ++ c.snap.Name ++ ".tar.gz") w.trace with ⟨⟨ok, err⟩, h1⟩
    cases ok <;> cases err <;> simp only [] <;>
      first
      | exact realises_after c _ _ _
          (recoverDecompress_sim env c false { w with trace := h1 } _ P rfl hlive hP1)
      | exact realises_fail env c _ _ _ _ _ _ (by rfl)
  · have hplan : planDownload c.snap.InterruptStep c.req.ReDownload true isReTry
        = planDecompress c.snap.InterruptStep c.req.ReDownload true isReTry := by
      simp only [planDownload, if_neg hg]
    rw [hplan] at hP
    obtain ⟨hnot, hP1⟩ := agreeOn_skip _ _ _ _ (by decide) (planDecompress_sub _ _ _ _) hP
    rw [if_neg hg, recoverCalls_skip env c P .Download _ st hnot, hbt]
    exact recoverDecompress_sim env c isReTry w st P hst hlive hP1

/-- An accepted recover: the synchronous part returns nil, and the goroutine
is the chain of the calls of its plan, on the trace the synchronous part
left. -/
theorem SnapshotRecover_realised (env : Env) (req : SnapshotRecoverReq) (w : World)
    (backupType localDir : String)
    (hget : env.snapshotGet w.trace req.ID = none)
    (hguard : ¬ (req.IsNew = false ∧ w.snap.InterruptStep ≠ "" ∧ w.snap.RollbackStatus ≠ ""))
    (hbackup : env.backupGet w.trace w.snap.From = .ok backupType)
    (hclient : env.newClient w.trace = none)
    (hdir : env.loadLocalDir w.trace = .ok localDir) (c : RecoverCtx)
    (hc : c = { snap := w.snap, req := req, backupType := backupType, localDir := localDir,
                operation := if w.snap.InterruptStep ≠ "" ∧ req.IsNew = false then "re-recover"
                  else "recover" }) :
    (SnapshotRecover env req w).1 = none
    ∧ (∃ w2, (SnapshotRecover env req w).2
        = recoverDownload env c (decide (w.snap.InterruptStep ≠ "" ∧ req.IsNew = false)) w2)
    ∧ Realises c (SnapshotRecover env req w).2
        (recoverCalls env c
          (planDownload w.snap.InterruptStep req.ReDownload true
            (decide (w.snap.InterruptStep ≠ "" ∧ req.IsNew = false)))
          forwardSteps
          { trace := recoverLaunch env (localDir ++ "/system/" ++ w.snap.Name) w.snap.ID w.trace,
            snapJson := SnapshotJson.zero, liveRestore := false }) := by
  subst hc
  have hrun : SnapshotRecover env req w
      = (none, recoverDownload env
          { snap := w.snap, req := req, backupType := backupType, localDir := localDir,
            operation := if w.snap.InterruptStep ≠ "" ∧ req.IsNew = false then "re-recover"
              else "recover" }
          (decide (w.snap.InterruptStep ≠ "" ∧ req.IsNew = false))
          { trace := recoverLaunch env (localDir ++ "/system/" ++ w.snap.Name) w.snap.ID w.trace,
            snap := { w.snap with RecoverStatus := StatusWaiting } }) := by
    simp only [SnapshotRecover, hget, hguard, hbackup, hclient, hdir, if_false]
    simp only [recoverLaunch, repoUpdate, World.call, World.exec, osStat, osMkdirAll,
      RecoverCtx.baseDir]
    cases env.stat w.trace (localDir ++ "/system/" ++ w.snap.Name) <;>
      simp [setColumn]
  rw [hrun]
  refine ⟨rfl, ⟨_, rfl⟩, ?_⟩
  exact recoverDownload_sim env _ _ _ _ _ rfl rfl (fun x _ => Iff.rfl)

/-! ## The chain of a plan whose calls all return nil -/

theorem recoverBetween_liveRestore (env : Env) (c : RecoverCtx) (s : Step) (st : StepState) :
    (recoverBetween env c s st).liveRestore = st.liveRestore := by
  cases s <;> rfl

theorem recoverStepCall_liveRestore (env : Env) (c : RecoverCtx) (s : Step)
    (st st1 : StepState) (res : Ending) (hs : s ≠ .LoadDockerJson)
    (h : recoverStepCall env c s st = (res, st1)) : st1.liveRestore = st.liveRestore := by
  cases s <;> simp only [recoverStepCall, StepState.mutate] at h
  case LoadDockerJson => exact absurd rfl hs
  case Download =>
    split at h <;> simp only [Prod.mk.injEq] at h <;> rw [← h.2]
  case Readjson =>
    split at h <;> simp only [Prod.mk.injEq] at h <;> rw [← h.2]
  all_goals
    simp only [Prod.mk.injEq] at h
    rw [← h.2]

theorem recoverCalls_ok_due (env : Env) (c : RecoverCtx) (P : List String) (s : Step)
    (rest : List Step) (st : StepState) (hin : s.name ∈ P) (hs : s ≠ .UpdateLiveRestore)
    (hok : ∀ p ∈ (recoverCalls env c P (s :: rest) st).log, p.2 = none)
    (hnp : (recoverCalls env c P (s :: rest) st).panicked = false) :
    ∃ st1, recoverStepCall env c s (recoverBetween env c s st) = (.returned none, st1)
      ∧ recoverCalls env c P (s :: rest) st = (recoverCalls env c P rest st1).after s.name := by
  rw [recoverCalls_due env c P s rest st hin hs] at hok hnp ⊢
  rcases hb : recoverStepCall env c s (recoverBetween env c s st) with ⟨res, st1⟩
  rw [hb] at hok hnp
  cases res with
  | returned err =>
    cases err with
    | none => exact ⟨st1, rfl, rfl⟩
    | some e =>
      have := hok (s.name, some e) (by simp)
      simp at this
  | panicked => simp at hnp

theorem recoverCalls_ok_live (env : Env) (c : RecoverCtx) (P : List String)
    (rest : List Step) (st : StepState) (hin : "UpdateLiveRestore" ∈ P)
    (hlive : st.liveRestore = true)
    (hok : ∀ p ∈ (recoverCalls env c P (.UpdateLiveRestore :: rest) st).log, p.2 = none)
    (hnp : (recoverCalls env c P (.UpdateLiveRestore :: rest) st).panicked = false) :
    ∃ st1, recoverStepCall env c .UpdateLiveRestore st = (.returned none, st1)
      ∧ recoverCalls env c P (.UpdateLiveRestore :: rest) st
        = (recoverCalls env c P rest st1).after "UpdateLiveRestore" := by
  have hbt : recoverBetween env c .UpdateLiveRestore st = st := rfl
  have hyes : Step.UpdateLiveRestore.name ∈ P
      ∧ (Step.UpdateLiveRestore = Step.UpdateLiveRestore
        → (recoverBetween env c .UpdateLiveRestore st).liveRestore = true) :=
    ⟨hin, fun _ => hlive⟩
  rw [recoverCalls_cons, if_pos hyes, hbt] at hok hnp ⊢
  rcases hb : recoverStepCall env c .UpdateLiveRestore st with ⟨res, st1⟩
  rw [hb] at hok hnp
  cases res with
  | returned err =>
    cases err with
    | none => exact ⟨st1, rfl, rfl⟩
    | some e =>
      have := hok (Step.UpdateLiveRestore.name, some e) (by simp)
      simp at this
  | panicked => simp at hnp

theorem calls_after_ok (k : Calls) (label : String)
    (hok : ∀ p ∈ (k.after label).log, p.2 = none) : ∀ p ∈ k.log, p.2 = none :=
  fun p hp => hok p (List.mem_cons_of_mem _ hp)

/-- A chain over steps that are all in the plan, none of them LoadDockerJson
or UpdateLiveRestore, all returning nil: every step is called, in order, and
the live-restore flag is the one the chain started with. -/
theorem recoverCalls_plain (env : Env) (c : RecoverCtx) (P : List String) (steps : List Step)
    (st : StepState)
    (hsteps : ∀ s ∈ steps, s.name ∈ P ∧ s ≠ .UpdateLiveRestore ∧ s ≠ .LoadDockerJson)
    (hok : ∀ p ∈ (recoverCalls env c P steps st).log, p.2 = none)
    (hnp : (recoverCalls env c P steps st).panicked = false) :
    (recoverCalls env c P steps st).log.map Prod.fst = steps.map Step.name
    ∧ (recoverCalls env c P steps st).state.liveRestore = st.liveRestore := by
  induction steps generalizing st with
  | nil => exact ⟨rfl, rfl⟩
  | cons s rest ih =>
    obtain ⟨hin, hs1, hs2⟩ := hsteps s (List.mem_cons_self _ _)
    obtain ⟨st1, hcall, hk⟩ := recoverCalls_ok_due env c P s rest st hin hs1 hok hnp
    rw [hk] at hok hnp ⊢
    obtain ⟨h1, h2⟩ := ih st1 (fun t ht => hsteps t (List.mem_cons_of_mem _ ht))
      (calls_after_ok _ _ hok) hnp
    refine ⟨by simp [Calls.after, h1], ?_⟩
    show (recoverCalls env c P rest st1).state.liveRestore = st.liveRestore
    rw [h2, recoverStepCall_liveRestore env c s _ st1 _ hs2 hcall, recoverBetween_liveRestore]

/-- The chain of the whole sequence, every label being in the plan and every
call returning nil: the steps called are the twelve steps in order, without
UpdateLiveRestore when the probe of this chain reported live-restore off. -/
theorem recoverCalls_full (env : Env) (c : RecoverCtx) (P : List String) (st : StepState)
    (hP : ∀ x ∈ forwardSteps.map Step.name, x ∈ P)
    (hok : ∀ p ∈ (recoverCalls env c P forwardSteps st).log, p.2 = none)
    (hnp : (recoverCalls env c P forwardSteps st).panicked = false) :
    (recoverCalls env c P forwardSteps st).log.map Prod.fst
      = ["Download", "Decompress", "Readjson", "LoadDockerJson"]
        ++ (if (recoverCalls env c P forwardSteps st).state.liveRestore = true
            then ["UpdateLiveRestore"] else [])
        ++ mutatorLabels := by
  have hfw : forwardSteps = .Download :: .Decompress :: .Readjson :: .LoadDockerJson
      :: .UpdateLiveRestore :: mutatorSteps := rfl
  have hmut : ∀ s ∈ mutatorSteps, s.name ∈ P ∧ s ≠ .UpdateLiveRestore ∧ s ≠ .LoadDockerJson := by
    intro s hs
    refine ⟨hP _ ?_, ?_, ?_⟩
    · revert s; decide
    · rintro rfl; revert hs; decide
    · rintro rfl; revert hs; decide
  rw [hfw] at hok hnp ⊢
  obtain ⟨st1, _, hk1⟩ := recoverCalls_ok_due env c P .Download _ st (hP _ (by decide))
    (by decide) hok hnp
  rw [hk1] at hok hnp ⊢
  have hok1 := calls_after_ok _ _ hok
  obtain ⟨st2, _, hk2⟩ := recoverCalls_ok_due env c P .Decompress _ st1 (hP _ (by decide))
    (by decide) hok1 hnp
  rw [hk2] at hok1 hnp ⊢
  have hok2 := calls_after_ok _ _ hok1
  obtain ⟨st3, _, hk3⟩ := recoverCalls_ok_due env c P .Readjson _ st2 (hP _ (by decide))
    (by decide) hok2 hnp
  rw [hk3] at hok2 hnp ⊢
  have hok3 := calls_after_ok _ _ hok2
  obtain ⟨st4, _, hk4⟩ := recoverCalls_ok_due env c P .LoadDockerJson _ st3 (hP _ (by decide))
    (by decide) hok3 hnp
  rw [hk4] at hok3 hnp ⊢
  have hok4 := calls_after_ok _ _ hok3
  cases hl : st4.liveRestore with
  | true =>
    obtain ⟨st5, hcall5, hk5⟩ := recoverCalls_ok_live env c P _ st4 (hP _ (by decide)) hl
      hok4 hnp
    rw [hk5] at hok4 hnp ⊢
    obtain ⟨h1, h2⟩ := recoverCalls_plain env c P mutatorSteps st5 hmut
      (calls_after_ok _ _ hok4) hnp
    have h5 : st5.liveRestore = true := by
      rw [recoverStepCall_liveRestore env c .UpdateLiveRestore st4 st5 _ (by decide) hcall5, hl]
    have hfin : (recoverCalls env c P mutatorSteps st5).state.liveRestore = true := by
      rw [h2, h5]
    simp only [Calls.after, List.map_cons, h1, hfin, if_true]
    rfl
  | false =>
    have hno : ¬ (Step.UpdateLiveRestore.name ∈ P
        ∧ (Step.UpdateLiveRestore = Step.UpdateLiveRestore
          → (recoverBetween env c .UpdateLiveRestore st4).liveRestore = true)) := by
      rintro ⟨_, h⟩
      have := h rfl
      rw [recoverBetween_liveRestore, hl] at this
      exact absurd this (by decide)
    have hbt : recoverBetween env c .UpdateLiveRestore st4 = st4 := rfl
    rw [recoverCalls_cons, if_neg hno, hbt] at hok4 hnp ⊢
    obtain ⟨h1, h2⟩ := recoverCalls_plain env c P mutatorSteps st4 hmut hok4 hnp
    have hfin : (recoverCalls env c P mutatorSteps st4).state.liveRestore = false := by
      rw [h2, hl]
    simp only [Calls.after, List.map_cons, h1, hfin]
    rfl

/-! ## A rollback is the chain of the calls of its steps -/

theorem rollbackCalls_cons (env : Env) (rootDir originalDir : String) (s : Step)
    (rest : List Step) (st : StepState) :
    rollbackCalls env rootDir originalDir (s :: rest) st
      = if s = .UpdateLiveRestore
            ∧ (rollbackBetween env s st).snapJson.LiveRestoreEnabled = false then
          rollbackCalls env rootDir originalDir rest (rollbackBetween env s st)
        else
          match rollbackStepCall env rootDir originalDir s (rollbackBetween env s st) with
          | (.returned none, st1) => (rollbackCalls env rootDir originalDir rest st1).after s.name
          | (.returned (some e), st1) =>
            { log := [(s.name, some e)], state := st1, panicked := false }
          | (.panicked, st1) => { log := [], state := st1, panicked := true } := rfl

theorem realisesRollback_after (snap : Snapshot) (r : Option String × Run) (k : Calls)
    (label : String) (h : RealisesRollback snap r k) :
    RealisesRollback snap (afterCall label none r) (k.after label) := by
  obtain ⟨h1, h2, tail, h3, h4, h5, h6⟩ := h
  refine ⟨by simp [afterCall, Run.after, Calls.after, h1], h2, tail, h3, h4, ?_, ?_⟩
  · intro l e he
    simp only [Calls.after, List.mem_cons, Prod.mk.injEq, reduceCtorEq, and_false, false_or]
      at he
    exact h5 l e he
  · intro hp hok
    exact h6 hp (fun p hp => hok p (List.mem_cons_of_mem _ hp))

theorem realisesRollback_fail (env : Env) (snap : Snapshot) (label msg e : String) (w : World)
    (st : StepState) (hst : st.trace = w.trace) :
    RealisesRollback snap
      (some e, (Run.stop (updateRollbackStatus env snap.ID StatusFailed msg w)).after label
        (some e))
      { log := [(label, some e)], state := st, panicked := false } := by
  refine ⟨rfl, rfl,
    [.dbUpdate snap.ID
      [("rollback_status", StatusFailed), ("rollback_message", msg),
       ("last_rollbacked_at", env.now w.trace "2006-01-02 15:04:05")]], ?_, by simp, ?_, ?_⟩
  · simp [Run.after, Run.stop, updateRollbackStatus, repoUpdate, hst, StatusFailed,
      StatusSuccess]
  · intro l e' he
    simp only [List.mem_singleton, Prod.mk.injEq, Option.some.injEq] at he
    refine ⟨by rw [he.2], rfl, env.now w.trace "2006-01-02 15:04:05", ?_⟩
    simp [Run.after, Run.stop, updateRollbackStatus, repoUpdate, setColumn, StatusFailed,
      StatusSuccess]
  · intro _ hok
    have := hok (label, some e) (by simp)
    simp at this

theorem realisesRollback_panic (snap : Snapshot) (w : World) (st : StepState)
    (hst : st.trace = w.trace) :
    RealisesRollback snap (none, Run.panic w) { log := [], state := st, panicked := true } := by
  refine ⟨rfl, rfl, [], by simp [Run.panic, hst], fun _ => ⟨rfl, rfl⟩, ?_, ?_⟩
  · intro l e he; simp at he
  · intro hp; simp at hp

/-- A rollback that returns nil having logged nothing more. -/
theorem realisesRollback_done (snap : Snapshot) (r : Run) (st : StepState)
    (hlog : r.log = []) (hc : r.crashed = false) (htrace : st.trace <+: r.world.trace) :
    RealisesRollback snap (none, r) { log := [], state := st, panicked := false } := by
  obtain ⟨l, hl⟩ := htrace
  refine ⟨hlog, hc, l, hl.symm, by simp, ?_, fun _ _ => rfl⟩
  intro l e he; simp at he

theorem restartDocker_trace (env : Env) (w : World) :
    (restartDocker env w).trace = w.trace ++ [.exec "systemctl restart docker"] := by
  simp [restartDocker, World.exec, cmdExec]

theorem restartPanel_trace (env : Env) (w : World) :
    (restartPanel env w).trace
      = w.trace ++ [.exec "systemctl daemon-reload", .exec "systemctl restart 1panel.service"] := by
  simp [restartPanel, World.exec, cmdExec]

theorem rollbackStep_sim (env : Env) (snap : Snapshot) (rootDir originalDir : String) (s : Step)
    (rest : List Step) (body : History → Option String × History)
    (atBoundary : World → World) (next : World → Option String × Run) (w : World)
    (st : StepState) (hs : s ≠ .UpdateLiveRestore)
    (hcall : rollbackStepCall env rootDir originalDir s (rollbackBetween env s st)
      = (rollbackBetween env s st).mutate body)
    (hw : (rollbackBetween env s st).trace = w.trace)
    (hb : ∀ w1, w1.trace <+: (atBoundary w1).trace)
    (hnext : ∀ w1 st1, st1.trace = w1.trace →
      st1.snapJson = (rollbackBetween env s st).snapJson →
      RealisesRollback snap (next w1)
        (rollbackCalls env rootDir originalDir (stepsThrough snap.InterruptStep rest) st1)) :
    RealisesRollback snap (rollbackStep env snap s.name body atBoundary next w)
      (rollbackCalls env rootDir originalDir (stepsThrough snap.InterruptStep (s :: rest))
        st) := by
  unfold rollbackStep
  have hno : ¬ (s = .UpdateLiveRestore
      ∧ (rollbackBetween env s st).snapJson.LiveRestoreEnabled = false) := fun h => hs h.1
  by_cases hS : snap.InterruptStep = s.name
  · have hplan : stepsThrough snap.InterruptStep (s :: rest) = [s] := by
      simp only [stepsThrough, if_pos hS]
    rw [hplan, rollbackCalls_cons, if_neg hno, hcall]
    simp only [StepState.mutate, World.call, hw, if_pos hS]
    rcases hbody : body w.trace with ⟨res, h1⟩
    cases res with
    | none =>
      simp only []
      exact realisesRollback_after snap (none, Run.stop _) _ _
        (realisesRollback_done snap _ _ rfl rfl (hb { w with trace := h1 }))
    | some err =>
      simp only []
      exact realisesRollback_fail env snap _ _ _ _ _ (by rfl)
  · have hplan : stepsThrough snap.InterruptStep (s :: rest)
        = s :: stepsThrough snap.InterruptStep rest := by
      simp only [stepsThrough, if_neg hS]
    rw [hplan, rollbackCalls_cons, if_neg hno, hcall]
    simp only [StepState.mutate, World.call, hw, if_neg hS]
    rcases hbody : body w.trace with ⟨res, h1⟩
    cases res with
    | none =>
      simp only []
      exact realisesRollback_after snap _ _ _ (hnext _ _ rfl rfl)
    | some err =>
      simp only []
      exact realisesRollback_fail env snap _ _ _ _ _ (by rfl)

theorem rollbackLiveRestore_sim (env : Env) (snap : Snapshot) (rootDir originalDir : String)
    (snapJson : SnapshotJson) (rest : List Step) (next : World → Option String × Run)
    (w : World) (st : StepState) (hst : st.trace = w.trace) (hsnap : st.snapJson = snapJson)
    (hnext : ∀ w1 st1, st1.trace = w1.trace → st1.snapJson = snapJson →
      RealisesRollback snap (next w1)
        (rollbackCalls env rootDir originalDir (stepsThrough snap.InterruptStep rest) st1)) :
    RealisesRollback snap (rollbackLiveRestore env snap snapJson next w)
      (rollbackCalls env rootDir originalDir
        (stepsThrough snap.InterruptStep (.UpdateLiveRestore :: rest)) st) := by
  unfold rollbackLiveRestore
  have hbt : rollbackBetween env .UpdateLiveRestore st = st := rfl
  simp only []
  by_cases hS : snap.InterruptStep = "UpdateLiveRestore"
  · have hplan : stepsThrough snap.InterruptStep (.UpdateLiveRestore :: rest)
        = [.UpdateLiveRestore] := by
      simp only [stepsThrough, Step.name, if_pos hS]
    rw [hplan, rollbackCalls_cons, hbt, hsnap]
    simp only [if_pos hS]
    cases hl : snapJson.LiveRestoreEnabled with
    | false =>
      simp only [true_and, if_true, Bool.false_eq_true, if_false]
      exact realisesRollback_done snap _ _ rfl rfl
        (by simp [Run.stop, restartPanel_trace, hst])
    | true =>
      simp only [if_true, Bool.true_eq_false, and_false, if_false, rollbackStepCall, World.call,
        hst]
      rcases hb : updateLiveRestore env true w.trace with ⟨res, h1⟩
      cases res with
      | returned err =>
        cases err with
        | none =>
          simp only []
          exact realisesRollback_after snap (none, Run.stop _) _ _
            (realisesRollback_done snap _ _ rfl rfl
              (by simp [Run.stop, restartPanel_trace]))
        | some e =>
          simp only []
          exact realisesRollback_fail env snap _ _ _ _ _ (by rfl)
      | panicked =>
        simp only []
        exact realisesRollback_panic snap _ _ (by rfl)
  · have hplan : stepsThrough snap.InterruptStep (.UpdateLiveRestore :: rest)
        = .UpdateLiveRestore :: stepsThrough snap.InterruptStep rest := by
      simp only [stepsThrough, Step.name, if_neg hS]
    rw [hplan, rollbackCalls_cons, hbt, hsnap]
    simp only [if_neg hS]
    cases hl : snapJson.LiveRestoreEnabled with
    | false =>
      simp only [true_and, if_true, Bool.false_eq_true, if_false]
      exact hnext w st hst hsnap
    | true =>
      simp only [if_true, Bool.true_eq_false, and_false, if_false, rollbackStepCall, World.call,
        hst]
      rcases hb : updateLiveRestore env true w.trace with ⟨res, h1⟩
      cases res with
      | returned err =>
        cases err with
        | none =>
          simp only []
          exact realisesRollback_after snap _ _ _ (hnext _ _ rfl hsnap)
        | some e =>
          simp only []
          exact realisesRollback_fail env snap _ _ _ _ _ (by rfl)
      | panicked =>
        simp only []
        exact realisesRollback_panic snap _ _ (by rfl)

theorem rollbackCalls_call (env : Env) (rootDir originalDir : String) (s : Step)
    (rest : List Step) (st : StepState) (hs : s ≠ .UpdateLiveRestore) :
    rollbackCalls env rootDir originalDir (s :: rest) st
      = match rollbackStepCall env rootDir originalDir s (rollbackBetween env s st) with
        | (.returned none, st1) => (rollbackCalls env rootDir originalDir rest st1).after s.name
        | (.returned (some e), st1) =>
          { log := [(s.name, some e)], state := st1, panicked := false }
        | (.panicked, st1) => { log := [], state := st1, panicked := true } := by
  rw [rollbackCalls_cons, if_neg (fun h => hs h.1)]

theorem rollbackBetween_snapJson (env : Env) (s : Step) (st : StepState) :
    (rollbackBetween env s st).snapJson = st.snapJson := by
  cases s <;> rfl

theorem rollbackMutators_sim (env : Env) (snap : Snapshot) (snapJson : SnapshotJson)
    (rootDir originalDir : String) (w : World) (st : StepState)
    (hst : st.trace = w.trace) (hsnap : st.snapJson = snapJson) :
    RealisesRollback snap (rollbackMutators env snap snapJson rootDir originalDir w)
      (rollbackCalls env rootDir originalDir
        (stepsThrough snap.InterruptStep
          [.DockerDir, .DaemonJson, .UpdateLiveRestore, .PanelBinary, .PctlBinary,
           .PanelService, .PanelBackups, .PanelData]) st) := by
  unfold rollbackMutators
  refine rollbackStep_sim env snap rootDir originalDir .DockerDir _ _ _ _ _ st (by decide) ?_ ?_
    (fun w1 => by simp [restartDocker_trace]) (fun w1 st1 h1 hs1 => ?_)
  · simp [rollbackStepCall, rollbackBetween, hsnap]
  · simp [rollbackBetween, World.exec, hst]
  rw [rollbackBetween_snapJson, hsnap] at hs1
  refine rollbackStep_sim env snap rootDir originalDir .DaemonJson _ _ _ _ _ st1 (by decide) ?_ ?_
    (fun w2 => by simp [restartDocker_trace]) (fun w2 st2 h2 hs2 => ?_)
  · simp [rollbackStepCall, rollbackBetween]
  · simp [rollbackBetween, h1]
  rw [rollbackBetween_snapJson, hs1] at hs2
  refine rollbackLiveRestore_sim env snap rootDir originalDir snapJson _ _ w2 st2 h2 hs2
    (fun w3 st3 h3 hs3 => ?_)
  refine rollbackStep_sim env snap rootDir originalDir .PanelBinary _ _ _ _ _ st3 (by decide) ?_ ?_
    (fun w4 => by simp [restartPanel_trace]) (fun w4 st4 h4 hs4 => ?_)
  · simp [rollbackStepCall, rollbackBetween]
  · simp [rollbackBetween, h3]
  rw [rollbackBetween_snapJson, hs3] at hs4
  refine rollbackStep_sim env snap rootDir originalDir .PctlBinary _ _ _ _ _ st4 (by decide) ?_ ?_
    (fun w5 => by simp [restartPanel_trace]) (fun w5 st5 h5 hs5 => ?_)
  · simp [rollbackStepCall, rollbackBetween]
  · simp [rollbackBetween, h4]
  rw [rollbackBetween_snapJson, hs4] at hs5
  refine rollbackStep_sim env snap rootDir originalDir .PanelService _ _ _ _ _ st5 (by decide)
    ?_ ?_ (fun w6 => by simp [restartPanel_trace]) (fun w6 st6 h6 hs6 => ?_)
  · simp [rollbackStepCall, rollbackBetween]
  · simp [rollbackBetween, h5]
  rw [rollbackBetween_snapJson, hs5] at hs6
  refine rollbackStep_sim env snap rootDir originalDir .PanelBackups _ _ _ _ _ st6 (by decide)
    ?_ ?_ (fun w7 => by simp [restartPanel_trace]) (fun w7 st7 h7 hs7 => ?_)
  · simp [rollbackStepCall, rollbackBetween, hs6]
  · simp [rollbackBetween, h6]
  rw [rollbackBetween_snapJson, hs6] at hs7
  refine rollbackStep_sim env snap rootDir originalDir .PanelData [] _ _ _ _ st7 (by decide)
    ?_ ?_ (fun w8 => by simp [restartPanel_trace]) (fun w8 st8 h8 hs8 => ?_)
  · simp [rollbackStepCall, rollbackBetween, hs7]
  · simp [rollbackBetween, h7]
  exact realisesRollback_done snap _ _ rfl rfl
    (by simp [rollbackFinish, updateRollbackStatus, repoUpdate, World.exec, osRemoveAll,
      restartPanel_trace, h8, StatusSuccess])

/-- A rollback past its preconditions is the chain of the calls of its steps
up to the interrupt step, on the trace the preconditions left. -/
theorem SnapshotRollback_realised (env : Env) (req : SnapshotRecoverReq) (w : World)
    (localDir : String)
    (hget : env.snapshotGet w.trace req.ID = none)
    (hstep : ¬ (w.snap.InterruptStep = "Download" ∨ w.snap.InterruptStep = "Decompress"
      ∨ w.snap.InterruptStep = "Readjson"))
    (hdir : env.loadLocalDir w.trace = .ok localDir)
    (horig : ∀ msg, env.stat w.trace (localDir ++ "/system/" ++ w.snap.Name ++ "/original")
      ≠ .notExist msg) :
    RealisesRollback w.snap (SnapshotRollback env req w)
      (rollbackCalls env (localDir ++ "/system/" ++ w.snap.Name ++ "/" ++ w.snap.Name)
        (localDir ++ "/system/" ++ w.snap.Name ++ "/original")
        (stepsThrough w.snap.InterruptStep rollbackSteps)
        { trace := w.trace ++ [.stat (localDir ++ "/system/" ++ w.snap.Name ++ "/original"),
            .dbUpdate w.snap.ID [("rollback_status", StatusWaiting)]],
          snapJson := SnapshotJson.zero, liveRestore := false }) := by
  have hS : ¬ w.snap.InterruptStep = "Readjson" := fun h => hstep (Or.inr (Or.inr h))
  have hplan : stepsThrough w.snap.InterruptStep rollbackSteps
      = .Readjson :: stepsThrough w.snap.InterruptStep
          [.DockerDir, .DaemonJson, .UpdateLiveRestore, .PanelBinary, .PctlBinary,
           .PanelService, .PanelBackups, .PanelData] := by
    simp only [rollbackSteps, stepsThrough, Step.name, if_neg hS]
  rw [hplan, rollbackCalls_call _ _ _ .Readjson _ _ (by decide)]
  have hgo : ∀ r : StatResult, (∀ msg, r ≠ .notExist msg) →
      env.stat w.trace (localDir ++ "/system/" ++ w.snap.Name ++ "/original") = r →
      RealisesRollback w.snap (SnapshotRollback env req w)
        (match rollbackStepCall env (localDir ++ "/system/" ++ w.snap.Name ++ "/" ++ w.snap.Name)
          (localDir ++ "/system/" ++ w.snap.Name ++ "/original") .Readjson
          (rollbackBetween env .Readjson
            { trace := w.trace
                ++ [.stat (localDir ++ "/system/" ++ w.snap.Name ++ "/original"),
                    .dbUpdate w.snap.ID [("rollback_status", StatusWaiting)]],
              snapJson := SnapshotJson.zero, liveRestore := false }) with
        | (.returned none, st1) =>
          (rollbackCalls env (localDir ++ "/system/" ++ w.snap.Name ++ "/" ++ w.snap.Name)
            (localDir ++ "/system/" ++ w.snap.Name ++ "/original")
            (stepsThrough w.snap.InterruptStep
              [.DockerDir, .DaemonJson, .UpdateLiveRestore, .PanelBinary, .PctlBinary,
               .PanelService, .PanelBackups, .PanelData]) st1).after Step.Readjson.name
        | (.returned (some e), st1) =>
          { log := [(Step.Readjson.name, some e)], state := st1, panicked := false }
        | (.panicked, st1) => { log := [], state := st1, panicked := true }) := by
    intro r hr hst
    have hmodel : SnapshotRollback env req w
        = match readFromJson env
            (localDir ++ "/system/" ++ w.snap.Name ++ "/" ++ w.snap.Name ++ "/snapshot.json")
            (w.trace ++ [.stat (localDir ++ "/system/" ++ w.snap.Name ++ "/original"),
              .dbUpdate w.snap.ID [("rollback_status", StatusWaiting)]]) with
          | (.error err, h3) =>
            (some err,
              (Run.stop (updateRollbackStatus env w.snap.ID StatusFailed
                ("decompress file failed, err: " ++ err)
                { trace := h3, snap := { w.snap with RollbackStatus := StatusWaiting } })).after
                "Readjson" (some err))
          | (.ok snapJson, h3) =>
            afterCall "Readjson" none
              (rollbackMutators env w.snap snapJson
                (localDir ++ "/system/" ++ w.snap.Name ++ "/" ++ w.snap.Name)
                (localDir ++ "/system/" ++ w.snap.Name ++ "/original")
                { trace := h3, snap := { w.snap with RollbackStatus := StatusWaiting } }) := by
      simp only [SnapshotRollback, hget, if_neg hstep, hdir, World.call, osStat, hst, repoUpdate,
        List.append_assoc, List.singleton_append]
      have hset : List.foldl setColumn w.snap [("rollback_status", StatusWaiting)]
          = { w.snap with RollbackStatus := StatusWaiting } := by
        simp [List.foldl, setColumn]
      rw [hset]
      generalize readFromJson env
        (localDir ++ "/system/" ++ w.snap.Name ++ "/" ++ w.snap.Name ++ "/snapshot.json")
        (w.trace ++ [.stat (localDir ++ "/system/" ++ w.snap.Name ++ "/original"),
          .dbUpdate w.snap.ID [("rollback_status", StatusWaiting)]]) = q
      obtain ⟨res, h1⟩ := q
      cases r with
      | notExist msg => exact absurd rfl (hr msg)
      | ok => cases res <;> rfl
      | otherErr msg => cases res <;> rfl
    rw [hmodel]
    simp only [rollbackBetween, rollbackStepCall]
    generalize readFromJson env
      (localDir ++ "/system/" ++ w.snap.Name ++ "/" ++ w.snap.Name ++ "/snapshot.json")
      (w.trace ++ [.stat (localDir ++ "/system/" ++ w.snap.Name ++ "/original"),
        .dbUpdate w.snap.ID [("rollback_status", StatusWaiting)]]) = q
    obtain ⟨res, h1⟩ := q
    cases res with
    | error err => exact realisesRollback_fail env w.snap _ _ _ _ _ (by rfl)
    | ok snapJson =>
      exact realisesRollback_after w.snap _ _ _
        (rollbackMutators_sim env w.snap snapJson _ _ _ _ (by rfl) (by rfl))
  exact hgo _ horig rfl

/-! ## Calls that neither download nor decompress -/

theorem readFromJson_noTransfer (env : Env) (path : String) (h : History) :
    Appends (fun e => e.isTransfer = false) h (readFromJson env path h).2 := by
  unfold readFromJson osStat osReadFile
  cases env.stat h path with
  | ok =>
    simp only []
    cases env.readFile (h ++ [.stat path]) path with
    | error err =>
      simp only [List.append_assoc, List.singleton_append]
      exact appends_append _ _ _ (by simp [Event.isTransfer])
    | ok fileByte =>
      simp only []
      cases env.unmarshalSnapshotJson fileByte <;>
        simp only [List.append_assoc, List.singleton_append] <;>
        exact appends_append _ _ _ (by simp [Event.isTransfer])
  | notExist msg => exact appends_append _ _ _ (by simp [Event.isTransfer])
  | otherErr msg => exact appends_append _ _ _ (by simp [Event.isTransfer])

theorem loadDockerDataDir_noTransfer (env : Env) (h : History) :
    Appends (fun e => e.isTransfer = false) h (loadDockerDataDir env h).2 := by
  unfold loadDockerDataDir
  cases env.dockerInfo h <;> exact appends_append _ _ _ (by simp [Event.isTransfer])

theorem updateLiveRestore_noTransfer (env : Env) (enabled : Bool) (h : History) :
    Appends (fun e => e.isTransfer = false) h (updateLiveRestore env enabled h).2 := by
  unfold updateLiveRestore osStat osReadFile ioWriteFile cmdExec
  cases env.stat h env.DaemonJsonPath with
  | ok =>
    simp only []
    cases env.readFile (h ++ [.stat env.DaemonJsonPath]) env.DaemonJsonPath with
    | error err =>
      simp only [List.append_assoc, List.singleton_append]
      exact appends_append _ _ _ (by simp [Event.isTransfer])
    | ok file =>
      simp only []
      cases setLiveRestore (env.unmarshalMap file) enabled with
      | none =>
        simp only [List.append_assoc, List.singleton_append]
        exact appends_append _ _ _ (by simp [Event.isTransfer])
      | some deamonMap =>
        simp only []
        cases env.marshalMap deamonMap with
        | error err =>
          simp only [List.append_assoc, List.singleton_append]
          exact appends_append _ _ _ (by simp [Event.isTransfer])
        | ok newJson =>
          simp only []
          split
          · rename_i hq; simp only [Prod.mk.injEq] at hq; rw [← hq.2]
            simp only [List.append_assoc, List.singleton_append]
            exact appends_append _ _ _ (by simp [Event.isTransfer])
          · rename_i hq; simp only [Prod.mk.injEq] at hq; rw [← hq.2]
            split <;> rename_i hx <;> simp only [Prod.mk.injEq] at hx <;> rw [← hx.2] <;>
              simp only [List.append_assoc, List.singleton_append] <;>
              exact appends_append _ _ _ (by simp [Event.isTransfer])
  | notExist msg => exact appends_append _ _ _ (by simp [Event.isTransfer])
  | otherErr msg => exact appends_append _ _ _ (by simp [Event.isTransfer])

/-! ## A failed recover never reaches the closing block -/

theorem fileOp_not_transfer (e : Event) (he : e.isFileOp = true) : e.isTransfer = false := by
  cases e <;> simp_all [Event.isFileOp, Event.isTransfer]

theorem fileOps_noTransfer (h h1 : History) (hf : Appends (fun e => e.isFileOp = true) h h1) :
    Appends (fun e => e.isTransfer = false) h h1 :=
  appends_mono _ _ _ _ fileOp_not_transfer hf

theorem recoverStepCall_noTransfer (env : Env) (c : RecoverCtx) (s : Step) (st : StepState)
    (hs : s ≠ .Download ∧ s ≠ .Decompress) :
    Appends (fun e => e.isTransfer = false) st.trace (recoverStepCall env c s st).2.trace := by
  cases s
  case Download => exact absurd rfl hs.1
  case Decompress => exact absurd rfl hs.2
  case Readjson =>
    have h := readFromJson_noTransfer env (c.rootDir ++ "/snapshot.json") st.trace
    simp only [recoverStepCall]
    split <;> rename_i hq <;> rw [hq] at h <;> exact h
  case LoadDockerJson =>
    have h := loadDockerDataDir_noTransfer env st.trace
    simp only [recoverStepCall]
    split <;> rename_i hq <;> rw [hq] at h <;> exact h
  case UpdateLiveRestore => exact updateLiveRestore_noTransfer env false st.trace
  case DockerDir => exact fileOps_noTransfer _ _ (handleDockerDatas_fileOps ..)
  case DaemonJson => exact fileOps_noTransfer _ _ (handleDaemonJson_fileOps ..)
  case PanelBinary => exact fileOps_noTransfer _ _ (handleLiveFile_fileOps ..)
  case PctlBinary => exact fileOps_noTransfer _ _ (handleLiveFile_fileOps ..)
  case PanelService => exact fileOps_noTransfer _ _ (handleLiveFile_fileOps ..)
  case PanelBackups => exact fileOps_noTransfer _ _ (handleBackupDatas_fileOps ..)
  case PanelData => exact fileOps_noTransfer _ _ (handlePanelDatas_fileOps ..)

theorem recoverBetween_noTransfer (env : Env) (c : RecoverCtx) (s : Step) (st : StepState) :
    Appends (fun e => e.isTransfer = false) st.trace (recoverBetween env c s st).trace := by
  cases s <;>
    first
    | exact appends_refl _ _
    | (simp only [recoverBetween, saveJson, ioWriteFile, cmdExec, List.append_assoc]
       exact appends_append _ _ _ (by simp [Event.isTransfer]))

/-- A chain whose plan holds neither Download nor Decompress appends no
download and no decompress to the trace. -/
theorem recoverCalls_noTransfer (env : Env) (c : RecoverCtx) (P : List String)
    (hD : "Download" ∉ P) (hC : "Decompress" ∉ P) (steps : List Step) (st : StepState) :
    Appends (fun e => e.isTransfer = false) st.trace
      (recoverCalls env c P steps st).state.trace := by
  induction steps generalizing st with
  | nil => exact appends_refl _ _
  | cons s rest ih =>
    have hb := recoverBetween_noTransfer env c s st
    rw [recoverCalls_cons]
    split
    · rename_i hdue
      have hs : s ≠ .Download ∧ s ≠ .Decompress := by
        refine ⟨?_, ?_⟩ <;> rintro rfl
        · exact hD hdue.1
        · exact hC hdue.1
      have hcall := recoverStepCall_noTransfer env c s (recoverBetween env c s st) hs
      split <;> rename_i hq <;> rw [hq] at hcall
      · exact appends_trans _ _ _ _ hb (appends_trans _ _ _ _ hcall (ih _))
      · exact appends_trans _ _ _ _ hb hcall
      · exact appends_trans _ _ _ _ hb hcall
    · exact appends_trans _ _ _ _ hb (ih _)

/-! ## The claims on the recover sequence, on the calls -/

theorem planDownload_fresh (S : String) (rd : Bool) :
    planDownload S rd true false = forwardSteps.map Step.name := by
  simp [planDownload, planDecompress, planReadJson, planLoadDocker, planLiveRestore,
    planMutators, mutatorLabels, forwardSteps, Step.name]

theorem failedRun_not_ok (c : RecoverCtx) (r : Run) (h : FailedRun c r)
    (hok : ∀ p ∈ r.log, p.2 = none) : False := by
  obtain ⟨pre, S, e, h1, _⟩ := h
  have := hok (S.name, some e) (by rw [h1]; simp)
  simp at this

/-- C18.  For every recover with isReTry = false (the record has no interrupt
step, or the request has IsNew = true) whose lookups succeed: let `k` be the
chain of the calls of all twelve steps, in operation "recover", from the trace
the synchronous part left.  If every call of the chain returns nil, then the
recover is accepted; what it logged is what the calls returned; the steps
called are Download, Decompress, Readjson, LoadDockerJson, UpdateLiveRestore
exactly when the docker probe of this chain reported live-restore enabled,
then the seven mutators DockerDir .. 1PanelData, once each and in this order;
the trace of the run is the trace of the chain followed by the removal of
the extracted directory, `systemctl daemon-reload`, `systemctl restart
1panel.service` and the update of the record, and by nothing else; and the
record is left with recoverStatus Success and an empty interrupt step. -/
theorem fresh_recover_order (env : Env) (req : SnapshotRecoverReq) (w : World)
    (backupType localDir : String) (k : Calls)
    (hfresh : w.snap.InterruptStep = "" ∨ req.IsNew = true)
    (hget : env.snapshotGet w.trace req.ID = none)
    (hbackup : env.backupGet w.trace w.snap.From = .ok backupType)
    (hclient : env.newClient w.trace = none)
    (hdir : env.loadLocalDir w.trace = .ok localDir)
    (hk : recoverCalls env
        { snap := w.snap, req := req, backupType := backupType, localDir := localDir,
          operation := "recover" }
        (forwardSteps.map Step.name) forwardSteps
        { trace := recoverLaunch env (localDir ++ "/system/" ++ w.snap.Name) w.snap.ID w.trace,
          snapJson := SnapshotJson.zero, liveRestore := false } = k)
    (hok : ∀ p ∈ k.log, p.2 = none) (hnp : k.panicked = false) :
    (SnapshotRecover env req w).1 = none
    ∧ (SnapshotRecover env req w).2.log = k.log
    ∧ k.log.map Prod.fst
        = ["Download", "Decompress", "Readjson", "LoadDockerJson"]
          ++ (if k.state.liveRestore = true then ["UpdateLiveRestore"] else [])
          ++ mutatorLabels
    ∧ (∃ t, (SnapshotRecover env req w).2.world.trace = k.state.trace ++
        [.removeAll (localDir ++ "/system/" ++ w.snap.Name ++ "/" ++ w.snap.Name),
         .exec "systemctl daemon-reload", .exec "systemctl restart 1panel.service",
         .dbUpdate w.snap.ID
           [("interrupt_step", ""), ("recover_status", StatusSuccess),
            ("recover_message", ""), ("last_recovered_at", t)]])
    ∧ (SnapshotRecover env req w).2.world.snap.RecoverStatus = StatusSuccess
    ∧ (SnapshotRecover env req w).2.world.snap.InterruptStep = ""
    ∧ (SnapshotRecover env req w).2.finalized = true
    ∧ (SnapshotRecover env req w).2.crashed = false := by
  have hb : decide (w.snap.InterruptStep ≠ "" ∧ req.IsNew = false) = false := by
    rcases hfresh with h | h <;> simp [h]
  have hguard : ¬ (req.IsNew = false ∧ w.snap.InterruptStep ≠ "" ∧ w.snap.RollbackStatus ≠ "") := by
    rcases hfresh with h | h <;> simp [h]
  have hcond : ¬ (w.snap.InterruptStep ≠ "" ∧ req.IsNew = false) := by
    rcases hfresh with h | h <;> simp [h]
  obtain ⟨h1, ⟨w2, hrun⟩, hreal⟩ := SnapshotRecover_realised env req w backupType localDir hget
    hguard hbackup hclient hdir
    { snap := w.snap, req := req, backupType := backupType, localDir := localDir,
      operation := "recover" } (by rw [if_neg hcond])
  rw [hb, planDownload_fresh, hk] at hreal
  obtain ⟨hlog, hcr, tail, htr, _, _, hs⟩ := hreal
  obtain ⟨t, ht⟩ := hs hnp hok
  have hnames := recoverCalls_full env
    { snap := w.snap, req := req, backupType := backupType, localDir := localDir,
      operation := "recover" } (forwardSteps.map Step.name)
    { trace := recoverLaunch env (localDir ++ "/system/" ++ w.snap.Name) w.snap.ID w.trace,
      snapJson := SnapshotJson.zero, liveRestore := false } (fun x hx => hx)
    (by rw [hk]; exact hok) (by rw [hk]; exact hnp)
  rw [hk] at hnames
  have hsucc : SucceededRun (SnapshotRecover env req w).2 := by
    rw [hrun]
    rcases recoverDownload_terminal env _ (decide (w.snap.InterruptStep ≠ "" ∧ req.IsNew = false))
      w2 with hf | h
    · rw [← hrun] at hf
      exact absurd (failedRun_not_ok _ _ hf (by rw [hlog]; exact hok)) id
    · exact h
  refine ⟨h1, hlog, hnames, ⟨t, ?_⟩, hsucc.2.2.1, hsucc.2.1, hsucc.2.2.2, by rw [hcr, hnp]⟩
  rw [htr, ht]
  simp [recoverClosing, RecoverCtx.rootDir, RecoverCtx.baseDir]

/-- C18 (witness): a first recover of `snap_T1` on the host where everything
succeeds. -/
theorem fresh_recover_order_witness :
    (SnapshotRecover hostOk reqResume ⟨[], recordFresh⟩).1 = none
    ∧ (SnapshotRecover hostOk reqResume ⟨[], recordFresh⟩).2.log.map Prod.fst
        = ["Download", "Decompress", "Readjson", "LoadDockerJson", "DockerDir", "DaemonJson",
           "1PanelBinary", "1PctlBinary", "1PanelService", "1PanelBackups", "1PanelData"]
    ∧ (SnapshotRecover hostOk reqResume ⟨[], recordFresh⟩).2.world.snap.RecoverStatus
        = StatusSuccess := by
  have h := fresh_recover_order hostOk reqResume ⟨[], recordFresh⟩ "OSS" "/opt/1Panel/backup" _
    (Or.inl rfl) rfl rfl rfl rfl rfl (by decide) (by decide)
  exact ⟨h.1, by rw [h.2.1]; decide, h.2.2.2.2.1⟩

/-- C4 (amended).  For every recover whose lookups succeed, whatever IsNew
and ReDownload: let `k` be the chain of the calls of the steps that are due
(`planDownload`), from the trace the synchronous part left.  If the call of
step S returns an error in that chain (for Download: `err != nil || !ok`),
then what the run logged is what the calls returned, S is the last step
called and every call before it returned nil; the trace of the run is the
trace of the chain, which ends with the call of S, followed by the one update
that records the failure and by nothing else, so no later step and no closing
action is executed; recoverStatus is Failed, the persisted message ends with
the error, and the persisted interrupt step is the label of S, except that a
failed Download or Decompress of a request with ReDownload = true persists
the interrupt step the record had before the call. -/
theorem recover_failure_policy (env : Env) (req : SnapshotRecoverReq) (w : World)
    (backupType localDir : String) (k : Calls) (S : Step) (e : String)
    (hget : env.snapshotGet w.trace req.ID = none)
    (hguard : ¬ (req.IsNew = false ∧ w.snap.InterruptStep ≠ "" ∧ w.snap.RollbackStatus ≠ ""))
    (hbackup : env.backupGet w.trace w.snap.From = .ok backupType)
    (hclient : env.newClient w.trace = none)
    (hdir : env.loadLocalDir w.trace = .ok localDir)
    (hk : recoverCalls env
        { snap := w.snap, req := req, backupType := backupType, localDir := localDir,
          operation := if w.snap.InterruptStep ≠ "" ∧ req.IsNew = false then "re-recover"
            else "recover" }
        (planDownload w.snap.InterruptStep req.ReDownload true
          (decide (w.snap.InterruptStep ≠ "" ∧ req.IsNew = false)))
        forwardSteps
        { trace := recoverLaunch env (localDir ++ "/system/" ++ w.snap.Name) w.snap.ID w.trace,
          snapJson := SnapshotJson.zero, liveRestore := false } = k)
    (hfail : (S.name, some e) ∈ k.log) :
    (SnapshotRecover env req w).2.log = k.log
    ∧ (∃ pre, k.log = pre ++ [(S.name, some e)] ∧ ∀ p ∈ pre, p.2 = none)
    ∧ (∃ pfx t, (SnapshotRecover env req w).2.world.trace = k.state.trace ++
        [.dbUpdate w.snap.ID
          [("interrupt_step",
              if req.ReDownload = true ∧ (S = .Download ∨ S = .Decompress)
                then w.snap.InterruptStep else S.name),
           ("recover_status", StatusFailed), ("recover_message", pfx ++ e),
           ("last_recovered_at", t)]]
        ∧ (SnapshotRecover env req w).2.world.snap.RecoverMessage = pfx ++ e)
    ∧ (SnapshotRecover env req w).2.world.snap.InterruptStep
        = (if req.ReDownload = true ∧ (S = .Download ∨ S = .Decompress)
            then w.snap.InterruptStep else S.name)
    ∧ (SnapshotRecover env req w).2.world.snap.RecoverStatus = StatusFailed
    ∧ (SnapshotRecover env req w).2.finalized = false
    ∧ (SnapshotRecover env req w).2.crashed = false
    ∧ Appends (fun ev => ev.isClosing = false) w.trace
        (SnapshotRecover env req w).2.world.trace := by
  obtain ⟨_, _, hreal⟩ := SnapshotRecover_realised env req w backupType localDir hget hguard
    hbackup hclient hdir _ rfl
  rw [hk] at hreal
  obtain ⟨hlog, hcr, tail, htr, hp, hf, _⟩ := hreal
  obtain ⟨t, ht⟩ := hf _ _ hfail
  obtain ⟨hpre, hstep, hstatus, ⟨pfx, hmsg⟩, hfin, happ⟩ :=
    failure_policy_log env req w S e (by rw [hlog]; exact hfail)
  have hnp : k.panicked = false := by
    cases hpk : k.panicked with
    | false => rfl
    | true =>
      have h0 := (hp hpk).1
      rw [h0] at ht
      simp at ht
  refine ⟨hlog, by rw [← hlog]; exact hpre, ⟨pfx, t, ?_, hmsg⟩, hstep, hstatus, hfin,
    by rw [hcr, hnp], happ⟩
  rw [htr, ht, hstep, hmsg]

/-- C4 (witness): a first recover whose docker data extraction fails. -/
theorem recover_failure_policy_witness :
    (SnapshotRecover hostUntarFails reqResume ⟨[], recordFresh⟩).2.log
      = [("Download", none), ("Decompress", none), ("Readjson", none), ("LoadDockerJson", none),
         ("DockerDir", some "recover docker data failed, err: tar: Unexpected EOF in archive")]
    ∧ (SnapshotRecover hostUntarFails reqResume ⟨[], recordFresh⟩).2.world.snap.InterruptStep
        = "DockerDir"
    ∧ (SnapshotRecover hostUntarFails reqResume ⟨[], recordFresh⟩).2.world.snap.RecoverStatus
        = StatusFailed := by
  have h := recover_failure_policy hostUntarFails reqResume ⟨[], recordFresh⟩ "OSS"
    "/opt/1Panel/backup" _ .DockerDir
    "recover docker data failed, err: tar: Unexpected EOF in archive" rfl (by decide) rfl rfl rfl
    rfl (by decide)
  exact ⟨by rw [h.1]; decide, h.2.2.2.1, h.2.2.2.2.1⟩

theorem recoverLaunch_noTransfer (env : Env) (baseDir : String) (id : Nat) (h : History) :
    Appends (fun e => e.isTransfer = false) h (recoverLaunch env baseDir id h) := by
  unfold recoverLaunch
  cases env.stat h baseDir <;> simp only [List.append_assoc] <;>
    exact appends_append _ _ _ (by simp [Event.isTransfer])

/-- The events a run appends after the calls of its chain: none after a
panic, one update of the record after an error, the closing block
otherwise. -/
theorem realises_tail (c : RecoverCtx) (r : Run) (k : Calls) (h : Realises c r k) :
    ∃ tail, r.world.trace = k.state.trace ++ tail
      ∧ ∀ ev ∈ tail, (∃ fields, ev = .dbUpdate c.snap.ID fields) ∨ ev.isClosing = true := by
  obtain ⟨_, _, tail, htr, hp, hf, hs⟩ := h
  refine ⟨tail, htr, ?_⟩
  cases hpk : k.panicked with
  | true => rw [(hp hpk).1]; simp
  | false =>
    by_cases hok : ∀ p ∈ k.log, p.2 = none
    · obtain ⟨t, ht⟩ := hs hpk hok
      rw [ht]
      intro ev hev
      simp only [recoverClosing, List.mem_cons, List.mem_singleton, List.mem_nil_iff,
        or_false] at hev
      rcases hev with rfl | rfl | rfl | rfl
      · right; rfl
      · right; simp [Event.isClosing]
      · right; simp [Event.isClosing]
      · left; exact ⟨_, rfl⟩
    · push_neg at hok
      obtain ⟨⟨label, res⟩, hmem, hne⟩ := hok
      cases res with
      | none => exact absurd rfl hne
      | some e =>
        obtain ⟨t, ht⟩ := hf label e hmem
        rw [ht]
        intro ev hev
        simp only [List.mem_singleton] at hev
        left; exact ⟨_, hev⟩

/-- C6.  Called with operation "re-recover", each of the seven mutators only
appends events that write to its live resource and copy from the incoming
archive under `source`: nothing is written to `target` by the file mutators
(the safety copy their "recover" mode makes there) and no archive of the live
directory is made by the directory mutators.  And a recover resumed at
DaemonJson (IsNew and ReDownload off) logs neither Download nor Decompress nor
DockerDir; when its lookups succeed it is accepted and, `k` being the chain of
the calls of Readjson, DaemonJson and the five later mutators in operation
"re-recover" (every other step passed over): what the run logged is what the
calls returned, the trace of the run is the trace of the chain followed only
by updates of the record and closing events, no download and no decompress is
appended to the trace, and when every call returns nil the steps called are
Readjson, DaemonJson, 1PanelBinary, 1PctlBinary, 1PanelService, 1PanelBackups
and 1PanelData in this order, followed by the closing block. -/
theorem rerecover_keeps_safety_copy (env : Env) (source target backupDir dockerDir : String)
    (h : History) (w : World) (id : Nat) (hrec : w.snap.InterruptStep = "DaemonJson") :
    OnlyRestores [target] [source ++ "/docker/docker_data.tar.gz"] h
      (handleDockerDatas env "re-recover" source target h).2
    ∧ OnlyRestores ["/etc/docker", "/etc/docker/daemon.json"] [source] h
      (handleDaemonJson env "re-recover" source target h).2
    ∧ OnlyRestores ["/usr/local/bin/1panel"] [source] h
      (handlePanelBinary env "re-recover" source target h).2
    ∧ OnlyRestores ["/usr/local/bin/1pctl"] [source] h
      (handlePanelctlBinary env "re-recover" source target h).2
    ∧ OnlyRestores ["/etc/systemd/system/1panel.service"] [source] h
      (handlePanelService env "re-recover" source target h).2
    ∧ OnlyRestores [target] [source ++ "/1panel/1panel_backup.tar.gz"] h
      (handleBackupDatas env "re-recover" source target h).2
    ∧ OnlyRestores [target] [source ++ "/1panel/1panel_data.tar.gz"] h
      (handlePanelDatas env "re-recover" source target backupDir dockerDir h).2
    ∧ "Download" ∉ (SnapshotRecover env ⟨false, false, id⟩ w).2.names
    ∧ "Decompress" ∉ (SnapshotRecover env ⟨false, false, id⟩ w).2.names
    ∧ "DockerDir" ∉ (SnapshotRecover env ⟨false, false, id⟩ w).2.names
    ∧ ∀ (backupType localDir : String) (k : Calls),
        env.snapshotGet w.trace id = none → w.snap.RollbackStatus = "" →
        env.backupGet w.trace w.snap.From = .ok backupType → env.newClient w.trace = none →
        env.loadLocalDir w.trace = .ok localDir →
        recoverCalls env
          { snap := w.snap, req := ⟨false, false, id⟩, backupType := backupType,
            localDir := localDir, operation := "re-recover" }
          ["Readjson", "DaemonJson", "1PanelBinary", "1PctlBinary", "1PanelService",
           "1PanelBackups", "1PanelData"]
          forwardSteps
          { trace := recoverLaunch env (localDir ++ "/system/" ++ w.snap.Name) w.snap.ID w.trace,
            snapJson := SnapshotJson.zero, liveRestore := false } = k →
        (SnapshotRecover env ⟨false, false, id⟩ w).1 = none
        ∧ (SnapshotRecover env ⟨false, false, id⟩ w).2.log = k.log
        ∧ (SnapshotRecover env ⟨false, false, id⟩ w).2.crashed = k.panicked
        ∧ (∃ tail, (SnapshotRecover env ⟨false, false, id⟩ w).2.world.trace
              = k.state.trace ++ tail
            ∧ ∀ ev ∈ tail, (∃ fields, ev = .dbUpdate w.snap.ID fields) ∨ ev.isClosing = true)
        ∧ Appends (fun ev => ev.isTransfer = false) w.trace
            (SnapshotRecover env ⟨false, false, id⟩ w).2.world.trace
        ∧ (k.panicked = false → (∀ p ∈ k.log, p.2 = none) →
            k.log.map Prod.fst
              = ["Readjson", "DaemonJson", "1PanelBinary", "1PctlBinary", "1PanelService",
                 "1PanelBackups", "1PanelData"]
            ∧ ∃ t, (SnapshotRecover env ⟨false, false, id⟩ w).2.world.trace = k.state.trace ++
                [.removeAll (localDir ++ "/system/" ++ w.snap.Name ++ "/" ++ w.snap.Name),
                 .exec "systemctl daemon-reload", .exec "systemctl restart 1panel.service",
                 .dbUpdate w.snap.ID
                   [("interrupt_step", ""), ("recover_status", StatusSuccess),
                    ("recover_message", ""), ("last_recovered_at", t)]]) := by
  have hframe := rerecover_frame env source target backupDir dockerDir h w id hrec
  refine ⟨hframe.1, hframe.2.1, hframe.2.2.1, hframe.2.2.2.1, hframe.2.2.2.2.1,
    hframe.2.2.2.2.2.1, hframe.2.2.2.2.2.2.1, hframe.2.2.2.2.2.2.2.1,
    hframe.2.2.2.2.2.2.2.2.1, hframe.2.2.2.2.2.2.2.2.2.1, ?_⟩
  intro backupType localDir k hget hroll hbackup hclient hdir hk
  have hne : w.snap.InterruptStep ≠ "" := by rw [hrec]; decide
  have hb : decide (w.snap.InterruptStep ≠ "" ∧ (false : Bool) = false) = true := by
    simp [hne]
  have hguard : ¬ ((false : Bool) = false ∧ w.snap.InterruptStep ≠ ""
      ∧ w.snap.RollbackStatus ≠ "") := by simp [hroll]
  have hcond : w.snap.InterruptStep ≠ "" ∧ (false : Bool) = false := ⟨hne, rfl⟩
  have hplan : planDownload "DaemonJson" false true true
      = ["Readjson", "DaemonJson", "1PanelBinary", "1PctlBinary", "1PanelService",
         "1PanelBackups", "1PanelData"] := by decide
  obtain ⟨h1, _, hreal⟩ := SnapshotRecover_realised env ⟨false, false, id⟩ w backupType localDir
    hget hguard hbackup hclient hdir
    { snap := w.snap, req := ⟨false, false, id⟩, backupType := backupType, localDir := localDir,
      operation := "re-recover" } (by rw [if_pos hcond])
  rw [hb, hrec, hplan, hk] at hreal
  obtain ⟨tail, htr, htail⟩ := realises_tail _ _ _ hreal
  have hcalls := recoverCalls_noTransfer env
    { snap := w.snap, req := ⟨false, false, id⟩, backupType := backupType, localDir := localDir,
      operation := "re-recover" }
    ["Readjson", "DaemonJson", "1PanelBinary", "1PctlBinary", "1PanelService",
     "1PanelBackups", "1PanelData"] (by decide) (by decide) forwardSteps
    { trace := recoverLaunch env (localDir ++ "/system/" ++ w.snap.Name) w.snap.ID w.trace,
      snapJson := SnapshotJson.zero, liveRestore := false }
  rw [hk] at hcalls
  refine ⟨h1, hreal.1, hreal.2.1, ⟨tail, htr, htail⟩, ?_, ?_⟩
  · rw [htr]
    refine appends_trans _ _ _ _ (recoverLaunch_noTransfer env _ _ _)
      (appends_trans _ _ _ _ hcalls (appends_append _ _ _ ?_))
    intro ev hev
    rcases htail ev hev with ⟨f, rfl⟩ | hc
    · rfl
    · cases ev <;> simp_all [Event.isClosing, Event.isTransfer]
  · intro hnp hok
    have hlog := hreal.1
    obtain ⟨_, _, tail2, htr2, _, _, hs⟩ := hreal
    obtain ⟨t, ht⟩ := hs hnp hok
    have hnames := (hframe.2.2.2.2.2.2.2.2.2.2 h1).2 (by
      intro p hp; rw [hlog] at hp; exact hok p hp)
    refine ⟨?_, t, ?_⟩
    · rw [← hlog]; exact hnames
    · rw [htr2, ht]
      simp [recoverClosing, RecoverCtx.rootDir, RecoverCtx.baseDir]

/-- C6 (witness): resumed at DaemonJson on the host where everything succeeds. -/
theorem rerecover_keeps_safety_copy_witness :
    (recordFailedAt "DaemonJson").InterruptStep = "DaemonJson"
    ∧ (resumeAt hostOk "DaemonJson").1 = none
    ∧ (resumeAt hostOk "DaemonJson").2.log
        = [("Readjson", none), ("DaemonJson", none), ("1PanelBinary", none),
           ("1PctlBinary", none), ("1PanelService", none), ("1PanelBackups", none),
           ("1PanelData", none)] := by
  have h := (rerecover_keeps_safety_copy hostOk "/opt/1Panel/backup/system/snap_T1/snap_T1"
    "/var/lib/docker" "" "" [] ⟨[], recordFailedAt "DaemonJson"⟩ 1 rfl).2.2.2.2.2.2.2.2.2.2
    "OSS" "/opt/1Panel/backup" _ rfl rfl rfl rfl rfl rfl
  exact ⟨rfl, h.1, by rw [show (resumeAt hostOk "DaemonJson").2.log = _ from h.2.1]; decide⟩

/-- C19.  A rollback that is accepted (the record is found, its interrupt step
is past Readjson, the original directory is there), `k` being the chain of the
calls it stands for (the manifest read, then the mutators up to the interrupt
step, each called with operation "rollback"): when one of these calls returns
an error `e`, `SnapshotRollback` returns `e`; what the run logged is what the
calls returned, the failed call being the last one and every call before it
having returned nil, so no later step is called; after the events of the
failed call the run appends one single event, the update of the record to
rollbackStatus Failed with a message ending in `e`, and neither restarts the
panel nor removes a directory; interruptStep and recoverStatus are as they
were. -/
theorem rollback_failure_halts (env : Env) (req : SnapshotRecoverReq) (w : World)
    (localDir : String) (k : Calls) (label e : String)
    (hget : env.snapshotGet w.trace req.ID = none)
    (hstep : ¬ (w.snap.InterruptStep = "Download" ∨ w.snap.InterruptStep = "Decompress"
      ∨ w.snap.InterruptStep = "Readjson"))
    (hdir : env.loadLocalDir w.trace = .ok localDir)
    (horig : ∀ msg, env.stat w.trace (localDir ++ "/system/" ++ w.snap.Name ++ "/original")
      ≠ .notExist msg)
    (hk : rollbackCalls env (localDir ++ "/system/" ++ w.snap.Name ++ "/" ++ w.snap.Name)
        (localDir ++ "/system/" ++ w.snap.Name ++ "/original")
        (stepsThrough w.snap.InterruptStep rollbackSteps)
        { trace := w.trace ++ [.stat (localDir ++ "/system/" ++ w.snap.Name ++ "/original"),
            .dbUpdate w.snap.ID [("rollback_status", StatusWaiting)]],
          snapJson := SnapshotJson.zero, liveRestore := false } = k)
    (hfail : (label, some e) ∈ k.log) :
    (SnapshotRollback env req w).1 = some e
    ∧ (SnapshotRollback env req w).2.log = k.log
    ∧ (∃ pre, k.log = pre ++ [(label, some e)] ∧ ∀ p ∈ pre, p.2 = none)
    ∧ (∃ pfx t, (SnapshotRollback env req w).2.world.trace = k.state.trace ++
          [.dbUpdate w.snap.ID
            [("rollback_status", StatusFailed), ("rollback_message", pfx ++ e),
             ("last_rollbacked_at", t)]]
        ∧ (SnapshotRollback env req w).2.world.snap.RollbackMessage = pfx ++ e)
    ∧ (SnapshotRollback env req w).2.finalized = false
    ∧ (SnapshotRollback env req w).2.world.snap.RollbackStatus = StatusFailed
    ∧ (SnapshotRollback env req w).2.world.snap.InterruptStep = w.snap.InterruptStep
    ∧ (SnapshotRollback env req w).2.world.snap.RecoverStatus = w.snap.RecoverStatus := by
  have hreal := SnapshotRollback_realised env req w localDir hget hstep hdir horig
  rw [hk] at hreal
  obtain ⟨hlog, _, tail, htr, _, hf, _⟩ := hreal
  obtain ⟨h1, hfin, t, ht⟩ := hf label e hfail
  obtain ⟨_, ⟨pre, hpre, hnone⟩, _, hst, ⟨pfx, hmsg⟩, hi, hr⟩ :=
    rollback_failure_log env req w label e (by rw [hlog]; exact hfail)
  refine ⟨h1, hlog, ⟨pre, by rw [← hlog]; exact hpre, hnone⟩, ⟨pfx, t, ?_, hmsg⟩, hfin, hst,
    hi, hr⟩
  rw [htr, ht, hmsg]

/-- C19 (witness): a rollback at DockerDir whose extraction fails. -/
theorem rollback_failure_halts_witness :
    (rollbackAt hostUntarFails "DockerDir").1
      = some "rollback docker data failed, err: tar: Unexpected EOF in archive"
    ∧ (rollbackAt hostUntarFails "DockerDir").2.log
      = [("Readjson", none),
         ("DockerDir", some "rollback docker data failed, err: tar: Unexpected EOF in archive")]
    ∧ (rollbackAt hostUntarFails "DockerDir").2.finalized = false := by
  have h := rollback_failure_halts hostUntarFails reqResume
    { trace := [], snap := recordFailedAt "DockerDir" } "/opt/1Panel/backup"
    (rollbackCalls hostUntarFails "/opt/1Panel/backup/system/snap_T1/snap_T1"
      "/opt/1Panel/backup/system/snap_T1/original" (stepsThrough "DockerDir" rollbackSteps)
      { trace := [.stat "/opt/1Panel/backup/system/snap_T1/original",
          .dbUpdate 1 [("rollback_status", StatusWaiting)]],
        snapJson := SnapshotJson.zero, liveRestore := false })
    "DockerDir"
    "rollback docker data failed, err: tar: Unexpected EOF in archive"
    rfl (by decide) rfl (by intro msg hx; cases hx) rfl (by decide)
  exact ⟨h.1, by rw [show (rollbackAt hostUntarFails "DockerDir").2.log = _ from h.2.1]; decide,
    h.2.2.2.2.1⟩

/-- C7 (amended).  On a record whose interrupt step is empty (as a complete
rollback leaves it), with the manifest gone with the extracted directory, a
further `SnapshotRollback` returns an error, invokes no mutator, issues no
command and writes nothing on disk; interruptStep stays empty and
recoverStatus unchanged.  It leaves the record and the trace as they were
when the lookup of the record or of the local directory fails, and appends
only the stat of the original directory when that directory is missing.
Otherwise it is not a no-op: after the stat of the original directory it
updates the record to rollbackStatus Waiting, stats the manifest, and, that
stat failing with `msg`, updates the record to rollbackStatus Failed with the
message "decompress file failed, err: find snapshot json file in recover
package failed, err: msg" and returns "find snapshot json file in recover
package failed, err: msg"; these four events are all it appends, and the
record differs from the one before the call in rollbackStatus, rollbackMessage
and lastRollbackedAt only. -/
theorem second_rollback (env : Env) (req : SnapshotRecoverReq) (w : World)
    (hrec : w.snap.InterruptStep = "")
    (hgone : ∀ localDir, env.loadLocalDir w.trace = .ok localDir →
      env.stat (w.trace ++ [.stat (localDir ++ "/system/" ++ w.snap.Name ++ "/original"),
          .dbUpdate w.snap.ID [("rollback_status", StatusWaiting)]])
        (localDir ++ "/system/" ++ w.snap.Name ++ "/" ++ w.snap.Name ++ "/snapshot.json") ≠ .ok) :
    (SnapshotRollback env req w).1 ≠ none
    ∧ (∀ T ∈ mutatorSteps, T.name ∉ (SnapshotRollback env req w).2.names)
    ∧ (∀ e ∈ (SnapshotRollback env req w).2.world.trace,
        e ∈ w.trace ∨ (e.writes = none ∧ ∀ command, e ≠ .exec command))
    ∧ (SnapshotRollback env req w).2.world.snap.InterruptStep = ""
    ∧ (SnapshotRollback env req w).2.world.snap.RecoverStatus = w.snap.RecoverStatus
    ∧ (∀ err, env.snapshotGet w.trace req.ID = some err →
        (SnapshotRollback env req w).1 = some err ∧ (SnapshotRollback env req w).2.world = w)
    ∧ (∀ err, env.snapshotGet w.trace req.ID = none → env.loadLocalDir w.trace = .error err →
        (SnapshotRollback env req w).1 = some err ∧ (SnapshotRollback env req w).2.world = w)
    ∧ (∀ localDir msg, env.snapshotGet w.trace req.ID = none →
        env.loadLocalDir w.trace = .ok localDir →
        env.stat w.trace (localDir ++ "/system/" ++ w.snap.Name ++ "/original")
          = .notExist msg →
        (SnapshotRollback env req w).1 = some ("load original dir failed, err: " ++ msg)
        ∧ (SnapshotRollback env req w).2.world.trace
            = w.trace ++ [.stat (localDir ++ "/system/" ++ w.snap.Name ++ "/original")]
        ∧ (SnapshotRollback env req w).2.world.snap = w.snap)
    ∧ (∀ localDir, env.snapshotGet w.trace req.ID = none →
        env.loadLocalDir w.trace = .ok localDir →
        (∀ msg, env.stat w.trace (localDir ++ "/system/" ++ w.snap.Name ++ "/original")
          ≠ .notExist msg) →
        ∃ msg,
          (env.stat (w.trace ++ [.stat (localDir ++ "/system/" ++ w.snap.Name ++ "/original"),
              .dbUpdate w.snap.ID [("rollback_status", StatusWaiting)]])
            (localDir ++ "/system/" ++ w.snap.Name ++ "/" ++ w.snap.Name ++ "/snapshot.json")).err
            = some msg
          ∧ (SnapshotRollback env req w).1
            = some ("find snapshot json file in recover package failed, err: " ++ msg)
          ∧ (SnapshotRollback env req w).2.log
            = [("Readjson",
                some ("find snapshot json file in recover package failed, err: " ++ msg))]
          ∧ (SnapshotRollback env req w).2.finalized = false
          ∧ (SnapshotRollback env req w).2.world.trace
            = w.trace ++
              [.stat (localDir ++ "/system/" ++ w.snap.Name ++ "/original"),
               .dbUpdate w.snap.ID [("rollback_status", StatusWaiting)],
               .stat (localDir ++ "/system/" ++ w.snap.Name ++ "/" ++ w.snap.Name
                 ++ "/snapshot.json"),
               .dbUpdate w.snap.ID
                 [("rollback_status", StatusFailed),
                  ("rollback_message", "decompress file failed, err: "
                    ++ ("find snapshot json file in recover package failed, err: " ++ msg)),
                  ("last_rollbacked_at",
                    env.now (w.trace ++
                      [.stat (localDir ++ "/system/" ++ w.snap.Name ++ "/original"),
                       .dbUpdate w.snap.ID [("rollback_status", StatusWaiting)],
                       .stat (localDir ++ "/system/" ++ w.snap.Name ++ "/" ++ w.snap.Name
                         ++ "/snapshot.json")]) "2006-01-02 15:04:05")]]
          ∧ (SnapshotRollback env req w).2.world.snap
            = { w.snap with
                RollbackStatus := StatusFailed,
                RollbackMessage := "decompress file failed, err: "
                  ++ ("find snapshot json file in recover package failed, err: " ++ msg),
                LastRollbackedAt :=
                  env.now (w.trace ++
                    [.stat (localDir ++ "/system/" ++ w.snap.Name ++ "/original"),
                     .dbUpdate w.snap.ID [("rollback_status", StatusWaiting)],
                     .stat (localDir ++ "/system/" ++ w.snap.Name ++ "/" ++ w.snap.Name
                       ++ "/snapshot.json")]) "2006-01-02 15:04:05" }) := by
  have hframe := second_rollback_frame env req w hrec hgone
  have hguard : ¬ (w.snap.InterruptStep = "Download" ∨ w.snap.InterruptStep = "Decompress"
      ∨ w.snap.InterruptStep = "Readjson") := by rw [hrec]; decide
  refine ⟨hframe.1, hframe.2.1, hframe.2.2.1, hframe.2.2.2.1, hframe.2.2.2.2.1, ?_, ?_, ?_, ?_⟩
  · intro err h1
    simp [SnapshotRollback, h1, Run.stop]
  · intro err h1 h2
    simp [SnapshotRollback, h1, h2, hguard, Run.stop]
  · intro localDir msg h1 h2 h3
    simp [SnapshotRollback, h1, h2, hguard, World.call, osStat, h3, Run.stop]
  · intro localDir h1 h2 h3
    have hstat := hgone localDir h2
    have hmain : ∀ r0 : StatResult, (∀ msg, r0 ≠ .notExist msg) →
        env.stat w.trace (localDir ++ "/system/" ++ w.snap.Name ++ "/original") = r0 →
        ∀ r : StatResult, r ≠ .ok →
        env.stat (w.trace ++ [.stat (localDir ++ "/system/" ++ w.snap.Name ++ "/original"),
            .dbUpdate w.snap.ID [("rollback_status", StatusWaiting)]])
          (localDir ++ "/system/" ++ w.snap.Name ++ "/" ++ w.snap.Name ++ "/snapshot.json") = r →
        ∀ msg, r.err = some msg →
        SnapshotRollback env req w
          = (some ("find snapshot json file in recover package failed, err: " ++ msg),
              { world :=
                  { trace := w.trace ++
                      [.stat (localDir ++ "/system/" ++ w.snap.Name ++ "/original"),
                       .dbUpdate w.snap.ID [("rollback_status", StatusWaiting)],
                       .stat (localDir ++ "/system/" ++ w.snap.Name ++ "/" ++ w.snap.Name
                         ++ "/snapshot.json"),
                       .dbUpdate w.snap.ID
                         [("rollback_status", StatusFailed),
                          ("rollback_message", "decompress file failed, err: "
                            ++ ("find snapshot json file in recover package failed, err: "
                              ++ msg)),
                          ("last_rollbacked_at",
                            env.now (w.trace ++
                              [.stat (localDir ++ "/system/" ++ w.snap.Name ++ "/original"),
                               .dbUpdate w.snap.ID [("rollback_status", StatusWaiting)],
                               .stat (localDir ++ "/system/" ++ w.snap.Name ++ "/" ++ w.snap.Name
                                 ++ "/snapshot.json")]) "2006-01-02 15:04:05")]],
                    snap := { w.snap with
                      RollbackStatus := StatusFailed,
                      RollbackMessage := "decompress file failed, err: "
                        ++ ("find snapshot json file in recover package failed, err: " ++ msg),
                      LastRollbackedAt :=
                        env.now (w.trace ++
                          [.stat (localDir ++ "/system/" ++ w.snap.Name ++ "/original"),
                           .dbUpdate w.snap.ID [("rollback_status", StatusWaiting)],
                           .stat (localDir ++ "/system/" ++ w.snap.Name ++ "/" ++ w.snap.Name
                             ++ "/snapshot.json")]) "2006-01-02 15:04:05" } },
                log := [("Readjson",
                  some ("find snapshot json file in recover package failed, err: " ++ msg))],
                finalized := false, crashed := false }) := by
      intro r0 hr0 h3 r hr h4 msg hmsg
      cases r0 with
      | notExist m => exact absurd rfl (hr0 m)
      | ok =>
        cases r with
        | ok => exact absurd rfl hr
        | notExist m =>
          simp only [StatResult.err, Option.some.injEq] at hmsg
          subst hmsg
          simp [SnapshotRollback, h1, h2, hguard, World.call, osStat, h3, readFromJson,
            repoUpdate, h4, StatResult.err, fmtErr, updateRollbackStatus, setColumn, Run.stop,
            Run.after, show StatusFailed ≠ StatusSuccess from by decide]
        | otherErr m =>
          simp only [StatResult.err, Option.some.injEq] at hmsg
          subst hmsg
          simp [SnapshotRollback, h1, h2, hguard, World.call, osStat, h3, readFromJson,
            repoUpdate, h4, StatResult.err, fmtErr, updateRollbackStatus, setColumn, Run.stop,
            Run.after, show StatusFailed ≠ StatusSuccess from by decide]
      | otherErr m0 =>
        cases r with
        | ok => exact absurd rfl hr
        | notExist m =>
          simp only [StatResult.err, Option.some.injEq] at hmsg
          subst hmsg
          simp [SnapshotRollback, h1, h2, hguard, World.call, osStat, h3, readFromJson,
            repoUpdate, h4, StatResult.err, fmtErr, updateRollbackStatus, setColumn, Run.stop,
            Run.after, show StatusFailed ≠ StatusSuccess from by decide]
        | otherErr m =>
          simp only [StatResult.err, Option.some.injEq] at hmsg
          subst hmsg
          simp [SnapshotRollback, h1, h2, hguard, World.call, osStat, h3, readFromJson,
            repoUpdate, h4, StatResult.err, fmtErr, updateRollbackStatus, setColumn, Run.stop,
            Run.after, show StatusFailed ≠ StatusSuccess from by decide]
    have hmsg : ∃ msg, (env.stat (w.trace ++
        [.stat (localDir ++ "/system/" ++ w.snap.Name ++ "/original"),
         .dbUpdate w.snap.ID [("rollback_status", StatusWaiting)]])
        (localDir ++ "/system/" ++ w.snap.Name ++ "/" ++ w.snap.Name ++ "/snapshot.json")).err
        = some msg := by
      cases h4 : env.stat (w.trace ++
        [.stat (localDir ++ "/system/" ++ w.snap.Name ++ "/original"),
         .dbUpdate w.snap.ID [("rollback_status", StatusWaiting)]])
        (localDir ++ "/system/" ++ w.snap.Name ++ "/" ++ w.snap.Name ++ "/snapshot.json") with
      | ok => exact absurd h4 hstat
      | notExist m => exact ⟨m, rfl⟩
      | otherErr m => exact ⟨m, rfl⟩
    obtain ⟨msg, hm⟩ := hmsg
    have heq := hmain _ h3 rfl _ hstat rfl msg hm
    refine ⟨msg, hm, ?_, ?_, ?_, ?_, ?_⟩ <;> rw [heq]

/-- C7 (witness): the second rollback of the recovered `snap_T1`. -/
theorem second_rollback_witness :
    firstRollback.2.world.snap.InterruptStep = ""
    ∧ secondRollback.1 ≠ none
    ∧ secondRollback.2.world.snap.InterruptStep = "" :=
  have h := second_rollback hostManifestRemoved reqResume firstRollback.2.world (by decide)
    (by
      intro localDir hl
      have hd : localDir = "/opt/1Panel/backup" := by
        simp [hostManifestRemoved, hostOk] at hl; exact hl.symm
      have hname : firstRollback.2.world.snap.Name = "snap_T1" := by decide
      have hmem : Event.removeAll "/opt/1Panel/backup/system/snap_T1/snap_T1"
          ∈ firstRollback.2.world.trace := by decide
      subst hd
      rw [hname]
      simp [hostManifestRemoved, hmem])
  ⟨by decide, h.1, h.2.2.2.1⟩

/-- C16 (amended).  With operation "snapshot" or "recover": when the stat of
`/usr/local/bin/1panel` reports that the file does not exist, with the text
`msg`, `handlePanelBinary` returns the error "1panel binary is not found in
/usr/local/bin/1panel, err: msg" and issues nothing but that stat, so no copy
is made; likewise `handlePanelctlBinary` for `/usr/local/bin/1pctl` and
`handlePanelService` for `/etc/systemd/system/1panel.service`, each with the
text of its own stat.  `handleDaemonJson` makes no copy of a missing
`/etc/docker/daemon.json` and raises no error for it: in "snapshot" mode it
returns nil after the stat, in "recover" mode it goes on exactly as in
"re-recover" mode. -/
theorem capture_missing_live (env : Env) (operation source target : String) (h : History)
    (hop : operation = "snapshot" ∨ operation = "recover") :
    (∀ msg, env.stat h "/usr/local/bin/1panel" = .notExist msg →
      handlePanelBinary env operation source target h
        = (some ("1panel binary is not found in /usr/local/bin/1panel, err: " ++ msg),
            h ++ [.stat "/usr/local/bin/1panel"]))
    ∧ (∀ msg, env.stat h "/usr/local/bin/1pctl" = .notExist msg →
      handlePanelctlBinary env operation source target h
        = (some ("1pctl binary is not found in /usr/local/bin/1pctl, err: " ++ msg),
            h ++ [.stat "/usr/local/bin/1pctl"]))
    ∧ (∀ msg, env.stat h "/etc/systemd/system/1panel.service" = .notExist msg →
      handlePanelService env operation source target h
        = (some ("1panel service is not found in /etc/systemd/system/1panel.service, err: "
              ++ msg),
            h ++ [.stat "/etc/systemd/system/1panel.service"]))
    ∧ (∀ msg, env.stat h "/etc/docker/daemon.json" = .notExist msg →
      handleDaemonJson env "snapshot" source target h
        = (none, h ++ [.stat "/etc/docker/daemon.json"])
      ∧ handleDaemonJson env "recover" source target h
        = handleDaemonJson env "re-recover" source target
            (h ++ [.stat "/etc/docker/daemon.json"])) := by
  refine ⟨?_, ?_, ?_, ?_⟩
  · intro msg h2
    simp only [handlePanelBinary, handleLiveFile, if_pos hop, osStat, h2, StatResult.err, fmtErr]
  · intro msg h3
    simp only [handlePanelctlBinary, handleLiveFile, if_pos hop, osStat, h3, StatResult.err,
      fmtErr]
  · intro msg h4
    simp only [handlePanelService, handleLiveFile, if_pos hop, osStat, h4, StatResult.err,
      fmtErr]
  · intro msg h1
    constructor
    · simp [handleDaemonJson, osStat, h1]
    · simp [handleDaemonJson, osStat, h1]

/-- C16 (witness): a snapshot on a host where the four live files are missing. -/
theorem capture_missing_live_witness :
    hostNoLiveFiles.stat [] "/usr/local/bin/1panel"
      = .notExist "stat /usr/local/bin/1panel: no such file or directory"
    ∧ handlePanelBinary hostNoLiveFiles "snapshot" ""
        "/opt/1Panel/backup/system/1panel_snapshot_20230301100000/1panel/1panel" []
      = (some ("1panel binary is not found in /usr/local/bin/1panel, err: "
            ++ "stat /usr/local/bin/1panel: no such file or directory"),
          [.stat "/usr/local/bin/1panel"])
    ∧ handleDaemonJson hostNoLiveFiles "snapshot" ""
        "/opt/1Panel/backup/system/1panel_snapshot_20230301100000/docker" []
      = (none, [.stat "/etc/docker/daemon.json"]) :=
  have h := capture_missing_live hostNoLiveFiles "snapshot" ""
  ⟨by decide,
   (h "/opt/1Panel/backup/system/1panel_snapshot_20230301100000/1panel/1panel" []
      (Or.inl rfl)).1 "stat /usr/local/bin/1panel: no such file or directory" (by decide),
   ((h "/opt/1Panel/backup/system/1panel_snapshot_20230301100000/docker" []
      (Or.inl rfl)).2.2.2 "stat /etc/docker/daemon.json: no such file or directory"
      (by decide)).1⟩

end OnePanel
